import Mathlib

/-!
The clickhouse-operator: template merge, resource creator and reconcile worker.

A shallow embedding of

* `pkg/apis/clickhouse.altinity.com/v1/type_templates.go` (`ChiTemplates.MergeFrom`),
* `pkg/model/creator.go` (the `Creator` building Services, ConfigMaps and StatefulSets),
* `pkg/controller/chi/worker.go` (the reconcile worker),

followed by the properties proved about them.
-/

set_option autoImplicit false
set_option linter.dupNamespace false

namespace V1

/-! ## Templates and `MergeFrom` -/

/-- A named template (`ChiPodTemplate`, `ChiVolumeClaimTemplate`, `ChiServiceTemplate`).
The Go struct declarations are not part of the sources at hand, so a template is its
`Name` together with its `n` leaf fields, flattened; the value `0` of a leaf field stands
for the empty (zero) value of Go, which is what `mergo` regards as "not set". `Structs`
lists the leaves of another kind: the Go structs without exported fields that are reached
through struct fields only, such as the `time.Time` of `ObjectMeta.CreationTimestamp` in a
service template (the `ObjectMeta` that `createServiceFromTemplate` copies); `0` is their
zero value too. -/
structure ChiTemplate (n : Nat) where
  Name : String
  Fields : Fin n → Nat
  Structs : List Nat := []

/-- The library call `mergo.Merge(dst, src, mergo.WithOverride)` on two templates: every leaf
field of `src` that is not empty overwrites the field of `dst`, every empty one leaves
`dst` as it is. `Name` is a leaf field like the others. A struct without exported fields is
not tested for emptiness: the library sets it to the one of `src` in every case, the zero
value included. -/
def mergoMerge {n : Nat} (dst src : ChiTemplate n) : ChiTemplate n :=
  { Name := if src.Name = "" then dst.Name else src.Name
    Fields := fun f => if src.Fields f = 0 then dst.Fields f else src.Fields f
    Structs := src.Structs }

/-- The inner loop of `MergeFrom` (`for toIndex := range templates.XTemplates`): walk the
receiver's list, merge `fromTemplate` into the first entry of the same name and `break`.
Returns `sameNameFound` and the list after the loop. -/
def mergeSameName {n : Nat} (fromTemplate : ChiTemplate n) :
    List (ChiTemplate n) → Bool × List (ChiTemplate n)
  | [] => (false, [])
  | toTemplate :: rest =>
    if toTemplate.Name = fromTemplate.Name then
      (true, mergoMerge toTemplate fromTemplate :: rest)
    else
      ((mergeSameName fromTemplate rest).1, toTemplate :: (mergeSameName fromTemplate rest).2)

/-- One iteration of the outer loop of `MergeFrom` (`for fromIndex := range from.XTemplates`):
the inner loop, and the `append` of a `DeepCopy` when `!sameNameFound`. -/
def mergeFromTemplate {n : Nat} (templates : List (ChiTemplate n))
    (fromTemplate : ChiTemplate n) : List (ChiTemplate n) :=
  let found := mergeSameName fromTemplate templates
  if !found.1 then found.2 ++ [fromTemplate] else found.2

/-- The outer loop of `MergeFrom` over the templates of `from`, in order. -/
def mergeLoop {n : Nat} (templates froms : List (ChiTemplate n)) : List (ChiTemplate n) :=
  froms.foldl mergeFromTemplate templates

/-- One of the three blocks of `MergeFrom`: guarded by `len(from.XTemplates) > 0`; a nil
receiver list becomes an empty one. -/
def mergeTemplateList {n : Nat} (templates froms : List (ChiTemplate n)) :
    List (ChiTemplate n) :=
  if froms.length > 0 then mergeLoop templates froms else templates

/-- The three template lists of an installation or of the operator configuration. -/
structure ChiTemplates (np nv ns : Nat) where
  PodTemplates : List (ChiTemplate np)
  VolumeClaimTemplates : List (ChiTemplate nv)
  ServiceTemplates : List (ChiTemplate ns)

/-- Go `func (templates *ChiTemplates) MergeFrom(from *ChiTemplates)`; the receiver is updated in
place in Go and returned here. A nil `from` is `none`. -/
def ChiTemplates.MergeFrom {np nv ns : Nat} (templates : ChiTemplates np nv ns)
    (src : Option (ChiTemplates np nv ns)) : ChiTemplates np nv ns :=
  match src with
  | none => templates
  | some src =>
    { PodTemplates := mergeTemplateList templates.PodTemplates src.PodTemplates
      VolumeClaimTemplates :=
        mergeTemplateList templates.VolumeClaimTemplates src.VolumeClaimTemplates
      ServiceTemplates := mergeTemplateList templates.ServiceTemplates src.ServiceTemplates }

/-- The first template of a list that carries the name `name`. -/
def findByName {n : Nat} (name : String) (templates : List (ChiTemplate n)) :
    Option (ChiTemplate n) :=
  templates.find? (fun t => decide (t.Name = name))

/-- The templates of a list that carry the name `name`. -/
def allByName {n : Nat} (name : String) (templates : List (ChiTemplate n)) :
    List (ChiTemplate n) :=
  templates.filter (fun t => decide (t.Name = name))

/-- The value the source gives to leaf field `f` of the template named `name`: the value of
the last source template of that name that sets the field, if there is one. -/
def sourceValue {n : Nat} (name : String) (froms : List (ChiTemplate n)) (f : Fin n) :
    Option Nat :=
  ((allByName name froms).reverse.find? (fun t => decide (t.Fields f ≠ 0))).map
    (fun t => t.Fields f)

/-- The value the source gives to the struct leaves without exported fields of the template
named `name`: the one of the last source template of that name, if there is one. -/
def sourceStructs {n : Nat} (name : String) (froms : List (ChiTemplate n)) :
    Option (List Nat) :=
  (allByName name froms).getLast?.map (fun t => t.Structs)

/-- The destination of the example: one pod template `x` with `F = 3`, `G = 7`. -/
def exampleDestination : ChiTemplates 2 2 2 :=
  { PodTemplates := [{ Name := "x", Fields := ![3, 7] }]
    VolumeClaimTemplates := []
    ServiceTemplates := [] }

/-- The source of the example: one pod template `x` with `F = 5` and `G` not set. -/
def exampleSource : ChiTemplates 2 2 2 :=
  { PodTemplates := [{ Name := "x", Fields := ![5, 0] }]
    VolumeClaimTemplates := []
    ServiceTemplates := [] }

/-- A source with one service template `y`, unknown to `exampleDestination`. -/
def exampleSourceNew : ChiTemplates 2 2 2 :=
  { PodTemplates := []
    VolumeClaimTemplates := []
    ServiceTemplates := [{ Name := "y", Fields := ![4, 0] }] }

/-- A destination with one service template `s`: a field of value 9 and the creation
timestamp 1577836800. -/
def exampleDestinationStamped : ChiTemplates 2 2 2 :=
  { PodTemplates := []
    VolumeClaimTemplates := []
    ServiceTemplates := [{ Name := "s", Fields := ![9, 0], Structs := [1577836800] }] }

/-- A source with the service template `s` that sets no field and has the zero creation
timestamp. -/
def exampleSourceUnstamped : ChiTemplates 2 2 2 :=
  { PodTemplates := []
    VolumeClaimTemplates := []
    ServiceTemplates := [{ Name := "s", Fields := ![0, 0], Structs := [0] }] }

/-- A source whose pod templates repeat the name `x` and bring the new name `z` twice. -/
def exampleSourceRepeating : ChiTemplates 2 2 2 :=
  { PodTemplates :=
      [ { Name := "x", Fields := ![5, 0] }, { Name := "z", Fields := ![1, 0] },
        { Name := "x", Fields := ![0, 9] }, { Name := "z", Fields := ![0, 2] } ]
    VolumeClaimTemplates := []
    ServiceTemplates := [] }

end V1

namespace Model

/-! ## Kubernetes payloads

The fields of the Kubernetes API types that `creator.go` reads or writes. -/

/-- A Go `map[string]string`. -/
abbrev StringMap := List (String × String)

/-- Go `intstr.IntOrString`. -/
inductive IntOrString where
  | int (n : Int)
  | str (s : String)
  deriving DecidableEq, Repr

/-- Go `intstr.FromInt`. -/
def intstrFromInt (n : Int) : IntOrString := IntOrString.int n

/-- Go `intstr.Parse`: a number when the text is one, the text otherwise. -/
def intstrParse (s : String) : IntOrString :=
  match s.toInt? with
  | some n => IntOrString.int n
  | none => IntOrString.str s

/-- Go `metav1.ObjectMeta`. -/
structure ObjectMeta where
  Name : String := ""
  Namespace : String := ""
  Labels : StringMap := []
  Annotations : StringMap := []
  deriving DecidableEq, Repr

/-- Go `corev1.ServicePort`; `Port` is an `int32`. -/
structure ServicePort where
  Name : String := ""
  Protocol : String := ""
  Port : Int := 0
  TargetPort : IntOrString := IntOrString.int 0
  deriving DecidableEq, Repr

/-- Go `corev1.ServiceSpec`; `ServiceType` is its field `Type`. -/
structure ServiceSpec where
  Ports : List ServicePort := []
  Selector : StringMap := []
  ClusterIP : String := ""
  ServiceType : String := ""
  PublishNotReadyAddresses : Bool := false
  deriving DecidableEq, Repr

/-- Go `corev1.Service`. -/
structure Service where
  ObjectMeta : ObjectMeta := {}
  Spec : ServiceSpec := {}
  deriving DecidableEq, Repr

/-- Go `corev1.ConfigMap`. -/
structure ConfigMap where
  ObjectMeta : ObjectMeta := {}
  Data : StringMap := []
  deriving DecidableEq, Repr

/-- Go `corev1.VolumeMount`. -/
structure VolumeMount where
  Name : String := ""
  MountPath : String := ""
  deriving DecidableEq, Repr

/-- Go `corev1.Volume`; of the volume sources only the ConfigMap reference
(`VolumeSource.ConfigMap.LocalObjectReference.Name`) is used. -/
structure Volume where
  Name : String := ""
  ConfigMap : Option String := none
  deriving DecidableEq, Repr

/-- Go `corev1.ContainerPort`. -/
structure ContainerPort where
  Name : String := ""
  ContainerPort : Int := 0
  deriving DecidableEq, Repr

/-- Go `corev1.Probe` with an `HTTPGet` handler. -/
structure Probe where
  Path : String := ""
  Port : IntOrString := IntOrString.int 0
  InitialDelaySeconds : Int := 0
  PeriodSeconds : Int := 0
  deriving DecidableEq, Repr

/-- Go `corev1.Container`. -/
structure Container where
  Name : String := ""
  Image : String := ""
  Command : List String := []
  Args : List String := []
  Ports : List ContainerPort := []
  VolumeMounts : List VolumeMount := []
  ReadinessProbe : Option Probe := none
  deriving DecidableEq, Repr

/-- Go `corev1.HostAlias`. -/
structure HostAlias where
  IP : String := ""
  Hostnames : List String := []
  deriving DecidableEq, Repr

/-- Go `corev1.PodSpec`. -/
structure PodSpec where
  Containers : List Container := []
  Volumes : List Volume := []
  HostAliases : List HostAlias := []
  deriving DecidableEq, Repr

/-- Go `corev1.PodTemplateSpec`. -/
structure PodTemplateSpec where
  ObjectMeta : ObjectMeta := {}
  Spec : PodSpec := {}
  deriving DecidableEq, Repr

/-- Go `corev1.PersistentVolumeClaimSpec`; copied as a whole, never inspected. -/
structure PersistentVolumeClaimSpec where
  AccessModes : List String := []
  StorageClassName : String := ""
  Storage : String := ""
  deriving DecidableEq, Repr

/-- Go `corev1.PersistentVolumeClaim`. -/
structure PersistentVolumeClaim where
  ObjectMeta : ObjectMeta := {}
  Spec : PersistentVolumeClaimSpec := {}
  deriving DecidableEq, Repr

/-- Go `apps.StatefulSetSpec`; `Replicas` is a pointer to an `int32`, `Selector` a pointer to a
`metav1.LabelSelector` holding `MatchLabels`. -/
structure StatefulSetSpec where
  Replicas : Option Int := none
  ServiceName : String := ""
  Selector : Option StringMap := none
  VolumeClaimTemplates : List PersistentVolumeClaim := []
  Template : PodTemplateSpec := {}
  deriving DecidableEq, Repr

/-- Go `apps.StatefulSet`. -/
structure StatefulSet where
  ObjectMeta : ObjectMeta := {}
  Spec : StatefulSetSpec := {}
  deriving DecidableEq, Repr

/-! ## The installation tree

The declarations of package `v1` are not among the sources; these are the fields the
creator and the worker use. -/

/-- Go `ChiPodTemplate` as the creator reads it. -/
structure ChiPodTemplate where
  Name : String := ""
  Spec : PodSpec := {}
  deriving DecidableEq, Repr

/-- Go `ChiVolumeClaimTemplate` as the creator reads it. -/
structure ChiVolumeClaimTemplate where
  Name : String := ""
  Spec : PersistentVolumeClaimSpec := {}
  deriving DecidableEq, Repr

/-- Go `ChiServiceTemplate` as the creator reads it. -/
structure ChiServiceTemplate where
  Name : String := ""
  ObjectMeta : ObjectMeta := {}
  Spec : ServiceSpec := {}
  deriving DecidableEq, Repr

/-- The address of a node of the tree (`ChiClusterAddress`, `ChiShardAddress`,
`ChiHostAddress`). -/
structure ChiAddress where
  Namespace : String := ""
  ChiName : String := ""
  ClusterName : String := ""
  ClusterIndex : Nat := 0
  ShardIndex : Nat := 0
  ReplicaIndex : Nat := 0
  deriving DecidableEq, Repr

/-- The template names a node refers to (`ChiTemplateNames`). -/
structure ChiTemplateNames where
  PodTemplate : String := ""
  DataVolumeClaimTemplate : String := ""
  LogVolumeClaimTemplate : String := ""
  ServiceTemplate : String := ""
  deriving DecidableEq, Repr

/-- Go `ChiHost`. -/
structure ChiHost where
  Name : String := ""
  Address : ChiAddress := {}
  Templates : ChiTemplateNames := {}
  deriving DecidableEq, Repr

/-- Go `ChiShard` with its hosts (`Replicas`). -/
structure ChiShard where
  Name : String := ""
  Address : ChiAddress := {}
  Templates : ChiTemplateNames := {}
  Replicas : List ChiHost := []
  deriving DecidableEq, Repr

/-- Go `ChiCluster` with its shards (`Layout.Shards`). -/
structure ChiCluster where
  Name : String := ""
  Address : ChiAddress := {}
  Templates : ChiTemplateNames := {}
  Shards : List ChiShard := []
  deriving DecidableEq, Repr

/-- Modelled from the spec: the phase of an installation, `Status.Status`, one of `New`,
`InProgress`, `Completed`, `Failed` (§3); `chop.StatusInProgress` and `chop.StatusCompleted`
are declared outside the sources. -/
inductive StatusPhase where
  | New
  | InProgress
  | Completed
  | Failed
  deriving DecidableEq, Repr

/-- Go `ChiStatus`. -/
structure ChiStatus where
  Status : StatusPhase := StatusPhase.New
  UpdatedHostsCount : Int := 0
  AddedHostsCount : Int := 0
  DeletedHostsCount : Int := 0
  DeleteHostsCount : Int := 0
  deriving DecidableEq, Repr

/-- Go `ClickHouseInstallation`: `Namespace`, `Name` and `ResourceVersion` of its `ObjectMeta`,
the clusters `Spec.Configuration.Clusters`, the template names `Spec.Defaults.Templates`
and the `Status`. The zero value `&chop.ClickHouseInstallation{}` is `{}`. -/
structure ClickHouseInstallation where
  Namespace : String := ""
  Name : String := ""
  ResourceVersion : String := ""
  Templates : ChiTemplateNames := {}
  Clusters : List ChiCluster := []
  Status : ChiStatus := {}
  deriving DecidableEq, Repr

/-- The operator configuration `chiv1.Config`, as far as the worker reads it. -/
structure Config where
  ChUsername : String := ""
  ChPassword : String := ""
  ChPort : Int := 0
  deriving DecidableEq, Repr

/-! ## What the creator uses from the rest of the repository -/

/-- Go `Labeler`, made by `NewLabeler(appVersion, chi)`. -/
structure Labeler where
  getLabelsChiScope : StringMap
  getSelectorChiScope : StringMap
  getLabelsClusterScope : ChiCluster → StringMap
  getSelectorClusterScope : ChiCluster → StringMap
  getLabelsShardScope : ChiShard → StringMap
  getSelectorShardScope : ChiShard → StringMap
  getLabelsHostScope : ChiHost → Bool → StringMap
  GetSelectorHostScope : ChiHost → StringMap

/-- The generator `configSections`, made by `NewConfigSections`: `commonConfigSections` as
`CreateConfigsCommon()` fills it, `commonUsersConfigSections` as `CreateConfigsUsers()` fills
it, and `CreateConfigsPod`. -/
structure ConfigSections where
  commonConfigSections : StringMap
  commonUsersConfigSections : StringMap
  CreateConfigsPod : ChiHost → StringMap

/-- Constants and functions of packages `model`, `v1` and `util` that `creator.go` uses and
that are declared in other files. A node's back pointer to its installation is the
installation given next to the node. -/
structure Deps where
  chDefaultHTTPPortName : String
  chDefaultHTTPPortNumber : Int
  chDefaultClientPortName : String
  chDefaultClientPortNumber : Int
  chDefaultInterServerPortName : String
  chDefaultInterServerPortNumber : Int
  templateDefaultsServiceClusterIP : String
  ClickHouseContainerName : String
  ClickHouseLogContainerName : String
  defaultClickHouseDockerImage : String
  defaultBusyBoxDockerImage : String
  dirPathConfigd : String
  dirPathUsersd : String
  dirPathConfd : String
  dirPathClickHouseData : String
  dirPathClickHouseLog : String
  CreateChiServiceName : ClickHouseInstallation → String
  CreateClusterServiceName : ChiCluster → String
  CreateShardServiceName : ChiShard → String
  CreateStatefulSetServiceName : ChiHost → String
  CreateStatefulSetName : ChiHost → String
  CreateConfigMapCommonName : ClickHouseInstallation → String
  CreateConfigMapCommonUsersName : ClickHouseInstallation → String
  CreateConfigMapPodName : ChiHost → String
  CreatePodHostname : ChiHost → String
  CreatePodFQDNsOfChi : ClickHouseInstallation → List String
  NewLabeler : String → ClickHouseInstallation → Labeler
  NewConfigSections : ClickHouseInstallation → Config → ConfigSections
  GetOwnServiceTemplate : ClickHouseInstallation → Option ChiServiceTemplate
  GetClusterServiceTemplate : ClickHouseInstallation → ChiCluster → Option ChiServiceTemplate
  GetShardServiceTemplate : ClickHouseInstallation → ChiShard → Option ChiServiceTemplate
  GetHostServiceTemplate : ClickHouseInstallation → ChiHost → Option ChiServiceTemplate
  GetPodTemplate : ClickHouseInstallation → ChiHost → Option ChiPodTemplate
  GetVolumeClaimTemplate : ClickHouseInstallation → String → Option ChiVolumeClaimTemplate
  GetReplicasNum : ChiHost → Int
  MergeStringMaps : StringMap → StringMap → StringMap

/-- A run-time panic of the Go program. -/
inductive Fault where
  | nilDereference
  | indexOutOfRange
  deriving DecidableEq, Repr

/-! ## `creator.go` -/

/-- Go `type Creator struct`. -/
structure Creator where
  appVersion : String
  chi : ClickHouseInstallation
  chopConfig : Config
  chConfigSectionsGenerator : ConfigSections
  labeler : Labeler

/-- Go `NewCreator`. -/
def NewCreator (deps : Deps) (chi : ClickHouseInstallation) (chopConfig : Config)
    (appVersion : String) : Creator :=
  { appVersion := appVersion
    chi := chi
    chopConfig := chopConfig
    chConfigSectionsGenerator := deps.NewConfigSections chi chopConfig
    labeler := deps.NewLabeler appVersion chi }

/-- Go `verifyServiceTemplatePorts`: the error of the first port outside `1..65535`. -/
def verifyServiceTemplatePorts (template : ChiServiceTemplate) : Option String :=
  match template.Spec.Ports.find? (fun servicePort =>
      decide (servicePort.Port < 1) || decide (servicePort.Port > 65535)) with
  | some servicePort =>
    some ("verifyServiceTemplatePorts(" ++ template.Name ++ ") INCORRECT PORT: "
      ++ toString servicePort.Port ++ " ")
  | none => none

/-- Go `createServiceFromTemplate`; `none` is the nil Service. -/
def createServiceFromTemplate (deps : Deps) (template : ChiServiceTemplate)
    (namespaceName name : String) (labels selector : StringMap) : Option Service :=
  match verifyServiceTemplatePorts template with
  | some _ => none
  | none =>
    some
      { ObjectMeta :=
          { template.ObjectMeta with
            Name := name
            Namespace := namespaceName
            Labels := deps.MergeStringMaps template.ObjectMeta.Labels labels }
        Spec :=
          { template.Spec with
            Selector := deps.MergeStringMaps template.Spec.Selector selector } }

/-- Go `CreateServiceChi`. -/
def Creator.CreateServiceChi (deps : Deps) (c : Creator) : Option Service :=
  let serviceName := deps.CreateChiServiceName c.chi
  match deps.GetOwnServiceTemplate c.chi with
  | some template =>
    createServiceFromTemplate deps template c.chi.Namespace serviceName
      c.labeler.getLabelsChiScope c.labeler.getSelectorChiScope
  | none =>
    some
      { ObjectMeta :=
          { Name := serviceName
            Namespace := c.chi.Namespace
            Labels := c.labeler.getLabelsChiScope }
        Spec :=
          { Ports :=
              [ { Name := deps.chDefaultHTTPPortName, Port := deps.chDefaultHTTPPortNumber },
                { Name := deps.chDefaultClientPortName
                  Port := deps.chDefaultClientPortNumber } ]
            Selector := c.labeler.getSelectorChiScope
            ServiceType := "LoadBalancer" } }

/-- Go `CreateServiceCluster`. -/
def Creator.CreateServiceCluster (deps : Deps) (c : Creator) (cluster : ChiCluster) :
    Option Service :=
  let serviceName := deps.CreateClusterServiceName cluster
  match deps.GetClusterServiceTemplate c.chi cluster with
  | some template =>
    createServiceFromTemplate deps template cluster.Address.Namespace serviceName
      (c.labeler.getLabelsClusterScope cluster) (c.labeler.getSelectorClusterScope cluster)
  | none => none

/-- Go `CreateServiceShard`. -/
def Creator.CreateServiceShard (deps : Deps) (c : Creator) (shard : ChiShard) :
    Option Service :=
  let serviceName := deps.CreateShardServiceName shard
  match deps.GetShardServiceTemplate c.chi shard with
  | some template =>
    createServiceFromTemplate deps template shard.Address.Namespace serviceName
      (c.labeler.getLabelsShardScope shard) (c.labeler.getSelectorShardScope shard)
  | none => none

/-- Go `CreateServiceHost`. -/
def Creator.CreateServiceHost (deps : Deps) (c : Creator) (host : ChiHost) : Option Service :=
  let serviceName := deps.CreateStatefulSetServiceName host
  match deps.GetHostServiceTemplate c.chi host with
  | some template =>
    createServiceFromTemplate deps template host.Address.Namespace serviceName
      (c.labeler.getLabelsHostScope host false) (c.labeler.GetSelectorHostScope host)
  | none =>
    some
      { ObjectMeta :=
          { Name := serviceName
            Namespace := host.Address.Namespace
            Labels := c.labeler.getLabelsHostScope host false }
        Spec :=
          { Ports :=
              [ { Name := deps.chDefaultHTTPPortName
                  Protocol := "TCP"
                  Port := deps.chDefaultHTTPPortNumber
                  TargetPort := intstrFromInt deps.chDefaultHTTPPortNumber },
                { Name := deps.chDefaultClientPortName
                  Protocol := "TCP"
                  Port := deps.chDefaultClientPortNumber
                  TargetPort := intstrFromInt deps.chDefaultClientPortNumber },
                { Name := deps.chDefaultInterServerPortName
                  Protocol := "TCP"
                  Port := deps.chDefaultInterServerPortNumber
                  TargetPort := intstrFromInt deps.chDefaultInterServerPortNumber } ]
            Selector := c.labeler.GetSelectorHostScope host
            ClusterIP := deps.templateDefaultsServiceClusterIP
            ServiceType := "ClusterIP"
            PublishNotReadyAddresses := true } }

/-- Go `CreateConfigMapChiCommon`. -/
def Creator.CreateConfigMapChiCommon (deps : Deps) (c : Creator) : ConfigMap :=
  { ObjectMeta :=
      { Name := deps.CreateConfigMapCommonName c.chi
        Namespace := c.chi.Namespace
        Labels := c.labeler.getLabelsChiScope }
    Data := c.chConfigSectionsGenerator.commonConfigSections }

/-- Go `CreateConfigMapChiCommonUsers`. -/
def Creator.CreateConfigMapChiCommonUsers (deps : Deps) (c : Creator) : ConfigMap :=
  { ObjectMeta :=
      { Name := deps.CreateConfigMapCommonUsersName c.chi
        Namespace := c.chi.Namespace
        Labels := c.labeler.getLabelsChiScope }
    Data := c.chConfigSectionsGenerator.commonUsersConfigSections }

/-- Go `CreateConfigMapHost`. -/
def Creator.CreateConfigMapHost (deps : Deps) (c : Creator) (host : ChiHost) : ConfigMap :=
  { ObjectMeta :=
      { Name := deps.CreateConfigMapPodName host
        Namespace := host.Address.Namespace
        Labels := c.labeler.getLabelsHostScope host false }
    Data := c.chConfigSectionsGenerator.CreateConfigsPod host }

/-- Go `newVolumeForConfigMap`. -/
def newVolumeForConfigMap (name : String) : Volume :=
  { Name := name, ConfigMap := some name }

/-- Go `newVolumeMount`. -/
def newVolumeMount (name mountPath : String) : VolumeMount :=
  { Name := name, MountPath := mountPath }

/-- Go `addContainer`. -/
def addContainer (podSpec : PodSpec) (container : Container) : PodSpec :=
  { podSpec with Containers := podSpec.Containers ++ [container] }

/-- Go `newDefaultPodTemplate`. -/
def newDefaultPodTemplate (deps : Deps) (name : String) : ChiPodTemplate :=
  let podTemplate : ChiPodTemplate :=
    { Name := name, Spec := { Containers := [], Volumes := [] } }
  { podTemplate with
    Spec := addContainer podTemplate.Spec
      { Name := deps.ClickHouseContainerName
        Image := deps.defaultClickHouseDockerImage
        Ports :=
          [ { Name := deps.chDefaultHTTPPortName
              ContainerPort := deps.chDefaultHTTPPortNumber },
            { Name := deps.chDefaultClientPortName
              ContainerPort := deps.chDefaultClientPortNumber },
            { Name := deps.chDefaultInterServerPortName
              ContainerPort := deps.chDefaultInterServerPortNumber } ]
        ReadinessProbe := some
          { Path := "/ping"
            Port := intstrParse deps.chDefaultHTTPPortName
            InitialDelaySeconds := 10
            PeriodSeconds := 10 } } }

/-- Go `statefulSetCopyPodTemplate`. -/
def statefulSetCopyPodTemplate (dst : StatefulSet) (template : ChiPodTemplate) : StatefulSet :=
  { dst with
    Spec :=
      { dst.Spec with
        Template :=
          { ObjectMeta := { dst.Spec.Template.ObjectMeta with Name := template.Name }
            Spec := template.Spec } } }

/-- Go `statefulSetAppendVolumeClaimTemplate`. -/
def statefulSetAppendVolumeClaimTemplate (statefulSet : StatefulSet)
    (volumeClaimTemplate : ChiVolumeClaimTemplate) : StatefulSet :=
  if statefulSet.Spec.VolumeClaimTemplates.any
      (fun volumeClaimTemplates =>
        decide (volumeClaimTemplates.ObjectMeta.Name = volumeClaimTemplate.Name)) then
    statefulSet
  else
    { statefulSet with
      Spec :=
        { statefulSet.Spec with
          VolumeClaimTemplates := statefulSet.Spec.VolumeClaimTemplates ++
            [ { ObjectMeta := { Name := volumeClaimTemplate.Name }
                Spec := volumeClaimTemplate.Spec } ] } }

/-- Go `getContainerByName`: the position of the first container of that name in the pod
template (the pointer the Go function returns), `none` for nil. -/
def getContainerByName (statefulSet : StatefulSet) (name : String) : Option Nat :=
  match statefulSet.Spec.Template.Spec.Containers.findIdx?
      (fun container => decide (container.Name = name)) with
  | some i => some i
  | none => none

/-- Replace the containers of the pod template of a StatefulSet. -/
def setContainers (statefulSet : StatefulSet) (containers : List Container) : StatefulSet :=
  { statefulSet with
    Spec :=
      { statefulSet.Spec with
        Template :=
          { statefulSet.Spec.Template with
            Spec := { statefulSet.Spec.Template.Spec with Containers := containers } } } }

/-- Go `setupConfigMapVolumes`. -/
def Creator.setupConfigMapVolumes (deps : Deps) (c : Creator) (statefulSetObject : StatefulSet)
    (host : ChiHost) : StatefulSet :=
  let configMapMacrosName := deps.CreateConfigMapPodName host
  let configMapCommonName := deps.CreateConfigMapCommonName c.chi
  let configMapCommonUsersName := deps.CreateConfigMapCommonUsersName c.chi
  let podSpec := statefulSetObject.Spec.Template.Spec
  let podSpec : PodSpec :=
    { podSpec with
      Volumes := podSpec.Volumes ++
        [ newVolumeForConfigMap configMapCommonName,
          newVolumeForConfigMap configMapCommonUsersName,
          newVolumeForConfigMap configMapMacrosName ] }
  let podSpec : PodSpec :=
    { podSpec with
      Containers := podSpec.Containers.map (fun container =>
        { container with
          VolumeMounts := container.VolumeMounts ++
            [ newVolumeMount configMapCommonName deps.dirPathConfigd,
              newVolumeMount configMapCommonUsersName deps.dirPathUsersd,
              newVolumeMount configMapMacrosName deps.dirPathConfd ] }) }
  { statefulSetObject with
    Spec :=
      { statefulSetObject.Spec with
        Template := { statefulSetObject.Spec.Template with Spec := podSpec } } }

/-- Go `setupStatefulSetPodTemplate`. -/
def Creator.setupStatefulSetPodTemplate (deps : Deps) (c : Creator)
    (statefulSetObject : StatefulSet) (host : ChiHost) : StatefulSet :=
  let statefulSetName := deps.CreateStatefulSetName host
  let statefulSetObject : StatefulSet :=
    { statefulSetObject with
      Spec :=
        { statefulSetObject.Spec with
          Template := { ObjectMeta := { Labels := c.labeler.getLabelsHostScope host true } } } }
  let statefulSetObject :=
    match deps.GetPodTemplate c.chi host with
    | some podTemplate => statefulSetCopyPodTemplate statefulSetObject podTemplate
    | none =>
      statefulSetCopyPodTemplate statefulSetObject (newDefaultPodTemplate deps statefulSetName)
  let statefulSetObject : StatefulSet :=
    { statefulSetObject with
      Spec :=
        { statefulSetObject.Spec with
          Template :=
            { statefulSetObject.Spec.Template with
              Spec :=
                { statefulSetObject.Spec.Template.Spec with
                  HostAliases :=
                    [ { IP := "127.0.0.1", Hostnames := [deps.CreatePodHostname host] } ] } } } }
  let statefulSetObject := c.setupConfigMapVolumes deps statefulSetObject host
  if host.Templates.LogVolumeClaimTemplate ≠ "" then
    { statefulSetObject with
      Spec :=
        { statefulSetObject.Spec with
          Template :=
            { statefulSetObject.Spec.Template with
              Spec := addContainer statefulSetObject.Spec.Template.Spec
                { Name := deps.ClickHouseLogContainerName
                  Image := deps.defaultBusyBoxDockerImage
                  Command := ["/bin/sh", "-c", "--"]
                  Args := ["while true; do sleep 30; done;"] } } } }
  else
    statefulSetObject

/-- The loop of `setupStatefulSetApplyVolumeMounts` over the VolumeMounts of one container. -/
def Creator.applyVolumeMounts (deps : Deps) (c : Creator) :
    StatefulSet → List VolumeMount → StatefulSet
  | statefulSet, [] => statefulSet
  | statefulSet, volumeMount :: rest =>
    match deps.GetVolumeClaimTemplate c.chi volumeMount.Name with
    | some volumeClaimTemplate =>
      Creator.applyVolumeMounts deps c
        (statefulSetAppendVolumeClaimTemplate statefulSet volumeClaimTemplate) rest
    | none => Creator.applyVolumeMounts deps c statefulSet rest

/-- Go `setupStatefulSetApplyVolumeMounts`. -/
def Creator.setupStatefulSetApplyVolumeMounts (deps : Deps) (c : Creator)
    (statefulSet : StatefulSet) : StatefulSet :=
  statefulSet.Spec.Template.Spec.Containers.foldl
    (fun statefulSet container => c.applyVolumeMounts deps statefulSet container.VolumeMounts)
    statefulSet

/-- Go `setupStatefulSetApplyVolumeClaimTemplate`. Reading `container.VolumeMounts` through the
nil pointer that `getContainerByName` returns for an unknown name is a panic. -/
def Creator.setupStatefulSetApplyVolumeClaimTemplate (deps : Deps) (c : Creator)
    (statefulSet : StatefulSet) (containerName volumeClaimTemplateName mountPath : String) :
    Except Fault StatefulSet :=
  if volumeClaimTemplateName = "" then
    Except.ok statefulSet
  else
    match deps.GetVolumeClaimTemplate c.chi volumeClaimTemplateName with
    | none => Except.ok statefulSet
    | some _ =>
      match getContainerByName statefulSet containerName with
      | none => Except.error Fault.nilDereference
      | some i =>
        match statefulSet.Spec.Template.Spec.Containers[i]? with
        | none => Except.error Fault.nilDereference
        | some container =>
          if container.VolumeMounts.any
              (fun volumeMount => decide (volumeMount.Name = volumeClaimTemplateName)) then
            Except.ok statefulSet
          else if container.VolumeMounts.any
              (fun volumeMount => decide (volumeMount.MountPath = mountPath)) then
            Except.ok statefulSet
          else
            match deps.GetVolumeClaimTemplate c.chi volumeClaimTemplateName with
            | some template =>
              let statefulSet := statefulSetAppendVolumeClaimTemplate statefulSet template
              Except.ok
                (setContainers statefulSet
                  (statefulSet.Spec.Template.Spec.Containers.modify
                    (fun container =>
                      { container with
                        VolumeMounts := container.VolumeMounts ++
                          [newVolumeMount volumeClaimTemplateName mountPath] }) i))
            | none => Except.ok statefulSet

/-- Go `setupStatefulSetVolumeClaimTemplates`. -/
def Creator.setupStatefulSetVolumeClaimTemplates (deps : Deps) (c : Creator)
    (statefulSet : StatefulSet) (host : ChiHost) : Except Fault StatefulSet := do
  let statefulSet := c.setupStatefulSetApplyVolumeMounts deps statefulSet
  let statefulSet ← c.setupStatefulSetApplyVolumeClaimTemplate deps statefulSet
    deps.ClickHouseContainerName host.Templates.DataVolumeClaimTemplate
    deps.dirPathClickHouseData
  let statefulSet ← c.setupStatefulSetApplyVolumeClaimTemplate deps statefulSet
    deps.ClickHouseContainerName host.Templates.LogVolumeClaimTemplate
    deps.dirPathClickHouseLog
  c.setupStatefulSetApplyVolumeClaimTemplate deps statefulSet
    deps.ClickHouseLogContainerName host.Templates.LogVolumeClaimTemplate
    deps.dirPathClickHouseLog

/-- Go `CreateStatefulSet`. -/
def Creator.CreateStatefulSet (deps : Deps) (c : Creator) (host : ChiHost) :
    Except Fault StatefulSet :=
  let statefulSetName := deps.CreateStatefulSetName host
  let serviceName := deps.CreateStatefulSetServiceName host
  let replicasNum := deps.GetReplicasNum host
  let statefulSet : StatefulSet :=
    { ObjectMeta :=
        { Name := statefulSetName
          Namespace := host.Address.Namespace
          Labels := c.labeler.getLabelsHostScope host true }
      Spec :=
        { Replicas := some replicasNum
          ServiceName := serviceName
          Selector := some (c.labeler.GetSelectorHostScope host)
          VolumeClaimTemplates := []
          Template := {} } }
  let statefulSet := c.setupStatefulSetPodTemplate deps statefulSet host
  c.setupStatefulSetVolumeClaimTemplates deps statefulSet host

end Model

namespace Chi

open Model

/-! ## The worker's surroundings -/

/-- A non-nil Go `error`, by its message; the nil error is `none : Option Error`. -/
abbrev Error := String

/-- Go `eventTypeNormal`, `eventTypeError`. -/
inductive EventType where
  | Normal
  | Error
  deriving DecidableEq, Repr

/-- Go `eventActionCreate`, `eventActionUpdate`, `eventActionDelete`. -/
inductive EventAction where
  | Create
  | Update
  | Delete
  deriving DecidableEq, Repr

/-- Go `eventReasonCreateCompleted`, `eventReasonUpdateFailed`, `eventReasonUpdateInProgress`,
`eventReasonDeleteCompleted`. -/
inductive EventReason where
  | CreateCompleted
  | UpdateFailed
  | UpdateInProgress
  | DeleteCompleted
  deriving DecidableEq, Repr

/-- The command of a reconcile item: `reconcileAdd`, `reconcileUpdate`, `reconcileDelete`, or
any other value of the field `cmd`. -/
inductive ReconcileCmd where
  | reconcileAdd
  | reconcileUpdate
  | reconcileDelete
  | other (value : String)
  deriving DecidableEq, Repr

/-- Go `ClickHouseInstallationTemplate`, by its namespace and name. -/
structure ClickHouseInstallationTemplate where
  Namespace : String := ""
  Name : String := ""
  deriving DecidableEq, Repr

/-- Go `ClickHouseOperatorConfiguration`, by its namespace and name. -/
structure ClickHouseOperatorConfiguration where
  Namespace : String := ""
  Name : String := ""
  deriving DecidableEq, Repr

/-- An item of the work queue, by its dynamic type: `*ReconcileChi`, `*ReconcileChit`,
`*ReconcileChopConfig`, `*DropDns`, or a value of any other type. `old` and `new` are
pointers, nil being `none`. -/
inductive QueueItem where
  | ReconcileChi (cmd : ReconcileCmd) (old new : Option ClickHouseInstallation)
  | ReconcileChit (cmd : ReconcileCmd) (old new : Option ClickHouseInstallationTemplate)
  | ReconcileChopConfig (cmd : ReconcileCmd)
      (old new : Option ClickHouseOperatorConfiguration)
  | DropDns (initiator : ObjectMeta)
  | other (description : String)
  deriving DecidableEq, Repr

/-- A call the worker makes to a collaborator outside `worker.go`: the log, the controller
`w.c` (events, status persistence, watch list, reconcile and delete of resources, handlers
of templates and of the operator configuration), the schemer `w.schemer` and the error
channel `utilruntime.HandleError`, which gets `fmt.Errorf(format, item)`. Arguments passed by
pointer are recorded by their value at the call. -/
inductive Call where
  | glog (level : Nat) (message : String)
  | eventChi (chi : ClickHouseInstallation) (eventType : EventType) (action : EventAction)
      (reason : EventReason) (message : String)
  | updateChiObject (chi : ClickHouseInstallation)
  | updateChiObjectStatus (chi : ClickHouseInstallation)
  | updateWatch (namespaceName name : String) (hostnames : List String)
  | ReconcileService (service : Option Service)
  | ReconcileConfigMap (configMap : ConfigMap)
  | ReconcileStatefulSet (statefulSet : StatefulSet) (host : ChiHost)
  | GetCreateReplicatedObjects (chi : ClickHouseInstallation) (cluster : ChiCluster)
      (host : ChiHost)
  | ClusterGetCreateDistributedObjects (chi : ClickHouseInstallation) (cluster : ChiCluster)
  | HostGetDropTables (host : ChiHost)
  | HostApplySQLs (host : ChiHost) (sqls : List String) (stopOnError : Bool)
  | ShardApplySQLs (shard : ChiShard) (sqls : List String) (stopOnError : Bool)
  | deleteHost (host : ChiHost)
  | deleteServiceShard (shard : ChiShard)
  | deleteServiceCluster (cluster : ChiCluster)
  | deleteConfigMapsChi (chi : ClickHouseInstallation)
  | deleteServiceChi (chi : ClickHouseInstallation)
  | HandleError (format : String) (item : QueueItem)
  | addChit (new : Option ClickHouseInstallationTemplate)
  | updateChit (old new : Option ClickHouseInstallationTemplate)
  | deleteChit (old : Option ClickHouseInstallationTemplate)
  | addChopConfig (new : Option ClickHouseOperatorConfiguration)
  | updateChopConfig (old new : Option ClickHouseOperatorConfiguration)
  | deleteChopConfig (old : Option ClickHouseOperatorConfiguration)
  | GetChiByObjectMeta (objectMeta : ObjectMeta)
  | ChiDropDnsCache (chi : ClickHouseInstallation)
  deriving DecidableEq, Repr

/-- A node of the tree as an action plan lists it. -/
inductive PlanNode where
  | cluster (cluster : ChiCluster)
  | shard (shard : ChiShard)
  | host (host : ChiHost)
  deriving DecidableEq, Repr

/-- Modelled from the spec: `ActionPlan` (`action_plan.go` is not among the sources). The
plan answers `IsNoChanges()` and `GetRemovedHostsNum()`, and `WalkAdded` / `WalkRemoved` call
back on the nodes of `added` / `removed`, in the order of these lists. -/
structure ActionPlan where
  IsNoChanges : Bool
  GetRemovedHostsNum : Int
  added : List PlanNode
  removed : List PlanNode
  deriving DecidableEq, Repr

/-- What surrounds the worker. `respond history call` is the error (or nil) with which the
collaborator answers `call` after the calls of `history`; `statements history call` are the
object names, the SQL statements and the error (or nil) the schemer hands out;
`GetChiByObjectMeta history objectMeta` is the installation the controller finds, or its
error. The collaborators return normally and leave the objects passed to them as they are.
`IsNormalized`, the normalizer's `CreateTemplatedChi` and `DoChi`, and `NewActionPlan` are
functions of their arguments. -/
structure Env where
  deps : Deps
  chopConfig : Config
  version : String
  IsNormalized : ClickHouseInstallation → Bool
  CreateTemplatedChi : ClickHouseInstallation → Bool → ClickHouseInstallation × Option Error
  NewActionPlan : ClickHouseInstallation → ClickHouseInstallation → ActionPlan
  respond : List Call → Call → Option Error
  statements : List Call → Call → List String × List String × Option Error
  GetChiByObjectMeta : List Call → ObjectMeta → Except Error ClickHouseInstallation
  DoChi : ClickHouseInstallation → Except Error ClickHouseInstallation

/-- A computation of the worker: from the calls made so far to its outcome (a value, or
the panic that ended it) and the calls made until then. -/
def W (α : Type) : Type := List Call → Except Fault α × List Call

/-- Return a value, no call made. -/
def W.pure {α : Type} (a : α) : W α := fun history => (Except.ok a, history)

/-- Sequence two computations; a panic of the first ends the run. -/
def W.bind {α β : Type} (m : W α) (f : α → W β) : W β := fun history =>
  match m history with
  | (Except.ok a, history1) => f a history1
  | (Except.error e, history1) => (Except.error e, history1)

instance : Monad W where
  pure := W.pure
  bind := W.bind

/-- A call whose result the worker does not get or does not have (log, event, watch). -/
def emit (c : Call) : W Unit := fun history => (Except.ok (), history ++ [c])

/-- A call that answers with an error or nil. -/
def call (env : Env) (c : Call) : W (Option Error) := fun history =>
  (Except.ok (env.respond history c), history ++ [c])

/-- A call to the schemer that answers with names, SQL statements and an error or nil. -/
def fetch (env : Env) (c : Call) : W (List String × List String × Option Error) :=
  fun history =>
  (Except.ok (env.statements history c), history ++ [c])

/-- A run-time panic. -/
def fault {α : Type} (f : Fault) : W α := fun history => (Except.error f, history)

/-- A computation of the creator inside the worker. -/
def liftCreator {α : Type} (x : Except Fault α) : W α := fun history => (x, history)

/-- Go `%v` of a `[]string`. -/
def fmtStrings (l : List String) : String := "[" ++ " ".intercalate l ++ "]"

/-! ## Walks over the tree and over the plan -/

/-- The host loop of `WalkTillError`. -/
def walkHostsTillError (fHost : ChiHost → W (Option Error)) : List ChiHost → W (Option Error)
  | [] => pure none
  | host :: rest => do
    match (← fHost host) with
    | some err => pure (some err)
    | none => walkHostsTillError fHost rest

/-- The shard loop of `WalkTillError`. -/
def walkShardsTillError (fShard : ChiShard → W (Option Error))
    (fHost : ChiHost → W (Option Error)) : List ChiShard → W (Option Error)
  | [] => pure none
  | shard :: rest => do
    match (← fShard shard) with
    | some err => pure (some err)
    | none =>
      match (← walkHostsTillError fHost shard.Replicas) with
      | some err => pure (some err)
      | none => walkShardsTillError fShard fHost rest

/-- The cluster loop of `WalkTillError`. -/
def walkClustersTillError (fCluster : ChiCluster → W (Option Error))
    (fShard : ChiShard → W (Option Error)) (fHost : ChiHost → W (Option Error)) :
    List ChiCluster → W (Option Error)
  | [] => pure none
  | cluster :: rest => do
    match (← fCluster cluster) with
    | some err => pure (some err)
    | none =>
      match (← walkShardsTillError fShard fHost cluster.Shards) with
      | some err => pure (some err)
      | none => walkClustersTillError fCluster fShard fHost rest

/-- Modelled from the spec: `ClickHouseInstallation.WalkTillError` (declared outside the
sources), the ordered reconcile walk: the installation, then every cluster in declaration
order, within it every shard, within it every host, stopping at the first error. -/
def WalkTillError (chi : ClickHouseInstallation)
    (fChi : ClickHouseInstallation → W (Option Error))
    (fCluster : ChiCluster → W (Option Error)) (fShard : ChiShard → W (Option Error))
    (fHost : ChiHost → W (Option Error)) : W (Option Error) := do
  match (← fChi chi) with
  | some err => pure (some err)
  | none => walkClustersTillError fCluster fShard fHost chi.Clusters

/-- Modelled from the spec: `ChiShard.WalkHosts` (declared outside the sources) calls `f` on
every host of the shard in order, whatever the calls return, and hands back the results. -/
def WalkHosts (f : ChiHost → W (Option Error)) : List ChiHost → W (List (Option Error))
  | [] => pure []
  | host :: rest => do
    let res ← f host
    let others ← WalkHosts f rest
    pure (res :: others)

/-- Modelled from the spec: `ChiCluster.WalkShards` (declared outside the sources) calls `f`
on every shard of the cluster in order, whatever the calls return, and hands back the
results. -/
def WalkShards (f : ChiShard → W (Option Error)) : List ChiShard → W (List (Option Error))
  | [] => pure []
  | shard :: rest => do
    let res ← f shard
    let others ← WalkShards f rest
    pure (res :: others)

/-- Call back on the nodes of a plan, in order. -/
def walkNodes (clusterFunc : ChiCluster → W Unit) (shardFunc : ChiShard → W Unit)
    (hostFunc : ChiHost → W Unit) : List PlanNode → W Unit
  | [] => pure ()
  | PlanNode.cluster cluster :: rest => do
    clusterFunc cluster
    walkNodes clusterFunc shardFunc hostFunc rest
  | PlanNode.shard shard :: rest => do
    shardFunc shard
    walkNodes clusterFunc shardFunc hostFunc rest
  | PlanNode.host host :: rest => do
    hostFunc host
    walkNodes clusterFunc shardFunc hostFunc rest

/-- Modelled from the spec: `ActionPlan.WalkAdded`. -/
def ActionPlan.WalkAdded (ap : ActionPlan) (clusterFunc : ChiCluster → W Unit)
    (shardFunc : ChiShard → W Unit) (hostFunc : ChiHost → W Unit) : W Unit :=
  walkNodes clusterFunc shardFunc hostFunc ap.added

/-- Modelled from the spec: `ActionPlan.WalkRemoved`. -/
def ActionPlan.WalkRemoved (ap : ActionPlan) (clusterFunc : ChiCluster → W Unit)
    (shardFunc : ChiShard → W Unit) (hostFunc : ChiHost → W Unit) : W Unit :=
  walkNodes clusterFunc shardFunc hostFunc ap.removed

/-! ## `worker.go` -/

/-- Go `reconcileChi`. -/
def reconcileChi (env : Env) (creator : Creator) (_chi : ClickHouseInstallation) :
    W (Option Error) := do
  let service := creator.CreateServiceChi env.deps
  match (← call env (Call.ReconcileService service)) with
  | some err => pure (some err)
  | none =>
    let configMapCommon := creator.CreateConfigMapChiCommon env.deps
    match (← call env (Call.ReconcileConfigMap configMapCommon)) with
    | some err => pure (some err)
    | none =>
      let configMapUsers := creator.CreateConfigMapChiCommonUsers env.deps
      match (← call env (Call.ReconcileConfigMap configMapUsers)) with
      | some err => pure (some err)
      | none => pure none

/-- Go `reconcileCluster`. -/
def reconcileCluster (env : Env) (creator : Creator) (cluster : ChiCluster) :
    W (Option Error) :=
  match creator.CreateServiceCluster env.deps cluster with
  | some service => call env (Call.ReconcileService (some service))
  | none => pure none

/-- Go `reconcileShard`. -/
def reconcileShard (env : Env) (creator : Creator) (shard : ChiShard) : W (Option Error) :=
  match creator.CreateServiceShard env.deps shard with
  | some service => call env (Call.ReconcileService (some service))
  | none => pure none

/-- Go `reconcileHost`. -/
def reconcileHost (env : Env) (creator : Creator) (host : ChiHost) : W (Option Error) := do
  let service := creator.CreateServiceHost env.deps host
  match (← call env (Call.ReconcileService service)) with
  | some err => pure (some err)
  | none =>
    let configMap := creator.CreateConfigMapHost env.deps host
    match (← call env (Call.ReconcileConfigMap configMap)) with
    | some err => pure (some err)
    | none =>
      let statefulSet ← liftCreator (creator.CreateStatefulSet env.deps host)
      match (← call env (Call.ReconcileStatefulSet statefulSet host)) with
      | some err => pure (some err)
      | none => pure none

/-- Go `reconcile`; the creator stored in `w.creator` is handed to the four callbacks. -/
def reconcile (env : Env) (chi : ClickHouseInstallation) : W (Option Error) :=
  let creator := NewCreator env.deps chi env.chopConfig env.version
  WalkTillError chi (reconcileChi env creator) (reconcileCluster env creator)
    (reconcileShard env creator) (reconcileHost env creator)

/-- Go `createTablesOnHost`. -/
def createTablesOnHost (env : Env) (chi : ClickHouseInstallation) (host : ChiHost) :
    W (Option Error) :=
  match chi.Clusters[host.Address.ClusterIndex]? with
  | none => fault Fault.indexOutOfRange
  | some cluster => do
    let created ← fetch env (Call.GetCreateReplicatedObjects chi cluster host)
    emit (Call.glog 1 ("Creating replicated objects: " ++ fmtStrings created.1))
    let _ ← call env (Call.HostApplySQLs host created.2.1 true)
    let created ← fetch env (Call.ClusterGetCreateDistributedObjects chi cluster)
    emit (Call.glog 1 ("Creating distributed objects: " ++ fmtStrings created.1))
    let _ ← call env (Call.HostApplySQLs host created.2.1 true)
    pure none

/-- Go `createTablesOnShard`. -/
def createTablesOnShard (env : Env) (chi : ClickHouseInstallation) (shard : ChiShard) :
    W (Option Error) :=
  match chi.Clusters[shard.Address.ClusterIndex]? with
  | none => fault Fault.indexOutOfRange
  | some cluster => do
    let created ← fetch env (Call.ClusterGetCreateDistributedObjects chi cluster)
    emit (Call.glog 1 ("Creating distributed objects: " ++ fmtStrings created.1))
    let _ ← call env (Call.ShardApplySQLs shard created.2.1 true)
    pure none

/-- Go `deleteTablesOnHost`. -/
def deleteTablesOnHost (env : Env) (host : ChiHost) : W (Option Error) := do
  let dropped ← fetch env (Call.HostGetDropTables host)
  emit (Call.glog 1
    ("Drop tables: " ++ fmtStrings dropped.1 ++ " as " ++ fmtStrings dropped.2.1))
  let _ ← call env (Call.HostApplySQLs host dropped.2.1 false)
  pure none

/-- Go `deleteHost`. -/
def deleteHost (env : Env) (host : ChiHost) : W (Option Error) := do
  emit (Call.glog 1 ("Worker delete host " ++ host.Address.ClusterName ++ "/" ++ host.Name))
  let _ ← deleteTablesOnHost env host
  call env (Call.deleteHost host)

/-- Go `deleteShard`. -/
def deleteShard (env : Env) (shard : ChiShard) : W (Option Error) := do
  emit (Call.glog 1 ("Start delete shard " ++ shard.Address.Namespace ++ "/" ++ shard.Name))
  let _ ← WalkHosts (deleteHost env) shard.Replicas
  let _ ← call env (Call.deleteServiceShard shard)
  emit (Call.glog 1 ("End delete shard " ++ shard.Address.Namespace ++ "/" ++ shard.Name))
  pure none

/-- Go `deleteCluster`. -/
def deleteCluster (env : Env) (cluster : ChiCluster) : W (Option Error) := do
  emit (Call.glog 1
    ("Start delete cluster " ++ cluster.Address.Namespace ++ "/" ++ cluster.Name))
  let _ ← WalkShards (deleteShard env) cluster.Shards
  let _ ← call env (Call.deleteServiceCluster cluster)
  emit (Call.glog 1 ("End delete cluster " ++ cluster.Address.Namespace ++ "/" ++ cluster.Name))
  pure none

/-- The head of `updateChi`, the same for `old` and for `new`: a nil installation becomes
the normalized empty one, one that is not normalized is normalized. -/
def normalizedOrEmpty (env : Env) (chi : Option ClickHouseInstallation) :
    ClickHouseInstallation :=
  match chi with
  | none => (env.CreateTemplatedChi {} false).1
  | some chi => if !env.IsNormalized chi then (env.CreateTemplatedChi chi true).1 else chi

/-- The status `updateChi` writes before it reconciles. -/
def statusInProgress (actionPlan : ActionPlan) : ChiStatus :=
  { Status := StatusPhase.InProgress
    UpdatedHostsCount := 0
    AddedHostsCount := 0
    DeletedHostsCount := 0
    DeleteHostsCount := actionPlan.GetRemovedHostsNum }

/-- The three callbacks of `actionPlan.WalkAdded` in `updateChi`. -/
def postProcessAdded (env : Env) (new : ClickHouseInstallation) (actionPlan : ActionPlan) :
    W Unit :=
  actionPlan.WalkAdded
    (fun cluster => do
      let log := "Added cluster " ++ cluster.Name
      emit (Call.glog 1 log)
      emit (Call.eventChi new EventType.Normal EventAction.Update
        EventReason.UpdateInProgress log))
    (fun shard => do
      let log := "Added shard " ++ toString shard.Address.ShardIndex ++ " to cluster "
        ++ shard.Address.ClusterName
      emit (Call.glog 1 log)
      emit (Call.eventChi new EventType.Normal EventAction.Update
        EventReason.UpdateInProgress log)
      let _ ← createTablesOnShard env new shard
      pure ())
    (fun host => do
      let log := "Added replica " ++ toString host.Address.ReplicaIndex ++ " to shard "
        ++ toString host.Address.ShardIndex ++ " in cluster " ++ host.Address.ClusterName
      emit (Call.glog 1 log)
      emit (Call.eventChi new EventType.Normal EventAction.Update
        EventReason.UpdateInProgress log)
      let _ ← createTablesOnHost env new host
      pure ())

/-- The three callbacks of `actionPlan.WalkRemoved` in `updateChi`. -/
def removeDeleted (env : Env) (old : ClickHouseInstallation) (actionPlan : ActionPlan) :
    W Unit :=
  actionPlan.WalkRemoved
    (fun cluster => do
      emit (Call.eventChi old EventType.Normal EventAction.Update
        EventReason.UpdateInProgress ("delete cluster " ++ cluster.Name))
      let _ ← deleteCluster env cluster
      pure ())
    (fun shard => do
      emit (Call.eventChi old EventType.Normal EventAction.Update
        EventReason.UpdateInProgress
        ("delete shard " ++ toString shard.Address.ShardIndex ++ " in cluster "
          ++ shard.Address.ClusterName))
      let _ ← deleteShard env shard
      pure ())
    (fun host => do
      emit (Call.eventChi old EventType.Normal EventAction.Update
        EventReason.UpdateInProgress
        ("delete replica " ++ toString host.Address.ReplicaIndex ++ " from shard "
          ++ toString host.Address.ShardIndex ++ " in cluster " ++ host.Address.ClusterName))
      let _ ← deleteHost env host
      pure ())

/-- Go `updateChi`. Returns the error of the Go function and the installation `new` as the
function leaves it. -/
def updateChi (env : Env) (old new : Option ClickHouseInstallation) :
    W (Option Error × ClickHouseInstallation) :=
  let old := normalizedOrEmpty env old
  let new := normalizedOrEmpty env new
  if old.ResourceVersion = new.ResourceVersion then do
    emit (Call.glog 2 ("updateChi(" ++ new.Namespace ++ "/" ++ new.Name
      ++ "): ResourceVersion did not change: " ++ new.ResourceVersion))
    emit (Call.updateWatch new.Namespace new.Name (env.deps.CreatePodFQDNsOfChi new))
    pure (none, new)
  else do
    emit (Call.glog 2 ("updateChi(" ++ new.Namespace ++ "/" ++ new.Name ++ ")"))
    let actionPlan := env.NewActionPlan old new
    if actionPlan.IsNoChanges then do
      emit (Call.glog 2
        ("updateChi(" ++ new.Namespace ++ "/" ++ new.Name ++ "): no changes found"))
      pure (none, new)
    else do
      emit (Call.glog 1
        ("updateChi(" ++ new.Namespace ++ "/" ++ new.Name ++ ") - start reconcile"))
      let new := { new with Status := statusInProgress actionPlan }
      let _ ← call env (Call.updateChiObject new)
      match (← reconcile env new) with
      | some err => do
        let log := "Update of resources has FAILED: " ++ err
        emit (Call.glog 1 log)
        emit (Call.eventChi new EventType.Error EventAction.Update
          EventReason.UpdateFailed log)
        pure (none, new)
      | none => do
        postProcessAdded env new actionPlan
        removeDeleted env old actionPlan
        let new := { new with Status := { new.Status with Status := StatusPhase.Completed } }
        let _ ← call env (Call.updateChiObjectStatus new)
        emit (Call.updateWatch new.Namespace new.Name (env.deps.CreatePodFQDNsOfChi new))
        pure (none, new)

/-- Go `addChi`; `new` is dereferenced at once, so a nil `new` is a panic. -/
def addChi (env : Env) (new : Option ClickHouseInstallation) :
    W (Option Error × ClickHouseInstallation) :=
  match new with
  | none => fault Fault.nilDereference
  | some new => do
    emit (Call.glog 1 ("addChi(" ++ new.Namespace ++ "/" ++ new.Name ++ ")"))
    emit (Call.eventChi new EventType.Normal EventAction.Create EventReason.CreateCompleted
      ("ClickHouseInstallation (" ++ new.Name ++ "): start add process"))
    updateChi env none (some new)


/-! ## The action-plan differ and a small installation -/

/-- The nodes of an added shard, top-down: the shard, then its hosts. -/
def addedShard (shard : ChiShard) : List PlanNode :=
  PlanNode.shard shard :: shard.Replicas.map PlanNode.host

/-- The nodes of an added cluster, top-down: the cluster, then its shards, each followed
by its hosts. -/
def addedCluster (cluster : ChiCluster) : List PlanNode :=
  PlanNode.cluster cluster :: cluster.Shards.flatMap addedShard

/-- The nodes of a removed shard, bottom-up: its hosts, then the shard. -/
def removedShard (shard : ChiShard) : List PlanNode :=
  shard.Replicas.map PlanNode.host ++ [PlanNode.shard shard]

/-- The nodes of a removed cluster, bottom-up: all its hosts, then its shards, then the
cluster. -/
def removedCluster (cluster : ChiCluster) : List PlanNode :=
  cluster.Shards.flatMap (fun shard => shard.Replicas.map PlanNode.host)
    ++ cluster.Shards.map PlanNode.shard ++ [PlanNode.cluster cluster]

/-- Hosts of a shard present in old and new, compared by replica index: added and removed
nodes. -/
def diffHosts : List ChiHost → List ChiHost → List PlanNode × List PlanNode
  | [], news => (news.map PlanNode.host, [])
  | olds, [] => ([], olds.map PlanNode.host)
  | _ :: olds, _ :: news => diffHosts olds news

/-- Shards of a cluster present in old and new, compared by shard index: added and removed
nodes. -/
def diffShards : List ChiShard → List ChiShard → List PlanNode × List PlanNode
  | [], news => (news.flatMap addedShard, [])
  | olds, [] => ([], olds.flatMap removedShard)
  | old :: olds, new :: news =>
    ((diffHosts old.Replicas new.Replicas).1 ++ (diffShards olds news).1,
     (diffHosts old.Replicas new.Replicas).2 ++ (diffShards olds news).2)

/-- The number of hosts among the nodes of a walk. -/
def hostsNum (nodes : List PlanNode) : Nat :=
  nodes.countP (fun node =>
    match node with
    | PlanNode.host _ => true
    | _ => false)

/-- Modelled from the spec: `NewActionPlan`, the differ of §4.3 (`action_plan.go` is not
among the sources). Clusters are compared by name; a cluster only in `new` is added with all
its shards and hosts, one only in `old` is removed with them; in a cluster of both, shards are
compared by index and hosts of common shards by replica index. `IsNoChanges` holds iff nothing
is added or removed, `GetRemovedHostsNum` counts the hosts of the removed subtrees. -/
def NewActionPlan (old new : ClickHouseInstallation) : ActionPlan :=
  let added := new.Clusters.flatMap (fun cluster =>
    match old.Clusters.find? (fun c => decide (c.Name = cluster.Name)) with
    | none => addedCluster cluster
    | some oldCluster => (diffShards oldCluster.Shards cluster.Shards).1)
  let removed :=
    new.Clusters.flatMap (fun cluster =>
      match old.Clusters.find? (fun c => decide (c.Name = cluster.Name)) with
      | none => []
      | some oldCluster => (diffShards oldCluster.Shards cluster.Shards).2)
    ++ (old.Clusters.filter (fun c =>
          !(new.Clusters.any (fun cluster => decide (cluster.Name = c.Name))))).flatMap
        removedCluster
  { IsNoChanges := added.isEmpty && removed.isEmpty
    GetRemovedHostsNum := (hostsNum removed : Nat)
    added := added
    removed := removed }

/-- Every shard and host the plan adds lies in a cluster of `chi` (its `ClusterIndex` is a
position of `chi.Spec.Configuration.Clusters`). -/
def addedInClustersOf (actionPlan : ActionPlan) (chi : ClickHouseInstallation) : Bool :=
  actionPlan.added.all (fun node =>
    match node with
    | PlanNode.cluster _ => true
    | PlanNode.shard shard => decide (shard.Address.ClusterIndex < chi.Clusters.length)
    | PlanNode.host host => decide (host.Address.ClusterIndex < chi.Clusters.length))

/-- A call that reconciles a resource. -/
def Call.isReconcile : Call → Prop
  | Call.ReconcileService _ => True
  | Call.ReconcileConfigMap _ => True
  | Call.ReconcileStatefulSet _ _ => True
  | _ => False

/-- Names, labels, templates and constants for the examples. -/
def exampleDeps : Deps :=
  { chDefaultHTTPPortName := "http"
    chDefaultHTTPPortNumber := 8123
    chDefaultClientPortName := "client"
    chDefaultClientPortNumber := 9000
    chDefaultInterServerPortName := "interserver"
    chDefaultInterServerPortNumber := 9009
    templateDefaultsServiceClusterIP := "None"
    ClickHouseContainerName := "clickhouse"
    ClickHouseLogContainerName := "clickhouse-log"
    defaultClickHouseDockerImage := "clickhouse-server"
    defaultBusyBoxDockerImage := "busybox"
    dirPathConfigd := "/etc/clickhouse-server/config.d/"
    dirPathUsersd := "/etc/clickhouse-server/users.d/"
    dirPathConfd := "/etc/clickhouse-server/conf.d/"
    dirPathClickHouseData := "/var/lib/clickhouse"
    dirPathClickHouseLog := "/var/log/clickhouse-server"
    CreateChiServiceName := fun chi => "clickhouse-" ++ chi.Name
    CreateClusterServiceName := fun cluster => "cluster-" ++ cluster.Name
    CreateShardServiceName := fun shard => "shard-" ++ shard.Name
    CreateStatefulSetServiceName := fun host => "chi-" ++ host.Name
    CreateStatefulSetName := fun host => "chi-" ++ host.Name
    CreateConfigMapCommonName := fun chi => "chi-" ++ chi.Name ++ "-common-configd"
    CreateConfigMapCommonUsersName := fun chi => "chi-" ++ chi.Name ++ "-common-usersd"
    CreateConfigMapPodName := fun host => "chi-" ++ host.Name ++ "-deploy-confd"
    CreatePodHostname := fun host => "chi-" ++ host.Name ++ "-0"
    CreatePodFQDNsOfChi := fun chi =>
      chi.Clusters.flatMap (fun cluster =>
        cluster.Shards.flatMap (fun shard => shard.Replicas.map (fun host => host.Name)))
    NewLabeler := fun _ _ =>
      { getLabelsChiScope := []
        getSelectorChiScope := []
        getLabelsClusterScope := fun _ => []
        getSelectorClusterScope := fun _ => []
        getLabelsShardScope := fun _ => []
        getSelectorShardScope := fun _ => []
        getLabelsHostScope := fun _ _ => []
        GetSelectorHostScope := fun _ => [] }
    NewConfigSections := fun _ _ =>
      { commonConfigSections := []
        commonUsersConfigSections := []
        CreateConfigsPod := fun _ => [] }
    GetOwnServiceTemplate := fun _ => none
    GetClusterServiceTemplate := fun _ _ => none
    GetShardServiceTemplate := fun _ _ => none
    GetHostServiceTemplate := fun _ _ => none
    GetPodTemplate := fun _ _ =>
      some { Name := "pod", Spec := { Containers := [{ Name := "clickhouse" }] } }
    GetVolumeClaimTemplate := fun _ _ => none
    GetReplicasNum := fun _ => 1
    MergeStringMaps := fun dst src => dst ++ src }

/-- Surroundings in which every call succeeds, installations count as normalized and the
plan is the one of the differ above. -/
def exampleEnv : Env :=
  { deps := exampleDeps
    chopConfig := {}
    version := "0"
    IsNormalized := fun _ => true
    CreateTemplatedChi := fun chi _ => (chi, none)
    NewActionPlan := NewActionPlan
    respond := fun _ _ => none
    statements := fun _ _ => ([], [], none)
    GetChiByObjectMeta := fun _ _ => Except.error "not found"
    DoChi := fun chi => Except.ok chi }

/-- The same surroundings, except that every `ReconcileStatefulSet` fails. -/
def exampleEnvFailing : Env :=
  { exampleEnv with
    respond := fun _ c =>
      match c with
      | Call.ReconcileStatefulSet _ _ => some "workload creation failed"
      | _ => none }

/-- Host `replica` of shard 0 of cluster `c1`. -/
def exampleHost (replica : Nat) : ChiHost :=
  { Name := "c1-0-" ++ toString replica
    Address :=
      { Namespace := "ns", ChiName := "chi", ClusterName := "c1"
        ClusterIndex := 0, ShardIndex := 0, ReplicaIndex := replica } }

/-- The installation of the scenario: one cluster `c1`, one shard, two hosts. -/
def exampleChi : ClickHouseInstallation :=
  { Namespace := "ns"
    Name := "chi"
    ResourceVersion := "1"
    Clusters :=
      [ { Name := "c1"
          Address := { Namespace := "ns", ChiName := "chi", ClusterName := "c1" }
          Shards :=
            [ { Name := "c1-0"
                Address := { Namespace := "ns", ChiName := "chi", ClusterName := "c1" }
                Replicas := [exampleHost 0, exampleHost 1] } ] } ] }

/-- The installations whose status a trace persists with `updateChiObject`, in order. -/
def persistedByUpdateChiObject (trace : List Call) : List ClickHouseInstallation :=
  trace.filterMap (fun c =>
    match c with
    | Call.updateChiObject chi => some chi
    | _ => none)


/-! ## Names for the stages of `updateChi` -/

/-- The action plan `updateChi` computes for `old` and `new`. -/
def planOf (env : Env) (old new : Option ClickHouseInstallation) : ActionPlan :=
  env.NewActionPlan (normalizedOrEmpty env old) (normalizedOrEmpty env new)

/-- The installation `new` as `updateChi` persists it before it reconciles. -/
def inProgressChi (env : Env) (old new : Option ClickHouseInstallation) :
    ClickHouseInstallation :=
  { normalizedOrEmpty env new with Status := statusInProgress (planOf env old new) }

/-- The installation `new` as `updateChi` persists it at its end. -/
def completedChi (env : Env) (old new : Option ClickHouseInstallation) :
    ClickHouseInstallation :=
  { inProgressChi env old new with
    Status := { (inProgressChi env old new).Status with Status := StatusPhase.Completed } }

/-- The calls of `updateChi` up to the reconcile walk, when the version tokens differ and
the plan has changes: two log lines and the persisted status. -/
def startOfReconcile (env : Env) (old new : Option ClickHouseInstallation) : List Call :=
  [ Call.glog 2 ("updateChi(" ++ (normalizedOrEmpty env new).Namespace ++ "/"
      ++ (normalizedOrEmpty env new).Name ++ ")"),
    Call.glog 1 ("updateChi(" ++ (normalizedOrEmpty env new).Namespace ++ "/"
      ++ (normalizedOrEmpty env new).Name ++ ") - start reconcile"),
    Call.updateChiObject (inProgressChi env old new) ]

/-- What `updateChi` does after the reconcile walk, by the result of the walk. -/
def afterReconcile (env : Env) (old new : Option ClickHouseInstallation)
    (result : Option Error) : W (Option Error × ClickHouseInstallation) :=
  match result with
  | some err => do
    emit (Call.glog 1 ("Update of resources has FAILED: " ++ err))
    emit (Call.eventChi (inProgressChi env old new) EventType.Error EventAction.Update
      EventReason.UpdateFailed ("Update of resources has FAILED: " ++ err))
    pure (none, inProgressChi env old new)
  | none => do
    postProcessAdded env (inProgressChi env old new) (planOf env old new)
    removeDeleted env (normalizedOrEmpty env old) (planOf env old new)
    let _ ← call env (Call.updateChiObjectStatus (completedChi env old new))
    emit (Call.updateWatch (completedChi env old new).Namespace
      (completedChi env old new).Name
      (env.deps.CreatePodFQDNsOfChi (completedChi env old new)))
    pure (none, completedChi env old new)

/-- A line of the log. -/
def Call.isLog : Call → Prop
  | Call.glog _ _ => True
  | _ => False

/-- Every run of `m` only adds calls to the history, and the calls it adds satisfy `P`. -/
def Emits {α : Type} (P : Call → Prop) (m : W α) : Prop :=
  ∀ history, ∃ l, (m history).2 = history ++ l ∧ ∀ c ∈ l, P c

/-- Every run of `m` ends without a panic, only adds calls to the history, and the calls
it adds satisfy `P`. -/
def Runs {α : Type} (P : Call → Prop) (m : W α) : Prop :=
  ∀ history, ∃ a l, m history = (Except.ok a, history ++ l) ∧ ∀ c ∈ l, P c

/-! ## `deleteChi` and `processItem` -/

/-- Modelled from the spec: `ClickHouseInstallation.WalkClusters` (declared outside the
sources) calls `f` on every cluster of the installation in order, whatever the calls
return, and hands back the results. -/
def WalkClusters (f : ChiCluster → W (Option Error)) :
    List ChiCluster → W (List (Option Error))
  | [] => pure []
  | cluster :: rest => do
    let res ← f cluster
    let others ← WalkClusters f rest
    pure (res :: others)

/-- The verb `%q` on a text: the text in double quotes (escapes left aside). -/
def fmtQuoted (s : String) : String := "\"" ++ s ++ "\""

/-- The verb `%v` on a `map[string]string`. -/
def fmtMap (m : StringMap) : String :=
  "map[" ++ " ".intercalate (m.map (fun kv => kv.1 ++ ":" ++ kv.2)) ++ "]"

/-- Go `deleteChi`; `chi` is dereferenced at once, so a nil `chi` is a panic. -/
def deleteChi (env : Env) (chi : Option ClickHouseInstallation) : W (Option Error) :=
  match chi with
  | none => fault Fault.nilDereference
  | some chi => do
    emit (Call.glog 1 ("Start delete CHI " ++ chi.Namespace ++ "/" ++ chi.Name))
    let normalized := env.CreateTemplatedChi chi true
    match normalized.2 with
    | some err => do
      emit (Call.glog 1 ("ClickHouseInstallation (" ++ fmtQuoted normalized.1.Name
        ++ "): unable to normalize: " ++ fmtQuoted err))
      pure (some err)
    | none => do
      let chi := normalized.1
      let _ ← WalkClusters (deleteCluster env) chi.Clusters
      let _ ← call env (Call.deleteConfigMapsChi chi)
      let _ ← call env (Call.deleteServiceChi chi)
      emit (Call.eventChi chi EventType.Normal EventAction.Delete
        EventReason.DeleteCompleted "deleted")
      emit (Call.glog 1 ("End delete CHI " ++ chi.Namespace ++ "/" ++ chi.Name))
      pure none

/-- The controller's lookup `w.c.GetChiByObjectMeta`. -/
def lookupChi (env : Env) (objectMeta : ObjectMeta) :
    W (Except Error ClickHouseInstallation) := fun history =>
  (Except.ok (env.GetChiByObjectMeta history objectMeta),
    history ++ [Call.GetChiByObjectMeta objectMeta])

/-- Go `createChiFromObjectMeta`. -/
def createChiFromObjectMeta (env : Env) (objectMeta : ObjectMeta) :
    W (Except Error ClickHouseInstallation) := do
  match (← lookupChi env objectMeta) with
  | Except.error err => pure (Except.error err)
  | Except.ok chi =>
    match env.DoChi chi with
    | Except.error err => pure (Except.error err)
    | Except.ok chi => pure (Except.ok chi)

/-- Go `processItem`. -/
def processItem (env : Env) (item : QueueItem) : W (Option Error) :=
  match item with
  | QueueItem.ReconcileChi cmd old new =>
    match cmd with
    | ReconcileCmd.reconcileAdd => do
      let res ← addChi env new
      pure res.1
    | ReconcileCmd.reconcileUpdate => do
      let res ← updateChi env old new
      pure res.1
    | ReconcileCmd.reconcileDelete => deleteChi env old
    | ReconcileCmd.other _ => do
      emit (Call.HandleError "unexpected reconcile - %#v" item)
      pure none
  | QueueItem.ReconcileChit cmd old new =>
    match cmd with
    | ReconcileCmd.reconcileAdd => call env (Call.addChit new)
    | ReconcileCmd.reconcileUpdate => call env (Call.updateChit old new)
    | ReconcileCmd.reconcileDelete => call env (Call.deleteChit old)
    | ReconcileCmd.other _ => do
      emit (Call.HandleError "unexpected reconcile - %#v" item)
      pure none
  | QueueItem.ReconcileChopConfig cmd old new =>
    match cmd with
    | ReconcileCmd.reconcileAdd => call env (Call.addChopConfig new)
    | ReconcileCmd.reconcileUpdate => call env (Call.updateChopConfig old new)
    | ReconcileCmd.reconcileDelete => call env (Call.deleteChopConfig old)
    | ReconcileCmd.other _ => do
      emit (Call.HandleError "unexpected reconcile - %#v" item)
      pure none
  | QueueItem.DropDns initiator => do
    match (← createChiFromObjectMeta env initiator) with
    | Except.ok chi => do
      emit (Call.glog 1 ("endpointsInformer UpdateFunc(" ++ initiator.Namespace ++ "/"
        ++ initiator.Name ++ ") flushing DNS for CHI " ++ chi.Name))
      let _ ← call env (Call.ChiDropDnsCache chi)
      pure none
    | Except.error _ => do
      emit (Call.glog 1 ("endpointsInformer UpdateFunc(" ++ initiator.Namespace ++ "/"
        ++ initiator.Name ++ ") unable to find CHI by " ++ fmtMap initiator.Labels))
      pure none
  | QueueItem.other _ => do
    emit (Call.HandleError "unexpected item in the queue - %#v" item)
    pure none

/-! ## Names for the calls of the reconcile and delete steps -/

/-- The call with which `reconcileHost` reconciles the Service of the host. -/
def hostServiceCall (env : Env) (creator : Creator) (host : ChiHost) : Call :=
  Call.ReconcileService (creator.CreateServiceHost env.deps host)

/-- The call with which `reconcileHost` reconciles the ConfigMap of the host. -/
def hostConfigMapCall (env : Env) (creator : Creator) (host : ChiHost) : Call :=
  Call.ReconcileConfigMap (creator.CreateConfigMapHost env.deps host)

/-- The call with which `reconcileChi` reconciles the Service of the installation. -/
def chiServiceCall (env : Env) (creator : Creator) : Call :=
  Call.ReconcileService (creator.CreateServiceChi env.deps)

/-- The call with which `reconcileChi` reconciles the common ConfigMap. -/
def chiConfigMapCommonCall (env : Env) (creator : Creator) : Call :=
  Call.ReconcileConfigMap (creator.CreateConfigMapChiCommon env.deps)

/-- The call with which `reconcileChi` reconciles the users ConfigMap. -/
def chiConfigMapUsersCall (env : Env) (creator : Creator) : Call :=
  Call.ReconcileConfigMap (creator.CreateConfigMapChiCommonUsers env.deps)

/-- The calls of `deleteTablesOnHost` inside `deleteHost`, made after `history`: the log
line of `deleteHost`, the fetch of the drop statements, the log line listing them and their
application with `stopOnError = false`. -/
def dropCallsOfHost (env : Env) (host : ChiHost) (history : List Call) : List Call :=
  [ Call.glog 1 ("Worker delete host " ++ host.Address.ClusterName ++ "/" ++ host.Name),
    Call.HostGetDropTables host,
    Call.glog 1
      ("Drop tables: "
        ++ fmtStrings (env.statements
            (history ++ [Call.glog 1
              ("Worker delete host " ++ host.Address.ClusterName ++ "/" ++ host.Name)])
            (Call.HostGetDropTables host)).1
        ++ " as "
        ++ fmtStrings (env.statements
            (history ++ [Call.glog 1
              ("Worker delete host " ++ host.Address.ClusterName ++ "/" ++ host.Name)])
            (Call.HostGetDropTables host)).2.1),
    Call.HostApplySQLs host
      (env.statements
        (history ++ [Call.glog 1
          ("Worker delete host " ++ host.Address.ClusterName ++ "/" ++ host.Name)])
        (Call.HostGetDropTables host)).2.1
      false ]

/-- An application of SQL statements (`HostApplySQLs`, `ShardApplySQLs`) is made with
`stopOnError = true`; any other call passes. -/
def Call.stopsOnError : Call → Prop
  | Call.HostApplySQLs _ _ stopOnError => stopOnError = true
  | Call.ShardApplySQLs _ _ stopOnError => stopOnError = true
  | _ => True

/-- The creator `reconcile` makes for the example installation. -/
def exampleCreator : Creator :=
  NewCreator exampleDeps exampleChi exampleEnv.chopConfig exampleEnv.version

/-- The StatefulSet the example creator builds for a host (the empty one if it panics). -/
def exampleStatefulSet (host : ChiHost) : StatefulSet :=
  match exampleCreator.CreateStatefulSet exampleDeps host with
  | Except.ok statefulSet => statefulSet
  | Except.error _ => {}

/-- The example surroundings with a normalizer that fails. -/
def exampleEnvUnnormalizable : Env :=
  { exampleEnv with CreateTemplatedChi := fun chi _ => (chi, some "unable to normalize") }

/-- The example surroundings with a schemer that hands out one replicated table `t` and one
distributed table `d`. -/
def exampleEnvSchema : Env :=
  { exampleEnv with
    statements := fun _ c =>
      match c with
      | Call.GetCreateReplicatedObjects _ _ _ => (["t"], ["CREATE TABLE t"], none)
      | Call.ClusterGetCreateDistributedObjects _ _ => (["d"], ["CREATE TABLE d"], none)
      | _ => ([], [], none) }

/-- An application of SQL statements: `HostApplySQLs` or `ShardApplySQLs`. -/
def Call.isApply : Call → Bool
  | Call.HostApplySQLs _ _ _ => true
  | Call.ShardApplySQLs _ _ _ => true
  | _ => false

/-- The shard of the example installation. -/
def exampleShard : ChiShard :=
  { Name := "c1-0"
    Address := { Namespace := "ns", ChiName := "chi", ClusterName := "c1" }
    Replicas := [exampleHost 0, exampleHost 1] }

/-- The cluster of the example installation. -/
def exampleCluster : ChiCluster :=
  { Name := "c1"
    Address := { Namespace := "ns", ChiName := "chi", ClusterName := "c1" }
    Shards := [exampleShard] }

/-- Every run of `m` ends without a panic and only adds calls to the history, and the
applications of SQL statements among the added calls, in order, satisfy `shape`. -/
def RunsApplying {α : Type} (shape : List Call → Prop) (m : W α) : Prop :=
  ∀ history, ∃ a rest, m history = (Except.ok a, history ++ rest) ∧
    shape (rest.filter Call.isApply)

/-- The statement applications of `createTablesOnShard`: the distributed-object statements
of the cluster, applied to the whole shard with `stopOnError = true`. -/
def shardApplyShape (env : Env) (chi : ClickHouseInstallation) (cluster : ChiCluster)
    (shard : ChiShard) (l : List Call) : Prop :=
  ∃ t, l =
    [ Call.ShardApplySQLs shard
        (env.statements t (Call.ClusterGetCreateDistributedObjects chi cluster)).2.1 true ]

/-- The statement applications of `createTablesOnHost`: the replicated-object statements of
the host, then the distributed-object statements of the cluster, both applied to the host
with `stopOnError = true`. -/
def hostApplyShape (env : Env) (chi : ClickHouseInstallation) (cluster : ChiCluster)
    (host : ChiHost) (l : List Call) : Prop :=
  ∃ t1 t2, l =
    [ Call.HostApplySQLs host
        (env.statements t1 (Call.GetCreateReplicatedObjects chi cluster host)).2.1 true,
      Call.HostApplySQLs host
        (env.statements t2 (Call.ClusterGetCreateDistributedObjects chi cluster)).2.1 true ]

/-- The example names and templates, with a service template for hosts that lists the port
70000. -/
def exampleDepsBadPort : Deps :=
  { exampleDeps with
    GetHostServiceTemplate := fun _ _ =>
      some { Name := "svc", Spec := { Ports := [{ Name := "http", Port := 70000 }] } } }

/-- The pod template `setupStatefulSetPodTemplate` copies into the StatefulSet of a host: the
one the host refers to, or the default one. -/
def resolvedPodTemplate (deps : Deps) (c : Creator) (host : ChiHost) : ChiPodTemplate :=
  match deps.GetPodTemplate c.chi host with
  | some podTemplate => podTemplate
  | none => newDefaultPodTemplate deps (deps.CreateStatefulSetName host)

/-- The example names and templates, with the volume-claim templates `data` and `log`. -/
def exampleDepsVolumeClaims : Deps :=
  { exampleDeps with
    GetVolumeClaimTemplate := fun _ name =>
      if name = "data" ∨ name = "log" then some { Name := name } else none }

/-- The creator for the example installation with the volume-claim templates. -/
def exampleCreatorVolumeClaims : Creator :=
  NewCreator exampleDepsVolumeClaims exampleChi exampleEnv.chopConfig exampleEnv.version

/-- A StatefulSet as `setupStatefulSetVolumeClaimTemplates` has it before its last step: the
claim `log` is listed and mounted in the container `clickhouse`, the container
`clickhouse-log` has no mount yet. -/
def exampleStatefulSetLogClaimed : StatefulSet :=
  { Spec :=
      { VolumeClaimTemplates := [{ ObjectMeta := { Name := "log" } }]
        Template :=
          { Spec :=
              { Containers :=
                  [ { Name := "clickhouse"
                      VolumeMounts :=
                        [{ Name := "log", MountPath := "/var/log/clickhouse-server" }] },
                    { Name := "clickhouse-log" } ] } } } }

/-- The example names and templates, with the volume-claim templates `data` and `log` and a
pod template whose only container is `sidecar`. -/
def exampleDepsSidecarOnly : Deps :=
  { exampleDepsVolumeClaims with
    GetPodTemplate := fun _ _ =>
      some { Name := "pod", Spec := { Containers := [{ Name := "sidecar" }] } } }

/-- The creator for the example installation with the `sidecar` pod template. -/
def exampleCreatorSidecarOnly : Creator :=
  NewCreator exampleDepsSidecarOnly exampleChi exampleEnv.chopConfig exampleEnv.version

/-- Host 0 of the example, with the volume-claim template `data` for its data. -/
def exampleHostData : ChiHost :=
  { exampleHost 0 with Templates := { DataVolumeClaimTemplate := "data" } }

/-- Host 0 of the example, with the volume-claim template `log` for its logs. -/
def exampleHostLog : ChiHost :=
  { exampleHost 0 with Templates := { LogVolumeClaimTemplate := "log" } }

/-- The steps after `setupStatefulSetPodTemplate` keep what it built: `after` has the service
name and the volumes of `before`, and position by position the containers of `before`, under
the same name and with every VolumeMount they had. -/
def KeepsPodTemplate (before after : StatefulSet) : Prop :=
  after.Spec.ServiceName = before.Spec.ServiceName ∧
  after.Spec.Template.Spec.Volumes = before.Spec.Template.Spec.Volumes ∧
  ∀ (j : Nat) (container : Container), before.Spec.Template.Spec.Containers[j]? = some container →
    ∃ container2 : Container, after.Spec.Template.Spec.Containers[j]? = some container2 ∧
      container2.Name = container.Name ∧
      ∀ volumeMount ∈ container.VolumeMounts, volumeMount ∈ container2.VolumeMounts

end Chi

/-! ## Properties of `MergeFrom` -/

namespace V1

theorem mergoMerge_name {n : Nat} (d s : ChiTemplate n) (h : d.Name = s.Name) :
    (mergoMerge d s).Name = d.Name := by
  unfold mergoMerge
  by_cases hs : s.Name = ""
  · simp [hs]
  · simp [hs, h]

theorem mergeSameName_names {n : Nat} (t : ChiTemplate n) (l : List (ChiTemplate n)) :
    (mergeSameName t l).2.map (fun x => x.Name) = l.map (fun x => x.Name) := by
  induction l with
  | nil => rfl
  | cons a rest ih =>
    unfold mergeSameName
    by_cases h : a.Name = t.Name
    · simp [h, mergoMerge_name a t h]
    · simp [h, ih]

theorem mergeSameName_not_found {n : Nat} (t : ChiTemplate n) (l : List (ChiTemplate n))
    (h : ∀ x ∈ l, x.Name ≠ t.Name) : mergeSameName t l = (false, l) := by
  induction l with
  | nil => rfl
  | cons a rest ih =>
    unfold mergeSameName
    have ha : a.Name ≠ t.Name := h a (List.mem_cons_self _ _)
    have hr := ih (fun x hx => h x (List.mem_cons_of_mem _ hx))
    simp [ha, hr]

theorem mergeFromTemplate_not_found {n : Nat} (t : ChiTemplate n) (l : List (ChiTemplate n))
    (h : ∀ x ∈ l, x.Name ≠ t.Name) : mergeFromTemplate l t = l ++ [t] := by
  simp [mergeFromTemplate, mergeSameName_not_found t l h]

theorem mergeFromTemplate_names {n : Nat} (t : ChiTemplate n) (l : List (ChiTemplate n)) :
    l.map (fun x => x.Name) <+: (mergeFromTemplate l t).map (fun x => x.Name) := by
  unfold mergeFromTemplate
  by_cases h : (mergeSameName t l).1 = true
  · simp [h, mergeSameName_names]
  · simp [h, mergeSameName_names]

theorem mergeLoop_names {n : Nat} (froms l : List (ChiTemplate n)) :
    l.map (fun x => x.Name) <+: (mergeLoop l froms).map (fun x => x.Name) := by
  induction froms generalizing l with
  | nil => simp [mergeLoop]
  | cons t rest ih =>
    have h1 := mergeFromTemplate_names t l
    have h2 := ih (mergeFromTemplate l t)
    simp only [mergeLoop, List.foldl_cons] at h2 ⊢
    exact h1.trans h2

theorem mergeTemplateList_eq {n : Nat} (l froms : List (ChiTemplate n)) :
    mergeTemplateList l froms = mergeLoop l froms := by
  unfold mergeTemplateList
  cases froms with
  | nil => simp [mergeLoop]
  | cons a r => simp

theorem mergeLoop_append {n : Nat} (l pre post : List (ChiTemplate n)) :
    mergeLoop l (pre ++ post) = mergeLoop (mergeLoop l pre) post := by
  simp [mergeLoop, List.foldl_append]

theorem mergeLoop_cons {n : Nat} (l : List (ChiTemplate n)) (t : ChiTemplate n)
    (post : List (ChiTemplate n)) :
    mergeLoop l (t :: post) = mergeLoop (mergeFromTemplate l t) post := by
  simp [mergeLoop]

theorem findByName_mergeSameName {n : Nat} (name : String) (t : ChiTemplate n)
    (l : List (ChiTemplate n)) (d : ChiTemplate n) (h : findByName name l = some d) :
    findByName name (mergeSameName t l).2
      = some (if t.Name = name then mergoMerge d t else d) := by
  induction l with
  | nil => simp [findByName] at h
  | cons a rest ih =>
    unfold mergeSameName
    by_cases ha : a.Name = t.Name
    · by_cases hn : a.Name = name
      · have hd : a = d := by simpa [findByName, List.find?, hn] using h
        subst hd
        have htn : t.Name = name := by rw [← ha]; exact hn
        have hm : (mergoMerge a t).Name = name := by rw [mergoMerge_name a t ha]; exact hn
        simp [ha, findByName, List.find?, hm, htn]
      · have htn : ¬ t.Name = name := by rw [← ha]; exact hn
        have hm : ¬ (mergoMerge a t).Name = name := by rw [mergoMerge_name a t ha]; exact hn
        have hr : findByName name rest = some d := by simpa [findByName, List.find?, hn] using h
        simp only [findByName] at hr
        simp [ha, findByName, List.find?, hm, htn, hr]
    · by_cases hn : a.Name = name
      · have hd : a = d := by simpa [findByName, List.find?, hn] using h
        subst hd
        have htn : ¬ t.Name = name := by
          intro e; exact ha (hn.trans e.symm)
        have htn2 : ¬ name = t.Name := fun e => htn e.symm
        simp [findByName, List.find?, hn, htn, htn2]
      · have hr : findByName name rest = some d := by simpa [findByName, List.find?, hn] using h
        have := ih hr
        simp only [findByName] at this
        simp [ha, findByName, List.find?, hn, this]

theorem findByName_mergeFromTemplate {n : Nat} (name : String) (t : ChiTemplate n)
    (l : List (ChiTemplate n)) (d : ChiTemplate n) (h : findByName name l = some d) :
    findByName name (mergeFromTemplate l t)
      = some (if t.Name = name then mergoMerge d t else d) := by
  have h1 := findByName_mergeSameName name t l d h
  unfold mergeFromTemplate
  by_cases hf : (mergeSameName t l).1 = true
  · simp [hf, h1]
  · simp only [findByName] at h1
    simp [hf, findByName, List.find?_append, h1]

theorem findByName_mergeLoop {n : Nat} (name : String) (froms l : List (ChiTemplate n))
    (d : ChiTemplate n) (h : findByName name l = some d) :
    findByName name (mergeLoop l froms)
      = some ((allByName name froms).foldl mergoMerge d) := by
  induction froms generalizing l d with
  | nil => simpa [mergeLoop, allByName] using h
  | cons t rest ih =>
    rw [mergeLoop_cons]
    rw [ih _ _ (findByName_mergeFromTemplate name t l d h)]
    by_cases htn : t.Name = name
    · simp [allByName, List.filter, htn]
    · simp [allByName, List.filter, htn]

theorem findByName_name {n : Nat} (name : String) (l : List (ChiTemplate n))
    (d : ChiTemplate n) (h : findByName name l = some d) : d.Name = name := by
  have := List.find?_some h
  simpa using this


theorem foldl_mergoMerge_fields {n : Nat} (ts : List (ChiTemplate n)) (d : ChiTemplate n)
    (f : Fin n) :
    (ts.foldl mergoMerge d).Fields f
      = ((ts.reverse.find? (fun t => decide (t.Fields f ≠ 0))).map
          (fun t => t.Fields f)).getD (d.Fields f) := by
  induction ts using List.reverseRecOn with
  | nil => simp
  | append_singleton ts t ih =>
    rw [List.foldl_append, List.reverse_append]
    by_cases h : t.Fields f = 0
    · simp [mergoMerge, h, List.find?, ih]
    · simp [mergoMerge, h, List.find?]

theorem foldl_mergoMerge_structs {n : Nat} (ts : List (ChiTemplate n)) (d : ChiTemplate n) :
    (ts.foldl mergoMerge d).Structs
      = (ts.getLast?.map (fun t => t.Structs)).getD d.Structs := by
  induction ts using List.reverseRecOn with
  | nil => simp
  | append_singleton ts t ih =>
    rw [List.foldl_append]
    simp [mergoMerge]

theorem mergeTemplateList_overrides {n : Nat} (l froms : List (ChiTemplate n))
    (name : String) (d : ChiTemplate n) (h : findByName name l = some d) :
    ∃ r, findByName name (mergeTemplateList l froms) = some r ∧ r.Name = name ∧
      (∀ f, r.Fields f = (sourceValue name froms f).getD (d.Fields f)) ∧
      r.Structs = (sourceStructs name froms).getD d.Structs := by
  refine ⟨(allByName name froms).foldl mergoMerge d, ?_, ?_, ?_, ?_⟩
  · rw [mergeTemplateList_eq]; exact findByName_mergeLoop name froms l d h
  · have := findByName_mergeLoop name froms l d h
    exact findByName_name name _ _ this
  · intro f
    exact foldl_mergoMerge_fields _ d f
  · exact foldl_mergoMerge_structs _ d

theorem mergeTemplateList_appends {n : Nat} (l pre post : List (ChiTemplate n))
    (t : ChiTemplate n) (h : ∀ x ∈ mergeLoop l pre, x.Name ≠ t.Name) :
    mergeTemplateList l (pre ++ t :: post) = mergeLoop (mergeLoop l pre ++ [t]) post := by
  rw [mergeTemplateList_eq, mergeLoop_append, mergeLoop_cons,
    mergeFromTemplate_not_found t _ h]

theorem mergeTemplateList_names {n : Nat} (l froms : List (ChiTemplate n)) :
    l.length ≤ (mergeTemplateList l froms).length ∧
      l.map (fun x => x.Name) <+: (mergeTemplateList l froms).map (fun x => x.Name) := by
  rw [mergeTemplateList_eq]
  have h := mergeLoop_names froms l
  refine ⟨?_, h⟩
  have := h.length_le
  simpa using this

/-- C1 (amended). When the destination list holds a template named `name` (`d`, the one the
lookup by name finds), then after `MergeFrom` the destination template of that name has, for
every leaf field that `mergo` tests for emptiness, the source's value where the source sets
the field and the previous value of `d` where the source leaves it unset; its struct leaves
without exported fields are those of the last source template of that name, whatever their
value, and those of `d` when the source has no template of that name; this for each of the
three lists. -/
theorem MergeFrom_overrides_same_name {np nv ns : Nat} (templates src : ChiTemplates np nv ns) :
    (∀ name d, findByName name templates.PodTemplates = some d →
      ∃ r, findByName name (templates.MergeFrom (some src)).PodTemplates = some r ∧
        r.Name = name ∧
        (∀ f, r.Fields f = (sourceValue name src.PodTemplates f).getD (d.Fields f)) ∧
        r.Structs = (sourceStructs name src.PodTemplates).getD d.Structs) ∧
    (∀ name d, findByName name templates.VolumeClaimTemplates = some d →
      ∃ r, findByName name (templates.MergeFrom (some src)).VolumeClaimTemplates = some r ∧
        r.Name = name ∧
        (∀ f, r.Fields f = (sourceValue name src.VolumeClaimTemplates f).getD (d.Fields f)) ∧
        r.Structs = (sourceStructs name src.VolumeClaimTemplates).getD d.Structs) ∧
    (∀ name d, findByName name templates.ServiceTemplates = some d →
      ∃ r, findByName name (templates.MergeFrom (some src)).ServiceTemplates = some r ∧
        r.Name = name ∧
        (∀ f, r.Fields f = (sourceValue name src.ServiceTemplates f).getD (d.Fields f)) ∧
        r.Structs = (sourceStructs name src.ServiceTemplates).getD d.Structs) :=
  ⟨fun name d h => mergeTemplateList_overrides _ _ name d h,
   fun name d h => mergeTemplateList_overrides _ _ name d h,
   fun name d h => mergeTemplateList_overrides _ _ name d h⟩

/-- C1 on the example of the spec: `x` with `F = 3`, `G = 7` merged with `x` with `F = 5`
gives `x` with `F = 5`, `G = 7`. -/
theorem MergeFrom_overrides_same_name_witness :
    findByName "x" exampleDestination.PodTemplates
        = some { Name := "x", Fields := ![3, 7] } ∧
      ∃ r, findByName "x" (exampleDestination.MergeFrom (some exampleSource)).PodTemplates
        = some r ∧ r.Name = "x" ∧ r.Fields 0 = 5 ∧ r.Fields 1 = 7 ∧ r.Structs = [] :=
  ⟨rfl,
   match (MergeFrom_overrides_same_name exampleDestination exampleSource).1 "x"
      { Name := "x", Fields := ![3, 7] } rfl with
   | ⟨r, h1, h2, h3, h4⟩ =>
     ⟨r, h1, h2, (h3 0).trans (by decide), (h3 1).trans (by decide), h4.trans (by decide)⟩⟩

/-- C1 as stated fails on a struct leaf without exported fields: the destination service
template `s` has the creation timestamp 1577836800, the source template `s` leaves it unset
(zero) and sets no other field; after `MergeFrom` the destination template keeps its field
of value 9 and has the zero timestamp, not its previous one. -/
theorem MergeFrom_unset_struct_leaf_overwrites :
    findByName "s" exampleDestinationStamped.ServiceTemplates
      = some { Name := "s", Fields := ![9, 0], Structs := [1577836800] } ∧
    findByName "s" exampleSourceUnstamped.ServiceTemplates
      = some { Name := "s", Fields := ![0, 0], Structs := [0] } ∧
    ∃ r, findByName "s"
        (exampleDestinationStamped.MergeFrom (some exampleSourceUnstamped)).ServiceTemplates
        = some r ∧ r.Name = "s" ∧ r.Fields 0 = 9 ∧ r.Structs = [0] :=
  ⟨rfl, rfl, _, rfl, rfl, by decide, rfl⟩

theorem mergeSameName_getElem? {n : Nat} (t a : ChiTemplate n) (l : List (ChiTemplate n))
    (i : Nat) (hne : a.Name ≠ t.Name) (h : l[i]? = some a) :
    (mergeSameName t l).2[i]? = some a := by
  induction l generalizing i with
  | nil => simp at h
  | cons b rest ih =>
    unfold mergeSameName
    cases i with
    | zero =>
      have hb : b = a := by simpa using h
      subst hb
      simp [hne]
    | succ j =>
      have hj : rest[j]? = some a := by simpa using h
      by_cases hb : b.Name = t.Name
      · simp [hb, hj]
      · simp [hb, ih j hj]

theorem mergeFromTemplate_getElem? {n : Nat} (t a : ChiTemplate n) (l : List (ChiTemplate n))
    (i : Nat) (hne : a.Name ≠ t.Name) (h : l[i]? = some a) :
    (mergeFromTemplate l t)[i]? = some a := by
  have h1 := mergeSameName_getElem? t a l i hne h
  unfold mergeFromTemplate
  by_cases hf : (mergeSameName t l).1 = true
  · simp [hf, h1]
  · have hlt : i < (mergeSameName t l).2.length := by
      by_contra hc
      rw [List.getElem?_eq_none (Nat.le_of_not_lt hc)] at h1
      cases h1
    simp [hf, List.getElem?_append_left hlt, h1]

theorem mergeLoop_getElem? {n : Nat} (a : ChiTemplate n) (froms l : List (ChiTemplate n))
    (i : Nat) (hne : ∀ x ∈ froms, x.Name ≠ a.Name) (h : l[i]? = some a) :
    (mergeLoop l froms)[i]? = some a := by
  induction froms generalizing l with
  | nil => simpa [mergeLoop] using h
  | cons t rest ih =>
    rw [mergeLoop_cons]
    apply ih
    · intro x hx; exact hne x (List.mem_cons_of_mem _ hx)
    · exact mergeFromTemplate_getElem? t a l i
        (fun e => hne t (List.mem_cons_self _ _) e.symm) h

theorem mergeTemplateList_appends_at {n : Nat} (l pre post : List (ChiTemplate n))
    (t : ChiTemplate n) (h : ∀ x ∈ mergeLoop l pre, x.Name ≠ t.Name) :
    mergeTemplateList l (pre ++ t :: post) = mergeLoop (mergeLoop l pre ++ [t]) post ∧
    ((∀ x ∈ post, x.Name ≠ t.Name) →
      (mergeTemplateList l (pre ++ t :: post))[(mergeLoop l pre).length]? = some t) := by
  refine ⟨mergeTemplateList_appends l pre post t h, fun hp => ?_⟩
  rw [mergeTemplateList_appends l pre post t h]
  exact mergeLoop_getElem? t post _ _ hp (by simp)

/-- C2. In each of the three lists: when the source list is `pre ++ t :: post` and no
template of the destination list as it stands after `pre` has been processed carries the
name of `t`, then processing `t` appends `t` itself at the end of that list (the rest of the
merge continues from there), and when no later source template carries that name the merged
list holds `t`, field for field, at that index. -/
theorem MergeFrom_appends_unknown_name {np nv ns : Nat}
    (templates src : ChiTemplates np nv ns) :
    (∀ pre t post, src.PodTemplates = pre ++ t :: post →
      (∀ x ∈ mergeLoop templates.PodTemplates pre, x.Name ≠ t.Name) →
      (templates.MergeFrom (some src)).PodTemplates
          = mergeLoop (mergeLoop templates.PodTemplates pre ++ [t]) post ∧
        ((∀ x ∈ post, x.Name ≠ t.Name) →
          (templates.MergeFrom (some src)).PodTemplates[
            (mergeLoop templates.PodTemplates pre).length]? = some t)) ∧
    (∀ pre t post, src.VolumeClaimTemplates = pre ++ t :: post →
      (∀ x ∈ mergeLoop templates.VolumeClaimTemplates pre, x.Name ≠ t.Name) →
      (templates.MergeFrom (some src)).VolumeClaimTemplates
          = mergeLoop (mergeLoop templates.VolumeClaimTemplates pre ++ [t]) post ∧
        ((∀ x ∈ post, x.Name ≠ t.Name) →
          (templates.MergeFrom (some src)).VolumeClaimTemplates[
            (mergeLoop templates.VolumeClaimTemplates pre).length]? = some t)) ∧
    (∀ pre t post, src.ServiceTemplates = pre ++ t :: post →
      (∀ x ∈ mergeLoop templates.ServiceTemplates pre, x.Name ≠ t.Name) →
      (templates.MergeFrom (some src)).ServiceTemplates
          = mergeLoop (mergeLoop templates.ServiceTemplates pre ++ [t]) post ∧
        ((∀ x ∈ post, x.Name ≠ t.Name) →
          (templates.MergeFrom (some src)).ServiceTemplates[
            (mergeLoop templates.ServiceTemplates pre).length]? = some t)) := by
  refine ⟨?_, ?_, ?_⟩
  · intro pre t post hs h
    simp only [ChiTemplates.MergeFrom, hs]
    exact mergeTemplateList_appends_at _ pre post t h
  · intro pre t post hs h
    simp only [ChiTemplates.MergeFrom, hs]
    exact mergeTemplateList_appends_at _ pre post t h
  · intro pre t post hs h
    simp only [ChiTemplates.MergeFrom, hs]
    exact mergeTemplateList_appends_at _ pre post t h

/-- C2 on an example: the service template `y` is appended to an empty service list. -/
theorem MergeFrom_appends_unknown_name_witness :
    (exampleDestination.MergeFrom (some exampleSourceNew)).ServiceTemplates
        = mergeLoop (mergeLoop exampleDestination.ServiceTemplates []
            ++ [{ Name := "y", Fields := ![4, 0] }]) [] ∧
      (exampleDestination.MergeFrom (some exampleSourceNew)).ServiceTemplates[
          (mergeLoop exampleDestination.ServiceTemplates []).length]?
        = some { Name := "y", Fields := ![4, 0] } :=
  have h := (MergeFrom_appends_unknown_name exampleDestination exampleSourceNew).2.2 []
    { Name := "y", Fields := ![4, 0] } [] rfl (by simp [mergeLoop, exampleDestination])
  ⟨h.1, h.2 (by simp)⟩

/-- C3. `MergeFrom` removes no template: for every destination and every source, nil
included, each of the three lists is afterwards at least as long as before, and the names
of the list before are the names at the same indices of the list after. -/
theorem MergeFrom_never_removes {np nv ns : Nat} (templates : ChiTemplates np nv ns)
    (src : Option (ChiTemplates np nv ns)) :
    (templates.PodTemplates.length ≤ (templates.MergeFrom src).PodTemplates.length ∧
      templates.PodTemplates.map (fun t => t.Name)
        <+: (templates.MergeFrom src).PodTemplates.map (fun t => t.Name)) ∧
    (templates.VolumeClaimTemplates.length
        ≤ (templates.MergeFrom src).VolumeClaimTemplates.length ∧
      templates.VolumeClaimTemplates.map (fun t => t.Name)
        <+: (templates.MergeFrom src).VolumeClaimTemplates.map (fun t => t.Name)) ∧
    (templates.ServiceTemplates.length ≤ (templates.MergeFrom src).ServiceTemplates.length ∧
      templates.ServiceTemplates.map (fun t => t.Name)
        <+: (templates.MergeFrom src).ServiceTemplates.map (fun t => t.Name)) := by
  cases src with
  | none => simp [ChiTemplates.MergeFrom]
  | some s =>
    exact ⟨mergeTemplateList_names _ _, mergeTemplateList_names _ _,
      mergeTemplateList_names _ _⟩

/-! ### Name uniqueness and idempotence -/

theorem mergeSameName_found {n : Nat} (t : ChiTemplate n) (l : List (ChiTemplate n)) :
    (mergeSameName t l).1 = true ↔ ∃ x ∈ l, x.Name = t.Name := by
  induction l with
  | nil => simp [mergeSameName]
  | cons a rest ih =>
    unfold mergeSameName
    by_cases h : a.Name = t.Name
    · simp [h]
    · simp [h, ih]

theorem mergeFromTemplate_found {n : Nat} (t : ChiTemplate n) (l : List (ChiTemplate n))
    (h : ∃ x ∈ l, x.Name = t.Name) : mergeFromTemplate l t = (mergeSameName t l).2 := by
  have hf := (mergeSameName_found t l).2 h
  simp [mergeFromTemplate, hf]

theorem mergeFromTemplate_nodup {n : Nat} (t : ChiTemplate n) (l : List (ChiTemplate n))
    (h : (l.map (fun x => x.Name)).Nodup) :
    ((mergeFromTemplate l t).map (fun x => x.Name)).Nodup := by
  by_cases hf : ∃ x ∈ l, x.Name = t.Name
  · rw [mergeFromTemplate_found t l hf, mergeSameName_names]
    exact h
  · have hne : ∀ x ∈ l, x.Name ≠ t.Name := fun x hx e => hf ⟨x, hx, e⟩
    rw [mergeFromTemplate_not_found t l hne, List.map_append]
    refine List.Nodup.append h (by simp) ?_
    intro a ha hb
    have hb2 : a = t.Name := by simpa using hb
    obtain ⟨x, hx, hxa⟩ := List.mem_map.1 ha
    exact hne x hx (hxa.trans hb2)

theorem mergeLoop_nodup {n : Nat} (froms l : List (ChiTemplate n))
    (h : (l.map (fun x => x.Name)).Nodup) :
    ((mergeLoop l froms).map (fun x => x.Name)).Nodup := by
  induction froms generalizing l with
  | nil => simpa [mergeLoop] using h
  | cons t rest ih =>
    rw [mergeLoop_cons]
    exact ih _ (mergeFromTemplate_nodup t l h)

theorem mergeTemplateList_nodup {n : Nat} (l froms : List (ChiTemplate n))
    (h : (l.map (fun x => x.Name)).Nodup) :
    ((mergeTemplateList l froms).map (fun x => x.Name)).Nodup := by
  rw [mergeTemplateList_eq]
  exact mergeLoop_nodup froms l h

/-- C23. `MergeFrom` preserves name uniqueness: for every destination and every source (nil,
or with lists that repeat a name), each of the three destination lists whose names are
pairwise distinct before `MergeFrom` has pairwise distinct names after it. -/
theorem MergeFrom_preserves_distinct_names {np nv ns : Nat} (templates : ChiTemplates np nv ns)
    (src : Option (ChiTemplates np nv ns)) :
    ((templates.PodTemplates.map (fun t => t.Name)).Nodup →
      ((templates.MergeFrom src).PodTemplates.map (fun t => t.Name)).Nodup) ∧
    ((templates.VolumeClaimTemplates.map (fun t => t.Name)).Nodup →
      ((templates.MergeFrom src).VolumeClaimTemplates.map (fun t => t.Name)).Nodup) ∧
    ((templates.ServiceTemplates.map (fun t => t.Name)).Nodup →
      ((templates.MergeFrom src).ServiceTemplates.map (fun t => t.Name)).Nodup) := by
  cases src with
  | none => simp [ChiTemplates.MergeFrom]
  | some s =>
    exact ⟨mergeTemplateList_nodup _ _, mergeTemplateList_nodup _ _,
      mergeTemplateList_nodup _ _⟩

/-- C23 on an example: the source repeats the name `x`, the destination holds `x` once and
still does after the merge. -/
theorem MergeFrom_preserves_distinct_names_witness :
    (exampleDestination.PodTemplates.map (fun t => t.Name)).Nodup ∧
      (((exampleDestination.MergeFrom (some exampleSourceRepeating)).PodTemplates.map
        (fun t => t.Name)).Nodup) :=
  ⟨by decide,
   (MergeFrom_preserves_distinct_names exampleDestination (some exampleSourceRepeating)).1
     (by decide)⟩


theorem template_ext {n : Nat} (a b : ChiTemplate n) (hn : a.Name = b.Name)
    (hf : ∀ f, a.Fields f = b.Fields f) (hs : a.Structs = b.Structs) : a = b := by
  cases a with
  | mk an af as =>
    cases b with
    | mk bn bf bs =>
      have h1 : an = bn := hn
      have h2 : af = bf := funext hf
      have h3 : as = bs := hs
      rw [h1, h2, h3]

theorem mergoMerge_self {n : Nat} (t : ChiTemplate n) : mergoMerge t t = t := by
  apply template_ext
  · simp [mergoMerge]
  · intro f
    simp [mergoMerge]
  · rfl

theorem foldl_mergoMerge_name {n : Nat} (ts : List (ChiTemplate n)) (d : ChiTemplate n) :
    (ts.foldl mergoMerge d).Name
      = ((ts.reverse.find? (fun t => decide (t.Name ≠ ""))).map
          (fun t => t.Name)).getD d.Name := by
  induction ts using List.reverseRecOn with
  | nil => simp
  | append_singleton ts t ih =>
    rw [List.foldl_append, List.reverse_append]
    by_cases h : t.Name = ""
    · simp [mergoMerge, h, List.find?, ih]
    · simp [mergoMerge, h, List.find?]

theorem foldl_mergoMerge_same_name {n : Nat} (ts : List (ChiTemplate n)) (d : ChiTemplate n)
    (h : ∀ t ∈ ts, t.Name = d.Name) : (ts.foldl mergoMerge d).Name = d.Name := by
  induction ts generalizing d with
  | nil => rfl
  | cons t rest ih =>
    have ht : d.Name = t.Name := (h t (List.mem_cons_self _ _)).symm
    have hm := mergoMerge_name d t ht
    rw [List.foldl_cons, ih (mergoMerge d t) (fun x hx => by
      rw [hm]; exact h x (List.mem_cons_of_mem _ hx)), hm]

theorem foldl_mergoMerge_idem {n : Nat} (ts : List (ChiTemplate n)) (d : ChiTemplate n) :
    ts.foldl mergoMerge (ts.foldl mergoMerge d) = ts.foldl mergoMerge d := by
  apply template_ext
  · rw [foldl_mergoMerge_name ts (ts.foldl mergoMerge d), foldl_mergoMerge_name ts d]
    cases (ts.reverse.find? (fun t => decide (t.Name ≠ ""))) with
    | none => simp
    | some t => simp
  · intro f
    rw [foldl_mergoMerge_fields ts (ts.foldl mergoMerge d) f, foldl_mergoMerge_fields ts d f]
    cases (ts.reverse.find? (fun t => decide (t.Fields f ≠ 0))) with
    | none => simp
    | some t => simp
  · rw [foldl_mergoMerge_structs ts (ts.foldl mergoMerge d), foldl_mergoMerge_structs ts d]
    cases ts.getLast? with
    | none => simp
    | some t => simp

theorem mergeFromTemplate_cons_eq {n : Nat} (a t : ChiTemplate n) (rest : List (ChiTemplate n))
    (h : a.Name = t.Name) : mergeFromTemplate (a :: rest) t = mergoMerge a t :: rest := by
  simp [mergeFromTemplate, mergeSameName, h]

theorem mergeFromTemplate_cons_ne {n : Nat} (a t : ChiTemplate n) (rest : List (ChiTemplate n))
    (h : a.Name ≠ t.Name) : mergeFromTemplate (a :: rest) t = a :: mergeFromTemplate rest t := by
  unfold mergeFromTemplate
  by_cases hf : (mergeSameName t rest).1 = true
  · simp [mergeSameName, h, hf]
  · simp [mergeSameName, h, hf]

/-- The merge of a source into a non-empty list: the head takes the source templates of its
name, the tail takes the others. -/
theorem mergeLoop_cons_head {n : Nat} (froms : List (ChiTemplate n)) (a : ChiTemplate n)
    (rest : List (ChiTemplate n)) :
    mergeLoop (a :: rest) froms
      = (allByName a.Name froms).foldl mergoMerge a
          :: mergeLoop rest (froms.filter (fun t => decide (t.Name ≠ a.Name))) := by
  induction froms generalizing a rest with
  | nil => simp [mergeLoop, allByName]
  | cons t s ih =>
    rw [mergeLoop_cons]
    by_cases h : a.Name = t.Name
    · rw [mergeFromTemplate_cons_eq a t rest h, ih, mergoMerge_name a t h]
      simp [allByName, List.filter, h]
    · have h2 : ¬ t.Name = a.Name := fun e => h e.symm
      rw [mergeFromTemplate_cons_ne a t rest h, ih]
      simp [allByName, List.filter, h2, mergeLoop_cons]

theorem allByName_name {n : Nat} (name : String) (l : List (ChiTemplate n)) :
    ∀ t ∈ allByName name l, t.Name = name := by
  intro t ht
  have := (List.mem_filter.1 ht).2
  simpa using this

theorem mergeLoop_idem_nil {n : Nat} (k : Nat) :
    ∀ froms : List (ChiTemplate n), froms.length ≤ k →
      mergeLoop (mergeLoop [] froms) froms = mergeLoop [] froms := by
  induction k with
  | zero =>
    intro froms h
    have : froms = [] := List.length_eq_zero.1 (Nat.le_zero.1 h)
    subst this
    simp [mergeLoop]
  | succ k ih =>
    intro froms h
    cases froms with
    | nil => simp [mergeLoop]
    | cons t s =>
      have hlen : (s.filter (fun x => decide (x.Name ≠ t.Name))).length ≤ k :=
        (List.length_filter_le _ _).trans (Nat.le_of_succ_le_succ h)
      have hnil : mergeLoop [] (t :: s) = mergeLoop [t] s := by
        rw [mergeLoop_cons]; rfl
      have hname : ((allByName t.Name s).foldl mergoMerge t).Name = t.Name :=
        foldl_mergoMerge_same_name _ t (allByName_name t.Name s)
      rw [hnil, mergeLoop_cons_head s t [], mergeLoop_cons_head (t :: s), hname]
      have hall : allByName t.Name (t :: s) = t :: allByName t.Name s := by
        simp [allByName, List.filter]
      have hfil : (t :: s).filter (fun x => decide (x.Name ≠ t.Name))
          = s.filter (fun x => decide (x.Name ≠ t.Name)) := by
        simp [List.filter]
      have hhead : (t :: allByName t.Name s).foldl mergoMerge
            ((allByName t.Name s).foldl mergoMerge t)
          = (allByName t.Name s).foldl mergoMerge t := by
        have h1 : (allByName t.Name s).foldl mergoMerge t
            = (t :: allByName t.Name s).foldl mergoMerge t := by
          rw [List.foldl_cons, mergoMerge_self]
        rw [h1]
        exact foldl_mergoMerge_idem _ t
      rw [hall, hfil, hhead, ih _ hlen]

theorem mergeLoop_idem {n : Nat} (l froms : List (ChiTemplate n)) :
    mergeLoop (mergeLoop l froms) froms = mergeLoop l froms := by
  induction l generalizing froms with
  | nil => exact mergeLoop_idem_nil froms.length froms (Nat.le_refl _)
  | cons a rest ih =>
    have hname : ((allByName a.Name froms).foldl mergoMerge a).Name = a.Name :=
      foldl_mergoMerge_same_name _ a (allByName_name a.Name froms)
    rw [mergeLoop_cons_head froms a rest, mergeLoop_cons_head froms, hname,
      foldl_mergoMerge_idem, ih]

theorem mergeTemplateList_idem {n : Nat} (l froms : List (ChiTemplate n)) :
    mergeTemplateList (mergeTemplateList l froms) froms = mergeTemplateList l froms := by
  rw [mergeTemplateList_eq, mergeTemplateList_eq]
  exact mergeLoop_idem l froms

/-- C24. `MergeFrom` is idempotent in its source: for every destination and every source
(nil included), merging the source a second time leaves each of the three lists, template
for template and field for field, as the first merge left it. -/
theorem MergeFrom_idempotent {np nv ns : Nat} (templates : ChiTemplates np nv ns)
    (src : Option (ChiTemplates np nv ns)) :
    (templates.MergeFrom src).MergeFrom src = templates.MergeFrom src := by
  cases src with
  | none => rfl
  | some s =>
    simp only [ChiTemplates.MergeFrom, mergeTemplateList_idem]

end V1

namespace Chi

open Model

/-! ## Runs of the worker -/

theorem run_pure {α : Type} (a : α) (history : List Call) :
    (Pure.pure a : W α) history = (Except.ok a, history) := rfl

theorem run_bind {α β : Type} (m : W α) (f : α → W β) (history : List Call) :
    (m >>= f) history =
      match m history with
      | (Except.ok a, history1) => f a history1
      | (Except.error e, history1) => (Except.error e, history1) := rfl

theorem run_bind_ok {α β : Type} (m : W α) (f : α → W β) (history history1 : List Call)
    (a : α) (h : m history = (Except.ok a, history1)) :
    (m >>= f) history = f a history1 := by
  rw [run_bind, h]

theorem run_emit (c : Call) (history : List Call) :
    emit c history = (Except.ok (), history ++ [c]) := rfl

theorem run_call (env : Env) (c : Call) (history : List Call) :
    call env c history = (Except.ok (env.respond history c), history ++ [c]) := rfl

theorem run_fetch (env : Env) (c : Call) (history : List Call) :
    fetch env c history = (Except.ok (env.statements history c), history ++ [c]) := rfl

theorem runs_emits {α : Type} {P : Call → Prop} {m : W α} (h : Runs P m) : Emits P m := by
  intro history
  obtain ⟨a, l, h1, h2⟩ := h history
  exact ⟨l, by rw [h1], h2⟩

theorem emits_pure {α : Type} (P : Call → Prop) (a : α) : Emits P (Pure.pure a : W α) :=
  fun history => ⟨[], by simp [run_pure], by simp⟩

theorem emits_bind {α β : Type} {P : Call → Prop} {m : W α} {f : α → W β}
    (hm : Emits P m) (hf : ∀ a, Emits P (f a)) : Emits P (m >>= f) := by
  intro history
  obtain ⟨l1, h1, p1⟩ := hm history
  rw [run_bind]
  rcases hmh : m history with ⟨r, history1⟩
  rw [hmh] at h1
  simp only at h1
  subst h1
  cases r with
  | error e => exact ⟨l1, rfl, p1⟩
  | ok a =>
    obtain ⟨l2, h2, p2⟩ := hf a (history ++ l1)
    refine ⟨l1 ++ l2, ?_, ?_⟩
    · simp only [h2, List.append_assoc]
    · intro c hc
      rcases List.mem_append.mp hc with h | h
      · exact p1 c h
      · exact p2 c h

theorem emits_emit {P : Call → Prop} (c : Call) (h : P c) : Emits P (emit c) :=
  fun history => ⟨[c], rfl, by simpa using h⟩

theorem emits_call {P : Call → Prop} (env : Env) (c : Call) (h : P c) : Emits P (call env c) :=
  fun history => ⟨[c], rfl, by simpa using h⟩

theorem emits_fetch {P : Call → Prop} (env : Env) (c : Call) (h : P c) :
    Emits P (fetch env c) :=
  fun history => ⟨[c], rfl, by simpa using h⟩

theorem emits_fault {α : Type} (P : Call → Prop) (f : Fault) : Emits P (fault f : W α) :=
  fun history => ⟨[], by simp [Chi.fault], by simp⟩

theorem emits_liftCreator {α : Type} (P : Call → Prop) (x : Except Fault α) :
    Emits P (liftCreator x) :=
  fun history => ⟨[], by simp [Chi.liftCreator], by simp⟩

theorem runs_pure {α : Type} (P : Call → Prop) (a : α) : Runs P (Pure.pure a : W α) :=
  fun history => ⟨a, [], by simp [run_pure], by simp⟩

theorem runs_bind {α β : Type} {P : Call → Prop} {m : W α} {f : α → W β}
    (hm : Runs P m) (hf : ∀ a, Runs P (f a)) : Runs P (m >>= f) := by
  intro history
  obtain ⟨a, l1, h1, p1⟩ := hm history
  obtain ⟨b, l2, h2, p2⟩ := hf a (history ++ l1)
  refine ⟨b, l1 ++ l2, ?_, ?_⟩
  · rw [run_bind_ok m f history _ a h1, h2, List.append_assoc]
  · intro c hc
    rcases List.mem_append.mp hc with h | h
    · exact p1 c h
    · exact p2 c h

theorem runs_emit {P : Call → Prop} (c : Call) (h : P c) : Runs P (emit c) :=
  fun history => ⟨(), [c], rfl, by simpa using h⟩

theorem runs_call {P : Call → Prop} (env : Env) (c : Call) (h : P c) : Runs P (call env c) :=
  fun history => ⟨env.respond history c, [c], rfl, by simpa using h⟩

theorem runs_fetch {P : Call → Prop} (env : Env) (c : Call) (h : P c) :
    Runs P (fetch env c) :=
  fun history => ⟨env.statements history c, [c], rfl, by simpa using h⟩


/-! ## The reconcile walk makes reconcile calls only -/

theorem reconcileChi_emits (env : Env) (creator : Creator) (chi : ClickHouseInstallation) :
    Emits Call.isReconcile (reconcileChi env creator chi) := by
  unfold reconcileChi
  refine emits_bind (emits_call _ _ trivial) (fun r => ?_)
  cases r with
  | some e => exact emits_pure _ _
  | none =>
    refine emits_bind (emits_call _ _ trivial) (fun r => ?_)
    cases r with
    | some e => exact emits_pure _ _
    | none =>
      refine emits_bind (emits_call _ _ trivial) (fun r => ?_)
      cases r with
      | some e => exact emits_pure _ _
      | none => exact emits_pure _ _

theorem reconcileCluster_emits (env : Env) (creator : Creator) (cluster : ChiCluster) :
    Emits Call.isReconcile (reconcileCluster env creator cluster) := by
  unfold reconcileCluster
  cases creator.CreateServiceCluster env.deps cluster with
  | some s => exact emits_call _ _ trivial
  | none => exact emits_pure _ _

theorem reconcileShard_emits (env : Env) (creator : Creator) (shard : ChiShard) :
    Emits Call.isReconcile (reconcileShard env creator shard) := by
  unfold reconcileShard
  cases creator.CreateServiceShard env.deps shard with
  | some s => exact emits_call _ _ trivial
  | none => exact emits_pure _ _

theorem reconcileHost_emits (env : Env) (creator : Creator) (host : ChiHost) :
    Emits Call.isReconcile (reconcileHost env creator host) := by
  unfold reconcileHost
  refine emits_bind (emits_call _ _ trivial) (fun r => ?_)
  cases r with
  | some e => exact emits_pure _ _
  | none =>
    refine emits_bind (emits_call _ _ trivial) (fun r => ?_)
    cases r with
    | some e => exact emits_pure _ _
    | none =>
      refine emits_bind (emits_liftCreator _ _) (fun statefulSet => ?_)
      refine emits_bind (emits_call _ _ trivial) (fun r => ?_)
      cases r with
      | some e => exact emits_pure _ _
      | none => exact emits_pure _ _

theorem walkHostsTillError_emits {P : Call → Prop} (fHost : ChiHost → W (Option Error))
    (hHost : ∀ host, Emits P (fHost host)) (hosts : List ChiHost) :
    Emits P (walkHostsTillError fHost hosts) := by
  induction hosts with
  | nil => exact emits_pure _ _
  | cons host rest ih =>
    unfold walkHostsTillError
    refine emits_bind (hHost host) (fun r => ?_)
    cases r with
    | some e => exact emits_pure _ _
    | none => exact ih

theorem walkShardsTillError_emits {P : Call → Prop} (fShard : ChiShard → W (Option Error))
    (fHost : ChiHost → W (Option Error)) (hShard : ∀ shard, Emits P (fShard shard))
    (hHost : ∀ host, Emits P (fHost host)) (shards : List ChiShard) :
    Emits P (walkShardsTillError fShard fHost shards) := by
  induction shards with
  | nil => exact emits_pure _ _
  | cons shard rest ih =>
    unfold walkShardsTillError
    refine emits_bind (hShard shard) (fun r => ?_)
    cases r with
    | some e => exact emits_pure _ _
    | none =>
      refine emits_bind (walkHostsTillError_emits fHost hHost _) (fun r => ?_)
      cases r with
      | some e => exact emits_pure _ _
      | none => exact ih

theorem walkClustersTillError_emits {P : Call → Prop}
    (fCluster : ChiCluster → W (Option Error)) (fShard : ChiShard → W (Option Error))
    (fHost : ChiHost → W (Option Error)) (hCluster : ∀ cluster, Emits P (fCluster cluster))
    (hShard : ∀ shard, Emits P (fShard shard)) (hHost : ∀ host, Emits P (fHost host))
    (clusters : List ChiCluster) :
    Emits P (walkClustersTillError fCluster fShard fHost clusters) := by
  induction clusters with
  | nil => exact emits_pure _ _
  | cons cluster rest ih =>
    unfold walkClustersTillError
    refine emits_bind (hCluster cluster) (fun r => ?_)
    cases r with
    | some e => exact emits_pure _ _
    | none =>
      refine emits_bind (walkShardsTillError_emits fShard fHost hShard hHost _) (fun r => ?_)
      cases r with
      | some e => exact emits_pure _ _
      | none => exact ih

theorem reconcile_emits (env : Env) (chi : ClickHouseInstallation) :
    Emits Call.isReconcile (reconcile env chi) := by
  unfold reconcile WalkTillError
  refine emits_bind (reconcileChi_emits _ _ _) (fun r => ?_)
  cases r with
  | some e => exact emits_pure _ _
  | none =>
    exact walkClustersTillError_emits _ _ _ (reconcileCluster_emits _ _)
      (reconcileShard_emits _ _) (reconcileHost_emits _ _) _

/-! ## Post-processing and removal end without a panic -/

theorem createTablesOnShard_runs (env : Env) (chi : ClickHouseInstallation) (shard : ChiShard)
    (h : shard.Address.ClusterIndex < chi.Clusters.length) :
    Runs (fun _ => True) (createTablesOnShard env chi shard) := by
  unfold createTablesOnShard
  rw [List.getElem?_eq_getElem h]
  refine runs_bind (runs_fetch _ _ trivial) (fun _ => ?_)
  refine runs_bind (runs_emit _ trivial) (fun _ => ?_)
  refine runs_bind (runs_call _ _ trivial) (fun _ => ?_)
  exact runs_pure _ _

theorem createTablesOnHost_runs (env : Env) (chi : ClickHouseInstallation) (host : ChiHost)
    (h : host.Address.ClusterIndex < chi.Clusters.length) :
    Runs (fun _ => True) (createTablesOnHost env chi host) := by
  unfold createTablesOnHost
  rw [List.getElem?_eq_getElem h]
  refine runs_bind (runs_fetch _ _ trivial) (fun _ => ?_)
  refine runs_bind (runs_emit _ trivial) (fun _ => ?_)
  refine runs_bind (runs_call _ _ trivial) (fun _ => ?_)
  refine runs_bind (runs_fetch _ _ trivial) (fun _ => ?_)
  refine runs_bind (runs_emit _ trivial) (fun _ => ?_)
  refine runs_bind (runs_call _ _ trivial) (fun _ => ?_)
  exact runs_pure _ _

theorem deleteTablesOnHost_runs (env : Env) (host : ChiHost) :
    Runs (fun _ => True) (deleteTablesOnHost env host) := by
  unfold deleteTablesOnHost
  refine runs_bind (runs_fetch _ _ trivial) (fun _ => ?_)
  refine runs_bind (runs_emit _ trivial) (fun _ => ?_)
  refine runs_bind (runs_call _ _ trivial) (fun _ => ?_)
  exact runs_pure _ _

theorem deleteHost_runs (env : Env) (host : ChiHost) :
    Runs (fun _ => True) (deleteHost env host) := by
  unfold deleteHost
  refine runs_bind (runs_emit _ trivial) (fun _ => ?_)
  refine runs_bind (deleteTablesOnHost_runs _ _) (fun _ => ?_)
  exact runs_call _ _ trivial

theorem WalkHosts_runs (f : ChiHost → W (Option Error))
    (hf : ∀ host, Runs (fun _ => True) (f host)) (hosts : List ChiHost) :
    Runs (fun _ => True) (WalkHosts f hosts) := by
  induction hosts with
  | nil => exact runs_pure _ _
  | cons host rest ih =>
    unfold WalkHosts
    refine runs_bind (hf host) (fun _ => ?_)
    refine runs_bind ih (fun _ => ?_)
    exact runs_pure _ _

theorem deleteShard_runs (env : Env) (shard : ChiShard) :
    Runs (fun _ => True) (deleteShard env shard) := by
  unfold deleteShard
  refine runs_bind (runs_emit _ trivial) (fun _ => ?_)
  refine runs_bind (WalkHosts_runs _ (deleteHost_runs env) _) (fun _ => ?_)
  refine runs_bind (runs_call _ _ trivial) (fun _ => ?_)
  refine runs_bind (runs_emit _ trivial) (fun _ => ?_)
  exact runs_pure _ _

theorem WalkShards_runs (f : ChiShard → W (Option Error))
    (hf : ∀ shard, Runs (fun _ => True) (f shard)) (shards : List ChiShard) :
    Runs (fun _ => True) (WalkShards f shards) := by
  induction shards with
  | nil => exact runs_pure _ _
  | cons shard rest ih =>
    unfold WalkShards
    refine runs_bind (hf shard) (fun _ => ?_)
    refine runs_bind ih (fun _ => ?_)
    exact runs_pure _ _

theorem deleteCluster_runs (env : Env) (cluster : ChiCluster) :
    Runs (fun _ => True) (deleteCluster env cluster) := by
  unfold deleteCluster
  refine runs_bind (runs_emit _ trivial) (fun _ => ?_)
  refine runs_bind (WalkShards_runs _ (deleteShard_runs env) _) (fun _ => ?_)
  refine runs_bind (runs_call _ _ trivial) (fun _ => ?_)
  refine runs_bind (runs_emit _ trivial) (fun _ => ?_)
  exact runs_pure _ _

theorem walkNodes_runs (clusterFunc : ChiCluster → W Unit) (shardFunc : ChiShard → W Unit)
    (hostFunc : ChiHost → W Unit) (nodes : List PlanNode)
    (h : ∀ node ∈ nodes,
      match node with
      | PlanNode.cluster cluster => Runs (fun _ => True) (clusterFunc cluster)
      | PlanNode.shard shard => Runs (fun _ => True) (shardFunc shard)
      | PlanNode.host host => Runs (fun _ => True) (hostFunc host)) :
    Runs (fun _ => True) (walkNodes clusterFunc shardFunc hostFunc nodes) := by
  induction nodes with
  | nil => exact runs_pure _ _
  | cons node rest ih =>
    have hn := h node (List.mem_cons_self _ _)
    have hr := ih (fun n hn => h n (List.mem_cons_of_mem _ hn))
    cases node with
    | cluster cluster =>
      unfold walkNodes
      exact runs_bind hn (fun _ => hr)
    | shard shard =>
      unfold walkNodes
      exact runs_bind hn (fun _ => hr)
    | host host =>
      unfold walkNodes
      exact runs_bind hn (fun _ => hr)

theorem postProcessAdded_runs (env : Env) (chi : ClickHouseInstallation)
    (actionPlan : ActionPlan) (h : addedInClustersOf actionPlan chi = true) :
    Runs (fun _ => True) (postProcessAdded env chi actionPlan) := by
  unfold postProcessAdded ActionPlan.WalkAdded
  apply walkNodes_runs
  intro node hnode
  have hidx := List.all_eq_true.mp h node hnode
  cases node with
  | cluster cluster =>
    refine runs_bind (runs_emit _ trivial) (fun _ => ?_)
    exact runs_emit _ trivial
  | shard shard =>
    refine runs_bind (runs_emit _ trivial) (fun _ => ?_)
    refine runs_bind (runs_emit _ trivial) (fun _ => ?_)
    refine runs_bind (createTablesOnShard_runs env chi shard (of_decide_eq_true hidx)) (fun _ => ?_)
    exact runs_pure _ _
  | host host =>
    refine runs_bind (runs_emit _ trivial) (fun _ => ?_)
    refine runs_bind (runs_emit _ trivial) (fun _ => ?_)
    refine runs_bind (createTablesOnHost_runs env chi host (of_decide_eq_true hidx)) (fun _ => ?_)
    exact runs_pure _ _

theorem removeDeleted_runs (env : Env) (chi : ClickHouseInstallation)
    (actionPlan : ActionPlan) :
    Runs (fun _ => True) (removeDeleted env chi actionPlan) := by
  unfold removeDeleted ActionPlan.WalkRemoved
  apply walkNodes_runs
  intro node _
  cases node with
  | cluster cluster =>
    refine runs_bind (runs_emit _ trivial) (fun _ => ?_)
    refine runs_bind (deleteCluster_runs env cluster) (fun _ => ?_)
    exact runs_pure _ _
  | shard shard =>
    refine runs_bind (runs_emit _ trivial) (fun _ => ?_)
    refine runs_bind (deleteShard_runs env shard) (fun _ => ?_)
    exact runs_pure _ _
  | host host =>
    refine runs_bind (runs_emit _ trivial) (fun _ => ?_)
    refine runs_bind (deleteHost_runs env host) (fun _ => ?_)
    exact runs_pure _ _


/-! ## The stages of `updateChi` -/

theorem updateChi_same_version (env : Env) (old new : Option ClickHouseInstallation)
    (history : List Call)
    (hrv : (normalizedOrEmpty env old).ResourceVersion
      = (normalizedOrEmpty env new).ResourceVersion) :
    updateChi env old new history =
      (Except.ok (none, normalizedOrEmpty env new),
        history ++
          [ Call.glog 2 ("updateChi(" ++ (normalizedOrEmpty env new).Namespace ++ "/"
              ++ (normalizedOrEmpty env new).Name ++ "): ResourceVersion did not change: "
              ++ (normalizedOrEmpty env new).ResourceVersion),
            Call.updateWatch (normalizedOrEmpty env new).Namespace
              (normalizedOrEmpty env new).Name
              (env.deps.CreatePodFQDNsOfChi (normalizedOrEmpty env new)) ]) := by
  unfold updateChi
  simp only [hrv, if_true]
  simp [run_bind, run_emit, run_pure]

theorem updateChi_reconciling (env : Env) (old new : Option ClickHouseInstallation)
    (history : List Call)
    (hrv : (normalizedOrEmpty env old).ResourceVersion
      ≠ (normalizedOrEmpty env new).ResourceVersion)
    (hplan : (planOf env old new).IsNoChanges = false) :
    updateChi env old new history =
      (reconcile env (inProgressChi env old new) >>= afterReconcile env old new)
        (history ++ startOfReconcile env old new) := by
  have hlist : history ++ startOfReconcile env old new
      = history ++ [(startOfReconcile env old new).get ⟨0, by simp [startOfReconcile]⟩]
          ++ [(startOfReconcile env old new).get ⟨1, by simp [startOfReconcile]⟩]
          ++ [(startOfReconcile env old new).get ⟨2, by simp [startOfReconcile]⟩] := by
    simp [startOfReconcile]
  rw [hlist]
  unfold planOf at hplan
  unfold updateChi
  simp only [hrv, if_false, hplan, Bool.false_eq_true]
  rfl


/-! ## `updateChi` and `addChi` -/

theorem updateChi_failed_walk (env : Env) (old new : Option ClickHouseInstallation)
    (history trace : List Call) (err : Error)
    (hrv : (normalizedOrEmpty env old).ResourceVersion
      ≠ (normalizedOrEmpty env new).ResourceVersion)
    (hplan : (planOf env old new).IsNoChanges = false)
    (hwalk : reconcile env (inProgressChi env old new)
        (history ++ startOfReconcile env old new) = (Except.ok (some err), trace)) :
    updateChi env old new history =
      (Except.ok (none, inProgressChi env old new),
        trace ++
          [ Call.glog 1 ("Update of resources has FAILED: " ++ err),
            Call.eventChi (inProgressChi env old new) EventType.Error EventAction.Update
              EventReason.UpdateFailed ("Update of resources has FAILED: " ++ err) ]) := by
  rw [updateChi_reconciling env old new history hrv hplan, run_bind_ok _ _ _ _ _ hwalk]
  simp [afterReconcile, run_bind, run_emit, run_pure]

theorem createTablesOnShard_emits (env : Env) (chi : ClickHouseInstallation)
    (shard : ChiShard) : Emits (fun _ => True) (createTablesOnShard env chi shard) := by
  unfold createTablesOnShard
  cases chi.Clusters[shard.Address.ClusterIndex]? with
  | none => exact emits_fault _ _
  | some cluster =>
    refine emits_bind (emits_fetch _ _ trivial) (fun _ => ?_)
    refine emits_bind (emits_emit _ trivial) (fun _ => ?_)
    refine emits_bind (emits_call _ _ trivial) (fun _ => ?_)
    exact emits_pure _ _

theorem createTablesOnHost_emits (env : Env) (chi : ClickHouseInstallation)
    (host : ChiHost) : Emits (fun _ => True) (createTablesOnHost env chi host) := by
  unfold createTablesOnHost
  cases chi.Clusters[host.Address.ClusterIndex]? with
  | none => exact emits_fault _ _
  | some cluster =>
    refine emits_bind (emits_fetch _ _ trivial) (fun _ => ?_)
    refine emits_bind (emits_emit _ trivial) (fun _ => ?_)
    refine emits_bind (emits_call _ _ trivial) (fun _ => ?_)
    refine emits_bind (emits_fetch _ _ trivial) (fun _ => ?_)
    refine emits_bind (emits_emit _ trivial) (fun _ => ?_)
    refine emits_bind (emits_call _ _ trivial) (fun _ => ?_)
    exact emits_pure _ _

theorem walkNodes_emits (clusterFunc : ChiCluster → W Unit) (shardFunc : ChiShard → W Unit)
    (hostFunc : ChiHost → W Unit)
    (hc : ∀ cluster, Emits (fun _ => True) (clusterFunc cluster))
    (hs : ∀ shard, Emits (fun _ => True) (shardFunc shard))
    (hh : ∀ host, Emits (fun _ => True) (hostFunc host)) (nodes : List PlanNode) :
    Emits (fun _ => True) (walkNodes clusterFunc shardFunc hostFunc nodes) := by
  induction nodes with
  | nil => exact emits_pure _ _
  | cons node rest ih =>
    cases node with
    | cluster cluster =>
      unfold walkNodes
      exact emits_bind (hc cluster) (fun _ => ih)
    | shard shard =>
      unfold walkNodes
      exact emits_bind (hs shard) (fun _ => ih)
    | host host =>
      unfold walkNodes
      exact emits_bind (hh host) (fun _ => ih)

theorem postProcessAdded_emits (env : Env) (chi : ClickHouseInstallation)
    (actionPlan : ActionPlan) :
    Emits (fun _ => True) (postProcessAdded env chi actionPlan) := by
  unfold postProcessAdded ActionPlan.WalkAdded
  apply walkNodes_emits
  · intro cluster
    refine emits_bind (emits_emit _ trivial) (fun _ => ?_)
    exact emits_emit _ trivial
  · intro shard
    refine emits_bind (emits_emit _ trivial) (fun _ => ?_)
    refine emits_bind (emits_emit _ trivial) (fun _ => ?_)
    refine emits_bind (createTablesOnShard_emits env chi shard) (fun _ => ?_)
    exact emits_pure _ _
  · intro host
    refine emits_bind (emits_emit _ trivial) (fun _ => ?_)
    refine emits_bind (emits_emit _ trivial) (fun _ => ?_)
    refine emits_bind (createTablesOnHost_emits env chi host) (fun _ => ?_)
    exact emits_pure _ _

theorem afterReconcile_emits (env : Env) (old new : Option ClickHouseInstallation)
    (r : Option Error) : Emits (fun _ => True) (afterReconcile env old new r) := by
  cases r with
  | some err =>
    refine emits_bind (emits_emit _ trivial) (fun _ => ?_)
    refine emits_bind (emits_emit _ trivial) (fun _ => ?_)
    exact emits_pure _ _
  | none =>
    refine emits_bind (postProcessAdded_emits _ _ _) (fun _ => ?_)
    refine emits_bind (runs_emits (removeDeleted_runs _ _ _)) (fun _ => ?_)
    refine emits_bind (emits_call _ _ trivial) (fun _ => ?_)
    refine emits_bind (emits_emit _ trivial) (fun _ => ?_)
    exact emits_pure _ _

theorem emits_weaken {α : Type} {P : Call → Prop} {m : W α} (h : Emits P m) :
    Emits (fun _ => True) m := by
  intro history
  obtain ⟨l, h1, _⟩ := h history
  exact ⟨l, h1, fun _ _ => trivial⟩

theorem updateChi_trace_start (env : Env) (old new : Option ClickHouseInstallation)
    (history : List Call)
    (hrv : (normalizedOrEmpty env old).ResourceVersion
      ≠ (normalizedOrEmpty env new).ResourceVersion)
    (hplan : (planOf env old new).IsNoChanges = false) :
    ∃ rest, (updateChi env old new history).2
      = history ++ startOfReconcile env old new ++ rest := by
  rw [updateChi_reconciling env old new history hrv hplan]
  obtain ⟨l, h, _⟩ := emits_bind (emits_weaken (reconcile_emits env (inProgressChi env old new)))
    (afterReconcile_emits env old new) (history ++ startOfReconcile env old new)
  exact ⟨l, h⟩

theorem updateChi_completed_walk (env : Env) (old new : Option ClickHouseInstallation)
    (history trace : List Call)
    (hrv : (normalizedOrEmpty env old).ResourceVersion
      ≠ (normalizedOrEmpty env new).ResourceVersion)
    (hplan : (planOf env old new).IsNoChanges = false)
    (hwalk : reconcile env (inProgressChi env old new)
        (history ++ startOfReconcile env old new) = (Except.ok none, trace))
    (hadded : addedInClustersOf (planOf env old new) (inProgressChi env old new) = true) :
    ∃ between, updateChi env old new history =
      (Except.ok (none, completedChi env old new),
        trace ++ between ++
          [ Call.updateChiObjectStatus (completedChi env old new),
            Call.updateWatch (completedChi env old new).Namespace
              (completedChi env old new).Name
              (env.deps.CreatePodFQDNsOfChi (completedChi env old new)) ]) := by
  rw [updateChi_reconciling env old new history hrv hplan, run_bind_ok _ _ _ _ _ hwalk]
  obtain ⟨_, l1, h1, _⟩ := postProcessAdded_runs env _ _ hadded trace
  obtain ⟨_, l2, h2, _⟩ :=
    removeDeleted_runs env (normalizedOrEmpty env old) (planOf env old new) (trace ++ l1)
  refine ⟨l1 ++ l2, ?_⟩
  show (postProcessAdded env (inProgressChi env old new) (planOf env old new) >>= _) trace = _
  rw [run_bind_ok _ _ _ _ _ h1, run_bind_ok _ _ _ _ _ h2]
  simp [run_bind, run_call, run_emit, run_pure]


/-- C4, as the code has it. When the version tokens differ, the plan has changes and the
reconcile walk over the new tree returns an error, `updateChi` returns nil and leaves the
installation as it persisted it before the walk: the phase is still `InProgress`, it is not
set to `Failed`. -/
theorem updateChi_failed_walk_leaves_in_progress (env : Env)
    (old new : Option ClickHouseInstallation) (history trace : List Call) (err : Error)
    (hrv : (normalizedOrEmpty env old).ResourceVersion
      ≠ (normalizedOrEmpty env new).ResourceVersion)
    (hplan : (planOf env old new).IsNoChanges = false)
    (hwalk : reconcile env (inProgressChi env old new)
        (history ++ startOfReconcile env old new) = (Except.ok (some err), trace)) :
    (updateChi env old new history).1 = Except.ok (none, inProgressChi env old new) ∧
      (inProgressChi env old new).Status.Status = StatusPhase.InProgress := by
  rw [updateChi_failed_walk env old new history trace err hrv hplan hwalk]
  exact ⟨rfl, rfl⟩

/-- C4 as the code has it, on the example with failing workloads. -/
theorem updateChi_failed_walk_leaves_in_progress_witness :
    (updateChi exampleEnvFailing none (some exampleChi) []).1
        = Except.ok (none, inProgressChi exampleEnvFailing none (some exampleChi)) ∧
      (inProgressChi exampleEnvFailing none (some exampleChi)).Status.Status
        = StatusPhase.InProgress :=
  updateChi_failed_walk_leaves_in_progress exampleEnvFailing none (some exampleChi) []
    (reconcile exampleEnvFailing (inProgressChi exampleEnvFailing none (some exampleChi))
      ([] ++ startOfReconcile exampleEnvFailing none (some exampleChi))).2
    "workload creation failed" (by decide) (by decide) (Prod.ext (by rfl) rfl)

/-- C4, counterexample. New installation `exampleChi` (one cluster, one shard, two hosts), no
old one, every `ReconcileStatefulSet` failing: the version tokens differ, the plan has
changes, the reconcile walk returns an error, and `updateChi` returns with the phase
`InProgress`, not `Failed`. -/
theorem updateChi_failed_walk_phase_not_Failed :
    (normalizedOrEmpty exampleEnvFailing none).ResourceVersion
        ≠ (normalizedOrEmpty exampleEnvFailing (some exampleChi)).ResourceVersion ∧
      (planOf exampleEnvFailing none (some exampleChi)).IsNoChanges = false ∧
      (reconcile exampleEnvFailing (inProgressChi exampleEnvFailing none (some exampleChi))
          ([] ++ startOfReconcile exampleEnvFailing none (some exampleChi))).1
        = Except.ok (some "workload creation failed") ∧
      ∃ r, (updateChi exampleEnvFailing none (some exampleChi) []).1 = Except.ok r ∧
        r.2.Status.Status = StatusPhase.InProgress ∧
        r.2.Status.Status ≠ StatusPhase.Failed :=
  ⟨by decide, by decide, by rfl,
    (none, inProgressChi exampleEnvFailing none (some exampleChi)), by rfl, by rfl,
    by decide⟩

/-- C5. When the version tokens differ, the plan has changes and the reconcile walk returns
an error, `updateChi` stops: after the calls of the walk, which are reconcile calls only, it
writes the failure log line and the failure event and nothing else (no removal, no drop of
tables, no schema creation), and returns nil. -/
theorem updateChi_failed_walk_stops (env : Env) (old new : Option ClickHouseInstallation)
    (history trace : List Call) (err : Error)
    (hrv : (normalizedOrEmpty env old).ResourceVersion
      ≠ (normalizedOrEmpty env new).ResourceVersion)
    (hplan : (planOf env old new).IsNoChanges = false)
    (hwalk : reconcile env (inProgressChi env old new)
        (history ++ startOfReconcile env old new) = (Except.ok (some err), trace)) :
    updateChi env old new history =
      (Except.ok (none, inProgressChi env old new),
        trace ++
          [ Call.glog 1 ("Update of resources has FAILED: " ++ err),
            Call.eventChi (inProgressChi env old new) EventType.Error EventAction.Update
              EventReason.UpdateFailed ("Update of resources has FAILED: " ++ err) ]) ∧
      ∃ walk, trace = history ++ startOfReconcile env old new ++ walk ∧
        ∀ c ∈ walk, c.isReconcile := by
  refine ⟨updateChi_failed_walk env old new history trace err hrv hplan hwalk, ?_⟩
  obtain ⟨walk, h1, h2⟩ := reconcile_emits env (inProgressChi env old new)
    (history ++ startOfReconcile env old new)
  rw [hwalk] at h1
  exact ⟨walk, h1, h2⟩

/-- C5 on the example with failing workloads. -/
theorem updateChi_failed_walk_stops_witness :
    updateChi exampleEnvFailing none (some exampleChi) [] =
      (Except.ok (none, inProgressChi exampleEnvFailing none (some exampleChi)),
        (reconcile exampleEnvFailing (inProgressChi exampleEnvFailing none (some exampleChi))
          ([] ++ startOfReconcile exampleEnvFailing none (some exampleChi))).2 ++
          [ Call.glog 1 ("Update of resources has FAILED: " ++ "workload creation failed"),
            Call.eventChi (inProgressChi exampleEnvFailing none (some exampleChi))
              EventType.Error EventAction.Update EventReason.UpdateFailed
              ("Update of resources has FAILED: " ++ "workload creation failed") ]) ∧
      ∃ walk,
        (reconcile exampleEnvFailing (inProgressChi exampleEnvFailing none (some exampleChi))
          ([] ++ startOfReconcile exampleEnvFailing none (some exampleChi))).2
          = [] ++ startOfReconcile exampleEnvFailing none (some exampleChi) ++ walk ∧
        ∀ c ∈ walk, c.isReconcile :=
  updateChi_failed_walk_stops exampleEnvFailing none (some exampleChi) []
    (reconcile exampleEnvFailing (inProgressChi exampleEnvFailing none (some exampleChi))
      ([] ++ startOfReconcile exampleEnvFailing none (some exampleChi))).2
    "workload creation failed" (by decide) (by decide) (Prod.ext (by rfl) rfl)

/-- C6, as the code has it. When the version tokens differ and the plan has changes, the
status `updateChi` persists before the reconcile walk (only log lines precede the call) has
its counters `AddedHostsCount`, `UpdatedHostsCount` and `DeletedHostsCount` reset to 0,
whatever the plan adds. -/
theorem updateChi_persists_zero_added_hosts (env : Env)
    (old new : Option ClickHouseInstallation) (history : List Call)
    (hrv : (normalizedOrEmpty env old).ResourceVersion
      ≠ (normalizedOrEmpty env new).ResourceVersion)
    (hplan : (planOf env old new).IsNoChanges = false) :
    ∃ logs rest, (updateChi env old new history).2
        = history ++ logs ++ Call.updateChiObject (inProgressChi env old new) :: rest ∧
      (∀ c ∈ logs, c.isLog) ∧
      (inProgressChi env old new).Status.AddedHostsCount = 0 ∧
      (inProgressChi env old new).Status.UpdatedHostsCount = 0 ∧
      (inProgressChi env old new).Status.DeletedHostsCount = 0 := by
  obtain ⟨rest, h⟩ := updateChi_trace_start env old new history hrv hplan
  refine ⟨(startOfReconcile env old new).take 2, rest, ?_, ?_, rfl, rfl, rfl⟩
  · rw [h]; simp [startOfReconcile]
  · intro c hc
    simp only [startOfReconcile, List.take_succ_cons, List.take_zero, List.mem_cons,
      List.mem_singleton, List.not_mem_nil, or_false] at hc
    rcases hc with h | h <;> subst h <;> trivial

/-- C6 as the code has it, on the example installation. -/
theorem updateChi_persists_zero_added_hosts_witness :
    ∃ logs rest, (updateChi exampleEnv none (some exampleChi) []).2
        = [] ++ logs ++ Call.updateChiObject (inProgressChi exampleEnv none (some exampleChi))
            :: rest ∧
      (∀ c ∈ logs, c.isLog) ∧
      (inProgressChi exampleEnv none (some exampleChi)).Status.AddedHostsCount = 0 ∧
      (inProgressChi exampleEnv none (some exampleChi)).Status.UpdatedHostsCount = 0 ∧
      (inProgressChi exampleEnv none (some exampleChi)).Status.DeletedHostsCount = 0 :=
  updateChi_persists_zero_added_hosts exampleEnv none (some exampleChi) [] (by decide)
    (by decide)

/-- C6, counterexample. Old tree empty (no old installation), new installation `exampleChi`
with one cluster, one shard and two hosts, every call succeeding: the plan of the differ
adds 2 hosts, and the one status `updateChi` persists with `updateChiObject` has
`AddedHostsCount` 0. -/
theorem updateChi_added_hosts_count_not_from_plan :
    (normalizedOrEmpty exampleEnv none).ResourceVersion
        ≠ (normalizedOrEmpty exampleEnv (some exampleChi)).ResourceVersion ∧
      (planOf exampleEnv none (some exampleChi)).IsNoChanges = false ∧
      hostsNum (planOf exampleEnv none (some exampleChi)).added = 2 ∧
      (persistedByUpdateChiObject (updateChi exampleEnv none (some exampleChi) []).2).map
        (fun chi => chi.Status.AddedHostsCount) = [0] := by
  decide

/-- C7. When the version tokens differ and the plan has changes, `updateChi` persists the
new installation with phase `InProgress` and `DeleteHostsCount` equal to the plan's
`GetRemovedHostsNum()`, and only log lines precede that call: every reconcile call of the
run comes after it. -/
theorem updateChi_persists_in_progress_first (env : Env)
    (old new : Option ClickHouseInstallation) (history : List Call)
    (hrv : (normalizedOrEmpty env old).ResourceVersion
      ≠ (normalizedOrEmpty env new).ResourceVersion)
    (hplan : (planOf env old new).IsNoChanges = false) :
    ∃ logs rest, (updateChi env old new history).2
        = history ++ logs ++ Call.updateChiObject (inProgressChi env old new) :: rest ∧
      (∀ c ∈ logs, c.isLog ∧ ¬ c.isReconcile) ∧
      (inProgressChi env old new).Status.Status = StatusPhase.InProgress ∧
      (inProgressChi env old new).Status.DeleteHostsCount
        = (planOf env old new).GetRemovedHostsNum := by
  obtain ⟨rest, h⟩ := updateChi_trace_start env old new history hrv hplan
  refine ⟨(startOfReconcile env old new).take 2, rest, ?_, ?_, rfl, rfl⟩
  · rw [h]; simp [startOfReconcile]
  · intro c hc
    simp only [startOfReconcile, List.take_succ_cons, List.take_zero, List.mem_cons,
      List.mem_singleton, List.not_mem_nil, or_false] at hc
    rcases hc with h | h <;> subst h <;> exact ⟨trivial, fun h => h⟩

/-- C7 on the example installation. -/
theorem updateChi_persists_in_progress_first_witness :
    ∃ logs rest, (updateChi exampleEnv none (some exampleChi) []).2
        = [] ++ logs ++ Call.updateChiObject (inProgressChi exampleEnv none (some exampleChi))
            :: rest ∧
      (∀ c ∈ logs, c.isLog ∧ ¬ c.isReconcile) ∧
      (inProgressChi exampleEnv none (some exampleChi)).Status.Status
        = StatusPhase.InProgress ∧
      (inProgressChi exampleEnv none (some exampleChi)).Status.DeleteHostsCount
        = (planOf exampleEnv none (some exampleChi)).GetRemovedHostsNum :=
  updateChi_persists_in_progress_first exampleEnv none (some exampleChi) [] (by decide)
    (by decide)

/-- C8. When the normalized old and new installations carry the same version token,
`updateChi` writes one log line, refreshes the watch list once with the host names of the
new tree, and returns nil with the new installation as it was: no plan is acted on, no
reconcile, schema or delete call is made and no status is persisted. -/
theorem updateChi_same_version_only_refreshes_watch (env : Env)
    (old new : Option ClickHouseInstallation) (history : List Call)
    (hrv : (normalizedOrEmpty env old).ResourceVersion
      = (normalizedOrEmpty env new).ResourceVersion) :
    ∃ message, updateChi env old new history =
      (Except.ok (none, normalizedOrEmpty env new),
        history ++
          [ Call.glog 2 message,
            Call.updateWatch (normalizedOrEmpty env new).Namespace
              (normalizedOrEmpty env new).Name
              (env.deps.CreatePodFQDNsOfChi (normalizedOrEmpty env new)) ]) :=
  ⟨_, updateChi_same_version env old new history hrv⟩

/-- C8 on the example installation given as old and as new. -/
theorem updateChi_same_version_only_refreshes_watch_witness :
    ∃ message, updateChi exampleEnv (some exampleChi) (some exampleChi) [] =
      (Except.ok (none, normalizedOrEmpty exampleEnv (some exampleChi)),
        [] ++
          [ Call.glog 2 message,
            Call.updateWatch (normalizedOrEmpty exampleEnv (some exampleChi)).Namespace
              (normalizedOrEmpty exampleEnv (some exampleChi)).Name
              (exampleEnv.deps.CreatePodFQDNsOfChi
                (normalizedOrEmpty exampleEnv (some exampleChi))) ]) :=
  updateChi_same_version_only_refreshes_watch exampleEnv (some exampleChi) (some exampleChi)
    [] rfl

/-- C9. When the version tokens differ, the plan has changes, the reconcile walk succeeds
and the shards and hosts the plan adds lie in clusters of the new tree, `updateChi` ends
with the phase `Completed`: whatever the schema creation and the removals in between
return, its last two calls persist that status and then refresh the watch list, and it
returns nil. -/
theorem updateChi_completes_after_walk (env : Env) (old new : Option ClickHouseInstallation)
    (history trace : List Call)
    (hrv : (normalizedOrEmpty env old).ResourceVersion
      ≠ (normalizedOrEmpty env new).ResourceVersion)
    (hplan : (planOf env old new).IsNoChanges = false)
    (hwalk : reconcile env (inProgressChi env old new)
        (history ++ startOfReconcile env old new) = (Except.ok none, trace))
    (hadded : addedInClustersOf (planOf env old new) (inProgressChi env old new) = true) :
    (∃ between, updateChi env old new history =
      (Except.ok (none, completedChi env old new),
        trace ++ between ++
          [ Call.updateChiObjectStatus (completedChi env old new),
            Call.updateWatch (completedChi env old new).Namespace
              (completedChi env old new).Name
              (env.deps.CreatePodFQDNsOfChi (completedChi env old new)) ])) ∧
      (completedChi env old new).Status.Status = StatusPhase.Completed :=
  ⟨updateChi_completed_walk env old new history trace hrv hplan hwalk hadded, rfl⟩

/-- C9 on the example installation, every call succeeding. -/
theorem updateChi_completes_after_walk_witness :
    (∃ between, updateChi exampleEnv none (some exampleChi) [] =
      (Except.ok (none, completedChi exampleEnv none (some exampleChi)),
        (reconcile exampleEnv (inProgressChi exampleEnv none (some exampleChi))
          ([] ++ startOfReconcile exampleEnv none (some exampleChi))).2 ++ between ++
          [ Call.updateChiObjectStatus (completedChi exampleEnv none (some exampleChi)),
            Call.updateWatch (completedChi exampleEnv none (some exampleChi)).Namespace
              (completedChi exampleEnv none (some exampleChi)).Name
              (exampleEnv.deps.CreatePodFQDNsOfChi
                (completedChi exampleEnv none (some exampleChi))) ])) ∧
      (completedChi exampleEnv none (some exampleChi)).Status.Status
        = StatusPhase.Completed :=
  updateChi_completes_after_walk exampleEnv none (some exampleChi) []
    (reconcile exampleEnv (inProgressChi exampleEnv none (some exampleChi))
      ([] ++ startOfReconcile exampleEnv none (some exampleChi))).2
    (by decide) (by decide) (Prod.ext (by rfl) rfl) (by decide)

/-- C10, as the code has it. `addChi(new)` writes its own log line and the creation event
"start add process" and then is `updateChi(nil, new)`: from there on the same calls, the
same status changes and the same result. -/
theorem addChi_is_event_then_updateChi (env : Env) (new : ClickHouseInstallation)
    (history : List Call) :
    addChi env (some new) history =
      updateChi env none (some new)
        (history ++
          [ Call.glog 1 ("addChi(" ++ new.Namespace ++ "/" ++ new.Name ++ ")"),
            Call.eventChi new EventType.Normal EventAction.Create
              EventReason.CreateCompleted
              ("ClickHouseInstallation (" ++ new.Name ++ "): start add process") ]) := by
  unfold addChi
  simp [run_bind, run_emit]

/-- C10, counterexample. For the installation `exampleChi`, every call succeeding and no
call made before, the calls of `addChi(new)` are not the calls of `updateChi(nil, new)`:
`addChi` begins with its log line and the creation event, `updateChi` has 37 calls and
`addChi` 39. -/
theorem addChi_calls_differ_from_updateChi :
    (addChi exampleEnv (some exampleChi) []).2
        ≠ (updateChi exampleEnv none (some exampleChi) []).2 ∧
      (addChi exampleEnv (some exampleChi) []).2.length = 39 ∧
      (updateChi exampleEnv none (some exampleChi) []).2.length = 37 := by
  decide


/-! ## `processItem`, the reconcile steps and the delete steps -/

/-- C11. An item of none of the four kinds, and a reconcile item (installation, template or
operator configuration) whose command is none of add, update and delete, is handed to
`utilruntime.HandleError` and nothing else is called: no add, update or delete handler runs,
and `processItem` returns nil. -/
theorem processItem_unrecognized_reported_and_dropped (env : Env) (history : List Call) :
    (∀ description, processItem env (QueueItem.other description) history =
      (Except.ok none,
        history ++ [Call.HandleError "unexpected item in the queue - %#v"
          (QueueItem.other description)])) ∧
    (∀ value old new,
      processItem env (QueueItem.ReconcileChi (ReconcileCmd.other value) old new) history =
        (Except.ok none,
          history ++ [Call.HandleError "unexpected reconcile - %#v"
            (QueueItem.ReconcileChi (ReconcileCmd.other value) old new)])) ∧
    (∀ value old new,
      processItem env (QueueItem.ReconcileChit (ReconcileCmd.other value) old new) history =
        (Except.ok none,
          history ++ [Call.HandleError "unexpected reconcile - %#v"
            (QueueItem.ReconcileChit (ReconcileCmd.other value) old new)])) ∧
    (∀ value old new,
      processItem env (QueueItem.ReconcileChopConfig (ReconcileCmd.other value) old new)
          history =
        (Except.ok none,
          history ++ [Call.HandleError "unexpected reconcile - %#v"
            (QueueItem.ReconcileChopConfig (ReconcileCmd.other value) old new)])) :=
  ⟨fun _ => rfl, fun _ _ _ => rfl, fun _ _ _ => rfl, fun _ _ _ => rfl⟩

/-- C12. `reconcileHost` calls for the Service of the host first; only when that returned no
error for its ConfigMap; only when that returned no error either it builds the StatefulSet
and calls for it. The first error is returned as it is, after the last of these calls; a
panic while the StatefulSet is built comes after the first two calls. -/
theorem reconcileHost_ordered_fail_fast (env : Env) (creator : Creator) (host : ChiHost)
    (history : List Call) :
    (∀ err, env.respond history (hostServiceCall env creator host) = some err →
      reconcileHost env creator host history =
        (Except.ok (some err), history ++ [hostServiceCall env creator host])) ∧
    (∀ err, env.respond history (hostServiceCall env creator host) = none →
      env.respond (history ++ [hostServiceCall env creator host])
        (hostConfigMapCall env creator host) = some err →
      reconcileHost env creator host history =
        (Except.ok (some err),
          history ++ [hostServiceCall env creator host, hostConfigMapCall env creator host])) ∧
    (∀ statefulSet, env.respond history (hostServiceCall env creator host) = none →
      env.respond (history ++ [hostServiceCall env creator host])
        (hostConfigMapCall env creator host) = none →
      creator.CreateStatefulSet env.deps host = Except.ok statefulSet →
      reconcileHost env creator host history =
        (Except.ok
          (env.respond
            (history ++ [hostServiceCall env creator host, hostConfigMapCall env creator host])
            (Call.ReconcileStatefulSet statefulSet host)),
          history ++ [hostServiceCall env creator host, hostConfigMapCall env creator host,
            Call.ReconcileStatefulSet statefulSet host])) ∧
    (∀ f, env.respond history (hostServiceCall env creator host) = none →
      env.respond (history ++ [hostServiceCall env creator host])
        (hostConfigMapCall env creator host) = none →
      creator.CreateStatefulSet env.deps host = Except.error f →
      reconcileHost env creator host history =
        (Except.error f,
          history ++ [hostServiceCall env creator host, hostConfigMapCall env creator host])) := by
  refine ⟨?_, ?_, ?_, ?_⟩
  · intro err h1
    simp only [hostServiceCall] at h1 ⊢
    simp [reconcileHost, run_bind, run_call, run_pure, h1]
  · intro err h1 h2
    simp only [hostServiceCall, hostConfigMapCall] at h1 h2 ⊢
    simp [reconcileHost, run_bind, run_call, run_pure, h1, h2]
  · intro statefulSet h1 h2 h3
    simp only [hostServiceCall, hostConfigMapCall] at h1 h2 ⊢
    simp only [reconcileHost, run_bind, run_call, h1, h2, h3, liftCreator, List.append_assoc,
      List.cons_append, List.nil_append]
    cases hr : env.respond (history ++ [Call.ReconcileService
        (creator.CreateServiceHost env.deps host),
        Call.ReconcileConfigMap (creator.CreateConfigMapHost env.deps host)])
      (Call.ReconcileStatefulSet statefulSet host) <;> simp [run_pure]
  · intro f h1 h2 h3
    simp only [hostServiceCall, hostConfigMapCall] at h1 h2 ⊢
    simp [reconcileHost, run_bind, run_call, h1, h2, h3, liftCreator]

/-- C12 on the example with failing workloads: Service and ConfigMap of host 0 succeed, the
StatefulSet is called for third and its error is returned. -/
theorem reconcileHost_ordered_fail_fast_witness :
    reconcileHost exampleEnvFailing exampleCreator (exampleHost 0) [] =
      (Except.ok
        (exampleEnvFailing.respond
          ([] ++ [hostServiceCall exampleEnvFailing exampleCreator (exampleHost 0),
            hostConfigMapCall exampleEnvFailing exampleCreator (exampleHost 0)])
          (Call.ReconcileStatefulSet (exampleStatefulSet (exampleHost 0)) (exampleHost 0))),
        [] ++ [hostServiceCall exampleEnvFailing exampleCreator (exampleHost 0),
          hostConfigMapCall exampleEnvFailing exampleCreator (exampleHost 0),
          Call.ReconcileStatefulSet (exampleStatefulSet (exampleHost 0)) (exampleHost 0)]) :=
  (reconcileHost_ordered_fail_fast exampleEnvFailing exampleCreator (exampleHost 0) []).2.2.1
    (exampleStatefulSet (exampleHost 0)) rfl rfl rfl

/-- C13. `reconcileChi` calls for the Service of the installation first, then for the common
ConfigMap, then for the users ConfigMap; it stops at the first of these calls that returns an
error and returns that error; it returns nil exactly when all three return no error. -/
theorem reconcileChi_ordered_fail_fast (env : Env) (creator : Creator)
    (chi : ClickHouseInstallation) (history : List Call) :
    (∀ err, env.respond history (chiServiceCall env creator) = some err →
      reconcileChi env creator chi history =
        (Except.ok (some err), history ++ [chiServiceCall env creator])) ∧
    (∀ err, env.respond history (chiServiceCall env creator) = none →
      env.respond (history ++ [chiServiceCall env creator])
        (chiConfigMapCommonCall env creator) = some err →
      reconcileChi env creator chi history =
        (Except.ok (some err),
          history ++ [chiServiceCall env creator, chiConfigMapCommonCall env creator])) ∧
    (env.respond history (chiServiceCall env creator) = none →
      env.respond (history ++ [chiServiceCall env creator])
        (chiConfigMapCommonCall env creator) = none →
      reconcileChi env creator chi history =
        (Except.ok
          (env.respond
            (history ++ [chiServiceCall env creator, chiConfigMapCommonCall env creator])
            (chiConfigMapUsersCall env creator)),
          history ++ [chiServiceCall env creator, chiConfigMapCommonCall env creator,
            chiConfigMapUsersCall env creator])) ∧
    ((reconcileChi env creator chi history).1 = Except.ok none ↔
      (env.respond history (chiServiceCall env creator) = none ∧
        env.respond (history ++ [chiServiceCall env creator])
          (chiConfigMapCommonCall env creator) = none ∧
        env.respond
          (history ++ [chiServiceCall env creator, chiConfigMapCommonCall env creator])
          (chiConfigMapUsersCall env creator) = none)) := by
  simp only [chiServiceCall, chiConfigMapCommonCall, chiConfigMapUsersCall]
  cases h1 : env.respond history (Call.ReconcileService (creator.CreateServiceChi env.deps))
  · cases h2 : env.respond
        (history ++ [Call.ReconcileService (creator.CreateServiceChi env.deps)])
        (Call.ReconcileConfigMap (creator.CreateConfigMapChiCommon env.deps))
    · cases h3 : env.respond
          (history ++ [Call.ReconcileService (creator.CreateServiceChi env.deps),
            Call.ReconcileConfigMap (creator.CreateConfigMapChiCommon env.deps)])
          (Call.ReconcileConfigMap (creator.CreateConfigMapChiCommonUsers env.deps))
      · simp [reconcileChi, run_bind, run_call, run_pure, h1, h2, h3]
      · simp [reconcileChi, run_bind, run_call, run_pure, h1, h2, h3]
    · simp [reconcileChi, run_bind, run_call, run_pure, h1, h2]
  · simp [reconcileChi, run_bind, run_call, run_pure, h1]

/-- C13 on the example, every call succeeding: the three calls are made in order and nil is
returned. -/
theorem reconcileChi_ordered_fail_fast_witness :
    reconcileChi exampleEnv exampleCreator exampleChi [] =
      (Except.ok
        (exampleEnv.respond
          ([] ++ [chiServiceCall exampleEnv exampleCreator,
            chiConfigMapCommonCall exampleEnv exampleCreator])
          (chiConfigMapUsersCall exampleEnv exampleCreator)),
        [] ++ [chiServiceCall exampleEnv exampleCreator,
          chiConfigMapCommonCall exampleEnv exampleCreator,
          chiConfigMapUsersCall exampleEnv exampleCreator]) :=
  (reconcileChi_ordered_fail_fast exampleEnv exampleCreator exampleChi []).2.2.1 rfl rfl

/-- C14. A cluster, and likewise a shard, without a service template gets no Service from
the creator, and `reconcileCluster` (`reconcileShard`) returns nil without any call; when
the creator gives a Service, the one call made is `ReconcileService` on it and its result is
the result returned. -/
theorem reconcileCluster_and_Shard_service_optional (env : Env) (creator : Creator)
    (history : List Call) :
    (∀ cluster, env.deps.GetClusterServiceTemplate creator.chi cluster = none →
      creator.CreateServiceCluster env.deps cluster = none ∧
        reconcileCluster env creator cluster history = (Except.ok none, history)) ∧
    (∀ cluster service, creator.CreateServiceCluster env.deps cluster = some service →
      reconcileCluster env creator cluster history =
        (Except.ok (env.respond history (Call.ReconcileService (some service))),
          history ++ [Call.ReconcileService (some service)])) ∧
    (∀ shard, env.deps.GetShardServiceTemplate creator.chi shard = none →
      creator.CreateServiceShard env.deps shard = none ∧
        reconcileShard env creator shard history = (Except.ok none, history)) ∧
    (∀ shard service, creator.CreateServiceShard env.deps shard = some service →
      reconcileShard env creator shard history =
        (Except.ok (env.respond history (Call.ReconcileService (some service))),
          history ++ [Call.ReconcileService (some service)])) := by
  refine ⟨?_, ?_, ?_, ?_⟩
  · intro cluster h
    have hs : creator.CreateServiceCluster env.deps cluster = none := by
      simp [Creator.CreateServiceCluster, h]
    exact ⟨hs, by simp [reconcileCluster, hs, run_pure]⟩
  · intro cluster service h
    simp [reconcileCluster, h, run_call]
  · intro shard h
    have hs : creator.CreateServiceShard env.deps shard = none := by
      simp [Creator.CreateServiceShard, h]
    exact ⟨hs, by simp [reconcileShard, hs, run_pure]⟩
  · intro shard service h
    simp [reconcileShard, h, run_call]

/-- C14 on the example, whose clusters have no service template: no Service, no call, nil. -/
theorem reconcileCluster_and_Shard_service_optional_witness :
    exampleCreator.CreateServiceCluster exampleEnv.deps { Name := "c1" } = none ∧
      reconcileCluster exampleEnv exampleCreator { Name := "c1" } [] = (Except.ok none, []) :=
  (reconcileCluster_and_Shard_service_optional exampleEnv exampleCreator []).1
    { Name := "c1" } rfl

theorem deleteHost_run (env : Env) (host : ChiHost) (history : List Call) :
    deleteHost env host history =
      (Except.ok
        (env.respond (history ++ dropCallsOfHost env host history) (Call.deleteHost host)),
        history ++ dropCallsOfHost env host history ++ [Call.deleteHost host]) := by
  simp [deleteHost, deleteTablesOnHost, dropCallsOfHost, run_bind, run_emit, run_call,
    run_fetch, run_pure]

/-- C15. Whatever the fetch of the drop statements and their application return,
`deleteHost` of the worker first fetches and applies the drop statements, with
`stopOnError = false`, then calls the controller's `deleteHost` for the host, and returns
what that call returns. -/
theorem deleteHost_drops_then_deletes (env : Env) (host : ChiHost) (history : List Call) :
    deleteHost env host history =
      (Except.ok
        (env.respond (history ++ dropCallsOfHost env host history) (Call.deleteHost host)),
        history ++ dropCallsOfHost env host history ++ [Call.deleteHost host]) ∧
      (dropCallsOfHost env host history).length = 4 ∧
      (dropCallsOfHost env host history)[1]? = some (Call.HostGetDropTables host) ∧
      ∃ sqls, (dropCallsOfHost env host history)[3]?
        = some (Call.HostApplySQLs host sqls false) :=
  ⟨deleteHost_run env host history, rfl, rfl, _, rfl⟩

theorem WalkHosts_deleteHost (env : Env) (hosts : List ChiHost) (history : List Call) :
    ∃ res l, WalkHosts (deleteHost env) hosts history = (Except.ok res, history ++ l) ∧
      ∀ host ∈ hosts, Call.deleteHost host ∈ l := by
  induction hosts generalizing history with
  | nil => exact ⟨[], [], by simp [WalkHosts, run_pure], by simp⟩
  | cons host rest ih =>
    obtain ⟨res, l, h1, h2⟩ :=
      ih (history ++ dropCallsOfHost env host history ++ [Call.deleteHost host])
    refine ⟨env.respond (history ++ dropCallsOfHost env host history) (Call.deleteHost host)
      :: res, dropCallsOfHost env host history ++ [Call.deleteHost host] ++ l, ?_, ?_⟩
    · unfold WalkHosts
      rw [run_bind_ok _ _ _ _ _ (deleteHost_run env host history),
        run_bind_ok _ _ _ _ _ h1]
      simp [run_pure]
    · intro x hx
      rcases List.mem_cons.mp hx with h | h
      · subst h; simp
      · have := h2 x h
        simp [this]

theorem deleteShard_run (env : Env) (shard : ChiShard) (history : List Call) :
    ∃ hostCalls, deleteShard env shard history =
      (Except.ok none,
        history
          ++ [Call.glog 1
            ("Start delete shard " ++ shard.Address.Namespace ++ "/" ++ shard.Name)]
          ++ hostCalls
          ++ [Call.deleteServiceShard shard,
            Call.glog 1
              ("End delete shard " ++ shard.Address.Namespace ++ "/" ++ shard.Name)]) ∧
      ∀ host ∈ shard.Replicas, Call.deleteHost host ∈ hostCalls := by
  obtain ⟨res, l, h1, h2⟩ := WalkHosts_deleteHost env shard.Replicas
    (history ++ [Call.glog 1
      ("Start delete shard " ++ shard.Address.Namespace ++ "/" ++ shard.Name)])
  refine ⟨l, ?_, h2⟩
  unfold deleteShard
  rw [run_bind_ok _ _ _ _ _ (run_emit _ history), run_bind_ok _ _ _ _ _ h1]
  simp [run_bind, run_call, run_emit, run_pure]

theorem WalkShards_deleteShard (env : Env) (shards : List ChiShard) (history : List Call) :
    ∃ res l, WalkShards (deleteShard env) shards history = (Except.ok res, history ++ l) ∧
      ∀ shard ∈ shards, Call.deleteServiceShard shard ∈ l ∧
        ∀ host ∈ shard.Replicas, Call.deleteHost host ∈ l := by
  induction shards generalizing history with
  | nil => exact ⟨[], [], by simp [WalkShards, run_pure], by simp⟩
  | cons shard rest ih =>
    obtain ⟨hostCalls, hs, hh⟩ := deleteShard_run env shard history
    obtain ⟨res, l, h1, h2⟩ := ih
      (history
        ++ [Call.glog 1
          ("Start delete shard " ++ shard.Address.Namespace ++ "/" ++ shard.Name)]
        ++ hostCalls
        ++ [Call.deleteServiceShard shard,
          Call.glog 1 ("End delete shard " ++ shard.Address.Namespace ++ "/" ++ shard.Name)])
    refine ⟨none :: res,
      [Call.glog 1 ("Start delete shard " ++ shard.Address.Namespace ++ "/" ++ shard.Name)]
        ++ hostCalls
        ++ [Call.deleteServiceShard shard,
          Call.glog 1 ("End delete shard " ++ shard.Address.Namespace ++ "/" ++ shard.Name)]
        ++ l, ?_, ?_⟩
    · unfold WalkShards
      rw [run_bind_ok _ _ _ _ _ hs, run_bind_ok _ _ _ _ _ h1]
      simp [run_pure]
    · intro x hx
      rcases List.mem_cons.mp hx with h | h
      · subst h
        refine ⟨by simp, fun host hhost => ?_⟩
        have := hh host hhost
        simp [this]
      · obtain ⟨a, b⟩ := h2 x h
        refine ⟨by simp [a], fun host hhost => ?_⟩
        have := b host hhost
        simp [this]

theorem deleteCluster_run (env : Env) (cluster : ChiCluster) (history : List Call) :
    ∃ shardCalls, deleteCluster env cluster history =
      (Except.ok none,
        history
          ++ [Call.glog 1
            ("Start delete cluster " ++ cluster.Address.Namespace ++ "/" ++ cluster.Name)]
          ++ shardCalls
          ++ [Call.deleteServiceCluster cluster,
            Call.glog 1
              ("End delete cluster " ++ cluster.Address.Namespace ++ "/" ++ cluster.Name)]) ∧
      ∀ shard ∈ cluster.Shards, Call.deleteServiceShard shard ∈ shardCalls ∧
        ∀ host ∈ shard.Replicas, Call.deleteHost host ∈ shardCalls := by
  obtain ⟨res, l, h1, h2⟩ := WalkShards_deleteShard env cluster.Shards
    (history ++ [Call.glog 1
      ("Start delete cluster " ++ cluster.Address.Namespace ++ "/" ++ cluster.Name)])
  refine ⟨l, ?_, h2⟩
  unfold deleteCluster
  rw [run_bind_ok _ _ _ _ _ (run_emit _ history), run_bind_ok _ _ _ _ _ h1]
  simp [run_bind, run_call, run_emit, run_pure]

theorem WalkClusters_deleteCluster (env : Env) (clusters : List ChiCluster)
    (history : List Call) :
    ∃ res l, WalkClusters (deleteCluster env) clusters history
        = (Except.ok res, history ++ l) ∧
      ∀ cluster ∈ clusters, Call.deleteServiceCluster cluster ∈ l := by
  induction clusters generalizing history with
  | nil => exact ⟨[], [], by simp [WalkClusters, run_pure], by simp⟩
  | cons cluster rest ih =>
    obtain ⟨shardCalls, hs, _⟩ := deleteCluster_run env cluster history
    obtain ⟨res, l, h1, h2⟩ := ih
      (history
        ++ [Call.glog 1
          ("Start delete cluster " ++ cluster.Address.Namespace ++ "/" ++ cluster.Name)]
        ++ shardCalls
        ++ [Call.deleteServiceCluster cluster,
          Call.glog 1
            ("End delete cluster " ++ cluster.Address.Namespace ++ "/" ++ cluster.Name)])
    refine ⟨none :: res,
      [Call.glog 1
          ("Start delete cluster " ++ cluster.Address.Namespace ++ "/" ++ cluster.Name)]
        ++ shardCalls
        ++ [Call.deleteServiceCluster cluster,
          Call.glog 1
            ("End delete cluster " ++ cluster.Address.Namespace ++ "/" ++ cluster.Name)]
        ++ l, ?_, ?_⟩
    · unfold WalkClusters
      rw [run_bind_ok _ _ _ _ _ hs, run_bind_ok _ _ _ _ _ h1]
      simp [run_pure]
    · intro x hx
      rcases List.mem_cons.mp hx with h | h
      · subst h; simp
      · have := h2 x h
        simp [this]

/-- C16, as the code has it. When the normalization of the installation succeeds,
`deleteChi` deletes all clusters first (the `deleteServiceCluster` of every cluster is
among these calls), then the shared ConfigMaps, then the Service of the installation, then
writes the event and returns nil, whatever these calls return. When the normalization
returns an error, `deleteChi` logs it and returns it at once: nothing is deleted. -/
theorem deleteChi_best_effort_after_normalization (env : Env) (history : List Call) :
    (∀ chi, (env.CreateTemplatedChi chi true).2 = none →
      ∃ clusterCalls, deleteChi env (some chi) history =
        (Except.ok none,
          history
            ++ [Call.glog 1 ("Start delete CHI " ++ chi.Namespace ++ "/" ++ chi.Name)]
            ++ clusterCalls
            ++ [Call.deleteConfigMapsChi (env.CreateTemplatedChi chi true).1,
              Call.deleteServiceChi (env.CreateTemplatedChi chi true).1,
              Call.eventChi (env.CreateTemplatedChi chi true).1 EventType.Normal
                EventAction.Delete EventReason.DeleteCompleted "deleted",
              Call.glog 1 ("End delete CHI " ++ (env.CreateTemplatedChi chi true).1.Namespace
                ++ "/" ++ (env.CreateTemplatedChi chi true).1.Name)]) ∧
        ∀ cluster ∈ (env.CreateTemplatedChi chi true).1.Clusters,
          Call.deleteServiceCluster cluster ∈ clusterCalls) ∧
    (∀ chi err, (env.CreateTemplatedChi chi true).2 = some err →
      ∃ message, deleteChi env (some chi) history =
        (Except.ok (some err),
          history
            ++ [Call.glog 1 ("Start delete CHI " ++ chi.Namespace ++ "/" ++ chi.Name),
              Call.glog 1 message])) := by
  refine ⟨?_, ?_⟩
  · intro chi hn
    obtain ⟨res, l, h1, h2⟩ := WalkClusters_deleteCluster env
      (env.CreateTemplatedChi chi true).1.Clusters
      (history ++ [Call.glog 1 ("Start delete CHI " ++ chi.Namespace ++ "/" ++ chi.Name)])
    refine ⟨l, ?_, h2⟩
    unfold deleteChi
    simp only []
    rw [run_bind_ok _ _ _ _ _ (run_emit _ history)]
    simp only [hn]
    rw [run_bind_ok _ _ _ _ _ h1]
    simp [run_bind, run_call, run_emit, run_pure]
  · intro chi err hn
    refine ⟨"ClickHouseInstallation (" ++ fmtQuoted (env.CreateTemplatedChi chi true).1.Name
      ++ "): unable to normalize: " ++ fmtQuoted err, ?_⟩
    unfold deleteChi
    simp only []
    rw [run_bind_ok _ _ _ _ _ (run_emit _ history)]
    simp only [hn]
    simp [run_bind, run_emit, run_pure]

/-- C16 as the code has it, on the example installation. -/
theorem deleteChi_best_effort_after_normalization_witness :
    ∃ clusterCalls, deleteChi exampleEnv (some exampleChi) [] =
      (Except.ok none,
        []
          ++ [Call.glog 1
            ("Start delete CHI " ++ exampleChi.Namespace ++ "/" ++ exampleChi.Name)]
          ++ clusterCalls
          ++ [Call.deleteConfigMapsChi (exampleEnv.CreateTemplatedChi exampleChi true).1,
            Call.deleteServiceChi (exampleEnv.CreateTemplatedChi exampleChi true).1,
            Call.eventChi (exampleEnv.CreateTemplatedChi exampleChi true).1 EventType.Normal
              EventAction.Delete EventReason.DeleteCompleted "deleted",
            Call.glog 1
              ("End delete CHI " ++ (exampleEnv.CreateTemplatedChi exampleChi true).1.Namespace
                ++ "/" ++ (exampleEnv.CreateTemplatedChi exampleChi true).1.Name)]) ∧
      ∀ cluster ∈ (exampleEnv.CreateTemplatedChi exampleChi true).1.Clusters,
        Call.deleteServiceCluster cluster ∈ clusterCalls :=
  (deleteChi_best_effort_after_normalization exampleEnv []).1 exampleChi rfl

/-- C16, counterexample. For the example installation and a normalizer that returns the
error "unable to normalize", `deleteChi` writes two log lines and returns that error: no
cluster, ConfigMap or Service is deleted. -/
theorem deleteChi_aborts_on_normalization_error :
    deleteChi exampleEnvUnnormalizable (some exampleChi) [] =
      (Except.ok (some "unable to normalize"),
        [ Call.glog 1 "Start delete CHI ns/chi",
          Call.glog 1
            "ClickHouseInstallation (\"chi\"): unable to normalize: \"unable to normalize\"" ]) := by
  rfl

/-- C17. `deleteShard` walks the hosts of the shard first (the controller's `deleteHost` of
every host is among these calls), then calls `deleteServiceShard`, whatever the walk
returned, and returns nil. `deleteCluster` does the same one level up: the shards first
(`deleteServiceShard` of every shard and `deleteHost` of every host are among these calls),
then `deleteServiceCluster`, and nil. -/
theorem deleteShard_and_Cluster_children_first (env : Env) (history : List Call) :
    (∀ shard, ∃ hostCalls, deleteShard env shard history =
        (Except.ok none,
          history
            ++ [Call.glog 1
              ("Start delete shard " ++ shard.Address.Namespace ++ "/" ++ shard.Name)]
            ++ hostCalls
            ++ [Call.deleteServiceShard shard,
              Call.glog 1
                ("End delete shard " ++ shard.Address.Namespace ++ "/" ++ shard.Name)]) ∧
        ∀ host ∈ shard.Replicas, Call.deleteHost host ∈ hostCalls) ∧
    (∀ cluster, ∃ shardCalls, deleteCluster env cluster history =
        (Except.ok none,
          history
            ++ [Call.glog 1
              ("Start delete cluster " ++ cluster.Address.Namespace ++ "/" ++ cluster.Name)]
            ++ shardCalls
            ++ [Call.deleteServiceCluster cluster,
              Call.glog 1
                ("End delete cluster " ++ cluster.Address.Namespace ++ "/"
                  ++ cluster.Name)]) ∧
        ∀ shard ∈ cluster.Shards, Call.deleteServiceShard shard ∈ shardCalls ∧
          ∀ host ∈ shard.Replicas, Call.deleteHost host ∈ shardCalls) :=
  ⟨fun shard => deleteShard_run env shard history,
    fun cluster => deleteCluster_run env cluster history⟩

theorem createTablesOnHost_run (env : Env) (chi : ClickHouseInstallation) (host : ChiHost)
    (history : List Call) (cluster : ChiCluster)
    (h : chi.Clusters[host.Address.ClusterIndex]? = some cluster) :
    ∃ m1 m2 history2, createTablesOnHost env chi host history =
      (Except.ok none,
        history ++
          [ Call.GetCreateReplicatedObjects chi cluster host,
            Call.glog 1 m1,
            Call.HostApplySQLs host
              (env.statements history (Call.GetCreateReplicatedObjects chi cluster host)).2.1
              true,
            Call.ClusterGetCreateDistributedObjects chi cluster,
            Call.glog 1 m2,
            Call.HostApplySQLs host
              (env.statements history2
                (Call.ClusterGetCreateDistributedObjects chi cluster)).2.1
              true ]) := by
  refine ⟨"Creating replicated objects: "
      ++ fmtStrings (env.statements history
          (Call.GetCreateReplicatedObjects chi cluster host)).1,
    "Creating distributed objects: "
      ++ fmtStrings (env.statements
          (history ++
            [ Call.GetCreateReplicatedObjects chi cluster host,
              Call.glog 1 ("Creating replicated objects: "
                ++ fmtStrings (env.statements history
                    (Call.GetCreateReplicatedObjects chi cluster host)).1),
              Call.HostApplySQLs host
                (env.statements history
                  (Call.GetCreateReplicatedObjects chi cluster host)).2.1 true ])
          (Call.ClusterGetCreateDistributedObjects chi cluster)).1,
    history ++
      [ Call.GetCreateReplicatedObjects chi cluster host,
        Call.glog 1 ("Creating replicated objects: "
          ++ fmtStrings (env.statements history
              (Call.GetCreateReplicatedObjects chi cluster host)).1),
        Call.HostApplySQLs host
          (env.statements history
            (Call.GetCreateReplicatedObjects chi cluster host)).2.1 true ], ?_⟩
  unfold createTablesOnHost
  rw [h]
  simp [run_bind, run_fetch, run_emit, run_call, run_pure]

theorem createTablesOnShard_run (env : Env) (chi : ClickHouseInstallation) (shard : ChiShard)
    (history : List Call) (cluster : ChiCluster)
    (h : chi.Clusters[shard.Address.ClusterIndex]? = some cluster) :
    ∃ m, createTablesOnShard env chi shard history =
      (Except.ok none,
        history ++
          [ Call.ClusterGetCreateDistributedObjects chi cluster,
            Call.glog 1 m,
            Call.ShardApplySQLs shard
              (env.statements history
                (Call.ClusterGetCreateDistributedObjects chi cluster)).2.1
              true ]) := by
  refine ⟨"Creating distributed objects: "
    ++ fmtStrings (env.statements history
        (Call.ClusterGetCreateDistributedObjects chi cluster)).1, ?_⟩
  unfold createTablesOnShard
  rw [h]
  simp [run_bind, run_fetch, run_emit, run_call, run_pure]

theorem createTablesOnHost_stops (env : Env) (chi : ClickHouseInstallation)
    (host : ChiHost) : Emits Call.stopsOnError (createTablesOnHost env chi host) := by
  unfold createTablesOnHost
  cases chi.Clusters[host.Address.ClusterIndex]? with
  | none => exact emits_fault _ _
  | some cluster =>
    refine emits_bind (emits_fetch _ _ trivial) (fun _ => ?_)
    refine emits_bind (emits_emit _ trivial) (fun _ => ?_)
    refine emits_bind (emits_call _ _ rfl) (fun _ => ?_)
    refine emits_bind (emits_fetch _ _ trivial) (fun _ => ?_)
    refine emits_bind (emits_emit _ trivial) (fun _ => ?_)
    refine emits_bind (emits_call _ _ rfl) (fun _ => ?_)
    exact emits_pure _ _

theorem createTablesOnShard_stops (env : Env) (chi : ClickHouseInstallation)
    (shard : ChiShard) : Emits Call.stopsOnError (createTablesOnShard env chi shard) := by
  unfold createTablesOnShard
  cases chi.Clusters[shard.Address.ClusterIndex]? with
  | none => exact emits_fault _ _
  | some cluster =>
    refine emits_bind (emits_fetch _ _ trivial) (fun _ => ?_)
    refine emits_bind (emits_emit _ trivial) (fun _ => ?_)
    refine emits_bind (emits_call _ _ rfl) (fun _ => ?_)
    exact emits_pure _ _

/-- C18. For a host of a cluster of the installation, `createTablesOnHost` fetches the
replicated-object statements and applies them to the host with `stopOnError = true`, and only
then fetches the distributed-object statements of the cluster and applies them to the same
host with `stopOnError = true`. Every statement application of `createTablesOnHost` and of
`createTablesOnShard` has `stopOnError = true`; the one of `deleteTablesOnHost`, the table
drop, has `stopOnError = false`. -/
theorem createTablesOnHost_replicated_then_distributed (env : Env)
    (chi : ClickHouseInstallation) (history : List Call) :
    (∀ host cluster, chi.Clusters[host.Address.ClusterIndex]? = some cluster →
      ∃ m1 m2 history2, createTablesOnHost env chi host history =
        (Except.ok none,
          history ++
            [ Call.GetCreateReplicatedObjects chi cluster host,
              Call.glog 1 m1,
              Call.HostApplySQLs host
                (env.statements history
                  (Call.GetCreateReplicatedObjects chi cluster host)).2.1
                true,
              Call.ClusterGetCreateDistributedObjects chi cluster,
              Call.glog 1 m2,
              Call.HostApplySQLs host
                (env.statements history2
                  (Call.ClusterGetCreateDistributedObjects chi cluster)).2.1
                true ])) ∧
    (∀ host, Emits Call.stopsOnError (createTablesOnHost env chi host)) ∧
    (∀ shard, Emits Call.stopsOnError (createTablesOnShard env chi shard)) ∧
    (∀ host, ∃ m, deleteTablesOnHost env host history =
      (Except.ok none,
        history ++
          [ Call.HostGetDropTables host,
            Call.glog 1 m,
            Call.HostApplySQLs host
              (env.statements history (Call.HostGetDropTables host)).2.1 false ])) := by
  refine ⟨fun host cluster h => createTablesOnHost_run env chi host history cluster h,
    fun host => createTablesOnHost_stops env chi host,
    fun shard => createTablesOnShard_stops env chi shard, fun host =>
      ⟨"Drop tables: " ++ fmtStrings (env.statements history (Call.HostGetDropTables host)).1
        ++ " as " ++ fmtStrings (env.statements history (Call.HostGetDropTables host)).2.1,
        ?_⟩⟩
  simp [deleteTablesOnHost, run_bind, run_fetch, run_emit, run_call, run_pure]

/-- C18 on host 0 of the example installation. -/
theorem createTablesOnHost_replicated_then_distributed_witness :
    ∃ m1 m2 history2, createTablesOnHost exampleEnvSchema exampleChi (exampleHost 0) [] =
      (Except.ok none,
        [] ++
          [ Call.GetCreateReplicatedObjects exampleChi
              { Name := "c1"
                Address := { Namespace := "ns", ChiName := "chi", ClusterName := "c1" }
                Shards :=
                  [ { Name := "c1-0"
                      Address := { Namespace := "ns", ChiName := "chi", ClusterName := "c1" }
                      Replicas := [exampleHost 0, exampleHost 1] } ] }
              (exampleHost 0),
            Call.glog 1 m1,
            Call.HostApplySQLs (exampleHost 0)
              (exampleEnvSchema.statements []
                (Call.GetCreateReplicatedObjects exampleChi
                  { Name := "c1"
                    Address := { Namespace := "ns", ChiName := "chi", ClusterName := "c1" }
                    Shards :=
                      [ { Name := "c1-0"
                          Address :=
                            { Namespace := "ns", ChiName := "chi", ClusterName := "c1" }
                          Replicas := [exampleHost 0, exampleHost 1] } ] }
                  (exampleHost 0))).2.1
              true,
            Call.ClusterGetCreateDistributedObjects exampleChi
              { Name := "c1"
                Address := { Namespace := "ns", ChiName := "chi", ClusterName := "c1" }
                Shards :=
                  [ { Name := "c1-0"
                      Address := { Namespace := "ns", ChiName := "chi", ClusterName := "c1" }
                      Replicas := [exampleHost 0, exampleHost 1] } ] },
            Call.glog 1 m2,
            Call.HostApplySQLs (exampleHost 0)
              (exampleEnvSchema.statements history2
                (Call.ClusterGetCreateDistributedObjects exampleChi
                  { Name := "c1"
                    Address := { Namespace := "ns", ChiName := "chi", ClusterName := "c1" }
                    Shards :=
                      [ { Name := "c1-0"
                          Address :=
                            { Namespace := "ns", ChiName := "chi", ClusterName := "c1" }
                          Replicas := [exampleHost 0, exampleHost 1] } ] })).2.1
              true ]) :=
  (createTablesOnHost_replicated_then_distributed exampleEnvSchema exampleChi []).1
    (exampleHost 0) _ rfl

/-! ## The order of schema creation in `updateChi` -/

theorem ra_pure {α : Type} (a : α) : RunsApplying (fun l => l = []) (Pure.pure a : W α) :=
  fun history => ⟨a, [], by simp [run_pure], by simp⟩

theorem ra_emit (c : Call) (h : c.isApply = false) : RunsApplying (fun l => l = []) (emit c) :=
  fun history => ⟨(), [c], rfl, by simp [h]⟩

theorem ra_call (env : Env) (c : Call) (h : c.isApply = false) :
    RunsApplying (fun l => l = []) (call env c) :=
  fun history => ⟨env.respond history c, [c], rfl, by simp [h]⟩

theorem ra_weaken {α : Type} {s s2 : List Call → Prop} {m : W α} (h : ∀ l, s l → s2 l)
    (hm : RunsApplying s m) : RunsApplying s2 m := by
  intro history
  obtain ⟨a, rest, h1, h2⟩ := hm history
  exact ⟨a, rest, h1, h _ h2⟩

theorem ra_bind {α β : Type} {s1 s2 : List Call → Prop} {m : W α} {f : α → W β}
    (hm : RunsApplying s1 m) (hf : ∀ a, RunsApplying s2 (f a)) :
    RunsApplying (fun l => ∃ l1 l2, l = l1 ++ l2 ∧ s1 l1 ∧ s2 l2) (m >>= f) := by
  intro history
  obtain ⟨a, rest1, h1, p1⟩ := hm history
  obtain ⟨b, rest2, h2, p2⟩ := hf a (history ++ rest1)
  refine ⟨b, rest1 ++ rest2, ?_, _, _, List.filter_append _ _, p1, p2⟩
  rw [run_bind_ok m f history _ a h1, h2, List.append_assoc]

theorem ra_bind_nil_left {α β : Type} {s : List Call → Prop} {m : W α} {f : α → W β}
    (hm : RunsApplying (fun l => l = []) m) (hf : ∀ a, RunsApplying s (f a)) :
    RunsApplying s (m >>= f) := by
  refine ra_weaken ?_ (ra_bind hm hf)
  rintro l ⟨l1, l2, rfl, rfl, h⟩
  simpa using h

theorem ra_bind_nil_right {α β : Type} {s : List Call → Prop} {m : W α} {f : α → W β}
    (hm : RunsApplying s m) (hf : ∀ a, RunsApplying (fun l => l = []) (f a)) :
    RunsApplying s (m >>= f) := by
  refine ra_weaken ?_ (ra_bind hm hf)
  rintro l ⟨l1, l2, rfl, h, rfl⟩
  simpa using h

theorem createTablesOnShard_applies (env : Env) (chi : ClickHouseInstallation)
    (shard : ChiShard) (cluster : ChiCluster)
    (h : chi.Clusters[shard.Address.ClusterIndex]? = some cluster) :
    RunsApplying (shardApplyShape env chi cluster shard) (createTablesOnShard env chi shard) := by
  intro history
  obtain ⟨m, hm⟩ := createTablesOnShard_run env chi shard history cluster h
  exact ⟨none, _, hm, history, by simp [Call.isApply]⟩

theorem createTablesOnHost_applies (env : Env) (chi : ClickHouseInstallation)
    (host : ChiHost) (cluster : ChiCluster)
    (h : chi.Clusters[host.Address.ClusterIndex]? = some cluster) :
    RunsApplying (hostApplyShape env chi cluster host) (createTablesOnHost env chi host) := by
  intro history
  obtain ⟨m1, m2, t2, hm⟩ := createTablesOnHost_run env chi host history cluster h
  exact ⟨none, _, hm, history, t2, by simp [Call.isApply]⟩

theorem scenario_plan (old new : ClickHouseInstallation) (cluster : ChiCluster)
    (shard : ChiShard) (host1 host2 : ChiHost) (hold : old.Clusters = [])
    (hnew : new.Clusters = [cluster]) (hshards : cluster.Shards = [shard])
    (hhosts : shard.Replicas = [host1, host2]) :
    (NewActionPlan old new).added =
        [PlanNode.cluster cluster, PlanNode.shard shard, PlanNode.host host1,
          PlanNode.host host2] ∧
      (NewActionPlan old new).removed = [] ∧
      (NewActionPlan old new).IsNoChanges = false := by
  simp [NewActionPlan, hold, hnew, addedCluster, addedShard, hshards, hhosts]

theorem postProcessAdded_scenario (env : Env) (chi : ClickHouseInstallation)
    (actionPlan : ActionPlan) (cluster : ChiCluster) (shard : ChiShard)
    (host1 host2 : ChiHost)
    (hadded : actionPlan.added =
      [PlanNode.cluster cluster, PlanNode.shard shard, PlanNode.host host1,
        PlanNode.host host2])
    (hs : chi.Clusters[shard.Address.ClusterIndex]? = some cluster)
    (h1 : chi.Clusters[host1.Address.ClusterIndex]? = some cluster)
    (h2 : chi.Clusters[host2.Address.ClusterIndex]? = some cluster) :
    RunsApplying
      (fun l => ∃ l0 l1 l2, l = l0 ++ (l1 ++ l2) ∧ shardApplyShape env chi cluster shard l0 ∧
        hostApplyShape env chi cluster host1 l1 ∧ hostApplyShape env chi cluster host2 l2)
      (postProcessAdded env chi actionPlan) := by
  unfold postProcessAdded ActionPlan.WalkAdded
  rw [hadded]
  simp only [walkNodes]
  refine ra_bind_nil_left
    (ra_bind_nil_left (ra_emit _ rfl) (fun _ => ra_emit _ rfl)) (fun _ => ?_)
  refine ra_weaken ?_
    (ra_bind
      (ra_bind_nil_left (ra_emit _ rfl) (fun _ => ra_bind_nil_left (ra_emit _ rfl) (fun _ =>
        ra_bind_nil_right (createTablesOnShard_applies env chi shard cluster hs)
          (fun _ => ra_pure ()))))
      (fun _ => ra_bind
        (ra_bind_nil_left (ra_emit _ rfl) (fun _ => ra_bind_nil_left (ra_emit _ rfl)
          (fun _ => ra_bind_nil_right (createTablesOnHost_applies env chi host1 cluster h1)
            (fun _ => ra_pure ()))))
        (fun _ => ra_bind_nil_right
          (ra_bind_nil_left (ra_emit _ rfl) (fun _ => ra_bind_nil_left (ra_emit _ rfl)
            (fun _ => ra_bind_nil_right (createTablesOnHost_applies env chi host2 cluster h2)
              (fun _ => ra_pure ()))))
          (fun _ => ra_pure ()))))
  rintro l ⟨l0, r, rfl, p0, l1, l2, rfl, p1, p2⟩
  exact ⟨l0, l1, l2, rfl, p0, p1, p2⟩

theorem filter_isApply_of_isReconcile (walk : List Call) (h : ∀ c ∈ walk, c.isReconcile) :
    walk.filter Call.isApply = [] := by
  rw [List.filter_eq_nil_iff]
  intro c hc
  have := h c hc
  cases c <;> simp_all [Call.isReconcile, Call.isApply]

theorem removeDeleted_applies_nothing (env : Env) (old : ClickHouseInstallation)
    (actionPlan : ActionPlan) (h : actionPlan.removed = []) :
    RunsApplying (fun l => l = []) (removeDeleted env old actionPlan) := by
  unfold removeDeleted ActionPlan.WalkRemoved
  rw [h]
  exact ra_pure ()

theorem updateChi_scenario_applies (env : Env) (new : ClickHouseInstallation)
    (cluster : ChiCluster) (shard : ChiShard) (host1 host2 : ChiHost)
    (history trace : List Call)
    (hdiffer : env.NewActionPlan = NewActionPlan)
    (hold : (normalizedOrEmpty env none).Clusters = [])
    (hnew : (normalizedOrEmpty env (some new)).Clusters = [cluster])
    (hshards : cluster.Shards = [shard])
    (hhosts : shard.Replicas = [host1, host2])
    (hs : shard.Address.ClusterIndex = 0)
    (h1 : host1.Address.ClusterIndex = 0)
    (h2 : host2.Address.ClusterIndex = 0)
    (hrv : (normalizedOrEmpty env none).ResourceVersion
      ≠ (normalizedOrEmpty env (some new)).ResourceVersion)
    (hwalk : reconcile env (inProgressChi env none (some new))
        (history ++ startOfReconcile env none (some new)) = (Except.ok none, trace)) :
    ∃ rest l0 l1 l2, (updateChi env none (some new) history).2 = history ++ rest ∧
      rest.filter Call.isApply = l0 ++ (l1 ++ l2) ∧
      shardApplyShape env (inProgressChi env none (some new)) cluster shard l0 ∧
      hostApplyShape env (inProgressChi env none (some new)) cluster host1 l1 ∧
      hostApplyShape env (inProgressChi env none (some new)) cluster host2 l2 := by
  obtain ⟨hadded, hremoved, hno⟩ := scenario_plan (normalizedOrEmpty env none)
    (normalizedOrEmpty env (some new)) cluster shard host1 host2 hold hnew hshards hhosts
  have hplan : planOf env none (some new)
      = NewActionPlan (normalizedOrEmpty env none) (normalizedOrEmpty env (some new)) := by
    unfold planOf; rw [hdiffer]
  rw [← hplan] at hadded hremoved hno
  have hclusters : (inProgressChi env none (some new)).Clusters = [cluster] := by
    simp [inProgressChi, hnew]
  have hA : RunsApplying
      (fun l => ∃ l0 l1 l2, l = l0 ++ (l1 ++ l2) ∧
        shardApplyShape env (inProgressChi env none (some new)) cluster shard l0 ∧
        hostApplyShape env (inProgressChi env none (some new)) cluster host1 l1 ∧
        hostApplyShape env (inProgressChi env none (some new)) cluster host2 l2)
      (afterReconcile env none (some new) none) := by
    show RunsApplying _
      (postProcessAdded env (inProgressChi env none (some new)) (planOf env none (some new))
        >>= fun _ => _)
    refine ra_bind_nil_right
      (postProcessAdded_scenario env _ _ cluster shard host1 host2 hadded
        (by simp [hclusters, hs]) (by simp [hclusters, h1]) (by simp [hclusters, h2]))
      (fun _ => ?_)
    refine ra_bind_nil_left (removeDeleted_applies_nothing env _ _ hremoved) (fun _ => ?_)
    refine ra_bind_nil_left (ra_call env _ rfl) (fun _ => ?_)
    refine ra_bind_nil_left (ra_emit _ rfl) (fun _ => ?_)
    exact ra_pure _
  obtain ⟨walk, hw1, hw2⟩ := reconcile_emits env (inProgressChi env none (some new))
    (history ++ startOfReconcile env none (some new))
  rw [hwalk] at hw1
  simp only at hw1
  obtain ⟨a, rest2, hr, l0, l1, l2, hf, p0, p1, p2⟩ := hA trace
  refine ⟨startOfReconcile env none (some new) ++ walk ++ rest2, l0, l1, l2, ?_, ?_, p0, p1,
    p2⟩
  · rw [updateChi_reconciling env none (some new) history hrv hno,
      run_bind_ok _ _ _ _ _ hwalk, hr, hw1]
    simp
  · rw [List.filter_append, List.filter_append, filter_isApply_of_isReconcile walk hw2, hf]
    simp [startOfReconcile, Call.isApply]

/-- C19, as the code has it with the order the spec gives for `WalkAdded`. Old tree empty,
new tree one cluster with one shard of two hosts, the plan the one of the differ, the
reconcile walk succeeding: the statement applications of `updateChi` are, in this order,
the distributed-object statements applied shard-wide (`ShardApplySQLs`), then for the first
host its replicated-object statements followed by the distributed-object statements, then
the same for the second host. The shard-wide application comes first, before the
replicated-object creation on either host. -/
theorem updateChi_scenario_applies_shard_first (env : Env) (new : ClickHouseInstallation)
    (cluster : ChiCluster) (shard : ChiShard) (host1 host2 : ChiHost)
    (history trace : List Call)
    (hdiffer : env.NewActionPlan = NewActionPlan)
    (hold : (normalizedOrEmpty env none).Clusters = [])
    (hnew : (normalizedOrEmpty env (some new)).Clusters = [cluster])
    (hshards : cluster.Shards = [shard])
    (hhosts : shard.Replicas = [host1, host2])
    (hs : shard.Address.ClusterIndex = 0)
    (h1 : host1.Address.ClusterIndex = 0)
    (h2 : host2.Address.ClusterIndex = 0)
    (hrv : (normalizedOrEmpty env none).ResourceVersion
      ≠ (normalizedOrEmpty env (some new)).ResourceVersion)
    (hwalk : reconcile env (inProgressChi env none (some new))
        (history ++ startOfReconcile env none (some new)) = (Except.ok none, trace)) :
    ∃ rest t0 t1 t2 t3 t4, (updateChi env none (some new) history).2 = history ++ rest ∧
      rest.filter Call.isApply =
        [ Call.ShardApplySQLs shard
            (env.statements t0
              (Call.ClusterGetCreateDistributedObjects (inProgressChi env none (some new))
                cluster)).2.1 true,
          Call.HostApplySQLs host1
            (env.statements t1
              (Call.GetCreateReplicatedObjects (inProgressChi env none (some new)) cluster
                host1)).2.1 true,
          Call.HostApplySQLs host1
            (env.statements t2
              (Call.ClusterGetCreateDistributedObjects (inProgressChi env none (some new))
                cluster)).2.1 true,
          Call.HostApplySQLs host2
            (env.statements t3
              (Call.GetCreateReplicatedObjects (inProgressChi env none (some new)) cluster
                host2)).2.1 true,
          Call.HostApplySQLs host2
            (env.statements t4
              (Call.ClusterGetCreateDistributedObjects (inProgressChi env none (some new))
                cluster)).2.1 true ] := by
  obtain ⟨rest, l0, l1, l2, hr, hf, ⟨t0, rfl⟩, ⟨t1, t2, rfl⟩, ⟨t3, t4, rfl⟩⟩ :=
    updateChi_scenario_applies env new cluster shard host1 host2 history trace hdiffer hold
      hnew hshards hhosts hs h1 h2 hrv hwalk
  exact ⟨rest, t0, t1, t2, t3, t4, hr, by simpa using hf⟩

/-- C19 as the code has it, on the example installation with a schemer handing out the
replicated table `t` and the distributed table `d`. -/
theorem updateChi_scenario_applies_shard_first_witness :
    ∃ rest t0 t1 t2 t3 t4,
      (updateChi exampleEnvSchema none (some exampleChi) []).2 = [] ++ rest ∧
      rest.filter Call.isApply =
        [ Call.ShardApplySQLs exampleShard
            (exampleEnvSchema.statements t0
              (Call.ClusterGetCreateDistributedObjects
                (inProgressChi exampleEnvSchema none (some exampleChi))
                exampleCluster)).2.1 true,
          Call.HostApplySQLs (exampleHost 0)
            (exampleEnvSchema.statements t1
              (Call.GetCreateReplicatedObjects
                (inProgressChi exampleEnvSchema none (some exampleChi)) exampleCluster
                (exampleHost 0))).2.1 true,
          Call.HostApplySQLs (exampleHost 0)
            (exampleEnvSchema.statements t2
              (Call.ClusterGetCreateDistributedObjects
                (inProgressChi exampleEnvSchema none (some exampleChi))
                exampleCluster)).2.1 true,
          Call.HostApplySQLs (exampleHost 1)
            (exampleEnvSchema.statements t3
              (Call.GetCreateReplicatedObjects
                (inProgressChi exampleEnvSchema none (some exampleChi)) exampleCluster
                (exampleHost 1))).2.1 true,
          Call.HostApplySQLs (exampleHost 1)
            (exampleEnvSchema.statements t4
              (Call.ClusterGetCreateDistributedObjects
                (inProgressChi exampleEnvSchema none (some exampleChi))
                exampleCluster)).2.1 true ] :=
  updateChi_scenario_applies_shard_first exampleEnvSchema exampleChi exampleCluster
    exampleShard (exampleHost 0) (exampleHost 1) []
    (reconcile exampleEnvSchema (inProgressChi exampleEnvSchema none (some exampleChi))
      ([] ++ startOfReconcile exampleEnvSchema none (some exampleChi))).2
    rfl rfl rfl rfl rfl rfl rfl rfl (by decide) (Prod.ext (by rfl) rfl)

/-- C19, counterexample. Old tree empty, new installation `exampleChi` (cluster `c1`, one
shard, two hosts), every call succeeding, the plan the one of the differ with `WalkAdded`
top-down, the schemer handing out the replicated table `t` and the distributed table `d`:
the first statement application of `updateChi` is `ShardApplySQLs` on the shard; the
replicated-object creation on the two hosts comes after it, not before. -/
theorem updateChi_scenario_shard_apply_precedes_hosts :
    (updateChi exampleEnvSchema none (some exampleChi) []).2.filter Call.isApply =
      [ Call.ShardApplySQLs exampleShard ["CREATE TABLE d"] true,
        Call.HostApplySQLs (exampleHost 0) ["CREATE TABLE t"] true,
        Call.HostApplySQLs (exampleHost 0) ["CREATE TABLE d"] true,
        Call.HostApplySQLs (exampleHost 1) ["CREATE TABLE t"] true,
        Call.HostApplySQLs (exampleHost 1) ["CREATE TABLE d"] true ] := by
  decide

/-- C20, the code at a failing input. A host whose service template lists the port 70000:
`CreateServiceHost` returns nil, not the default Service, and `reconcileHost` hands that nil
to `ReconcileService`. -/
theorem CreateServiceHost_nil_on_port_out_of_range :
    (NewCreator exampleDepsBadPort exampleChi {} "0").CreateServiceHost exampleDepsBadPort
        (exampleHost 0) = none ∧
      hostServiceCall { exampleEnv with deps := exampleDepsBadPort }
          (NewCreator exampleDepsBadPort exampleChi {} "0") (exampleHost 0)
        = Call.ReconcileService none := by
  decide

/-! ## The StatefulSet and its volume claims -/

theorem getContainerByName_some (statefulSet : StatefulSet) (name : String) (i : Nat)
    (h : getContainerByName statefulSet name = some i) :
    ∃ container, statefulSet.Spec.Template.Spec.Containers[i]? = some container ∧
      container.Name = name := by
  unfold getContainerByName at h
  cases hf : statefulSet.Spec.Template.Spec.Containers.findIdx?
      (fun container => decide (container.Name = name)) with
  | none => simp [hf] at h
  | some j =>
    simp [hf] at h
    subst h
    obtain ⟨hlt, hp, _⟩ := List.findIdx?_eq_some_iff_getElem.1 hf
    refine ⟨statefulSet.Spec.Template.Spec.Containers[j], ?_, ?_⟩
    · simp [hlt]
    · simpa using hp

theorem getContainerByName_none (statefulSet : StatefulSet) (name : String)
    (h : ∀ container ∈ statefulSet.Spec.Template.Spec.Containers, container.Name ≠ name) :
    getContainerByName statefulSet name = none := by
  unfold getContainerByName
  have hf : statefulSet.Spec.Template.Spec.Containers.findIdx?
      (fun container => decide (container.Name = name)) = none := by
    rw [List.findIdx?_eq_none_iff]
    intro x hx
    simpa using h x hx
  simp [hf]

theorem statefulSetAppendVolumeClaimTemplate_template (statefulSet : StatefulSet)
    (template : ChiVolumeClaimTemplate) :
    (statefulSetAppendVolumeClaimTemplate statefulSet template).Spec.Template
      = statefulSet.Spec.Template := by
  unfold statefulSetAppendVolumeClaimTemplate
  split <;> rfl

theorem statefulSetAppendVolumeClaimTemplate_claims (statefulSet : StatefulSet)
    (template : ChiVolumeClaimTemplate) :
    (statefulSetAppendVolumeClaimTemplate statefulSet template).Spec.VolumeClaimTemplates
      = if statefulSet.Spec.VolumeClaimTemplates.any
            (fun claim => decide (claim.ObjectMeta.Name = template.Name)) then
          statefulSet.Spec.VolumeClaimTemplates
        else
          statefulSet.Spec.VolumeClaimTemplates ++
            [{ ObjectMeta := { Name := template.Name }, Spec := template.Spec }] := by
  unfold statefulSetAppendVolumeClaimTemplate
  split <;> rfl

theorem volumeMounts_ne_append (container : Container) (volumeMount : VolumeMount) :
    container ≠
      { container with VolumeMounts := container.VolumeMounts ++ [volumeMount] } := by
  intro h
  have := congrArg (fun x => x.VolumeMounts.length) h
  simp at this

/-- The result of `setupStatefulSetApplyVolumeClaimTemplate` for a container that exists. -/
theorem setupStatefulSetApplyVolumeClaimTemplate_run (deps : Deps) (c : Creator)
    (statefulSet : StatefulSet) (containerName volumeClaimTemplateName mountPath : String)
    (i : Nat) (container : Container)
    (hi : getContainerByName statefulSet containerName = some i)
    (hc : statefulSet.Spec.Template.Spec.Containers[i]? = some container) :
    c.setupStatefulSetApplyVolumeClaimTemplate deps statefulSet containerName
        volumeClaimTemplateName mountPath
      = Except.ok
          (match deps.GetVolumeClaimTemplate c.chi volumeClaimTemplateName with
          | some template =>
            if volumeClaimTemplateName ≠ "" ∧
                (∀ volumeMount ∈ container.VolumeMounts,
                  volumeMount.Name ≠ volumeClaimTemplateName) ∧
                (∀ volumeMount ∈ container.VolumeMounts,
                  volumeMount.MountPath ≠ mountPath) then
              setContainers (statefulSetAppendVolumeClaimTemplate statefulSet template)
                (statefulSet.Spec.Template.Spec.Containers.modify
                  (fun container =>
                    { container with
                      VolumeMounts := container.VolumeMounts ++
                        [newVolumeMount volumeClaimTemplateName mountPath] }) i)
            else statefulSet
          | none => statefulSet) := by
  unfold Creator.setupStatefulSetApplyVolumeClaimTemplate
  by_cases hname : volumeClaimTemplateName = ""
  · cases hv : deps.GetVolumeClaimTemplate c.chi volumeClaimTemplateName <;> simp [hname]
  · cases hv : deps.GetVolumeClaimTemplate c.chi volumeClaimTemplateName with
    | none => simp [hname]
    | some template =>
      simp only [hname, if_false, hi, hc, statefulSetAppendVolumeClaimTemplate_template]
      by_cases h1 : container.VolumeMounts.any
          (fun volumeMount => decide (volumeMount.Name = volumeClaimTemplateName)) = true
      · have h1b : ¬ ∀ volumeMount ∈ container.VolumeMounts,
            volumeMount.Name ≠ volumeClaimTemplateName := by
          obtain ⟨x, hx, hp⟩ := List.any_eq_true.1 h1
          intro hall
          exact hall x hx (by simpa using hp)
        simp [h1, h1b]
      · have h1b : ∀ volumeMount ∈ container.VolumeMounts,
            volumeMount.Name ≠ volumeClaimTemplateName := by
          intro x hx e
          exact h1 (List.any_eq_true.2 ⟨x, hx, by simpa using e⟩)
        by_cases h2 : container.VolumeMounts.any
            (fun volumeMount => decide (volumeMount.MountPath = mountPath)) = true
        · have h2b : ¬ ∀ volumeMount ∈ container.VolumeMounts,
              volumeMount.MountPath ≠ mountPath := by
            obtain ⟨x, hx, hp⟩ := List.any_eq_true.1 h2
            intro hall
            exact hall x hx (by simpa using hp)
          simp [h1, h2, h2b]
        · have h2b : ∀ volumeMount ∈ container.VolumeMounts,
              volumeMount.MountPath ≠ mountPath := by
            intro x hx e
            exact h2 (List.any_eq_true.2 ⟨x, hx, by simpa using e⟩)
          simp only [h1, h2, Bool.false_eq_true, if_false]
          rw [if_pos ⟨hname, h1b, h2b⟩]

/-- C22 (amended). For every StatefulSet, container name that `getContainerByName` finds (at
position `i`), volume-claim template name and mount path,
`setupStatefulSetApplyVolumeClaimTemplate` returns without a fault, and the mount (template
name, mount path) is appended to the VolumeMounts of that container if and only if the
template name is not empty, the template exists in the installation, no VolumeMount of the
container has that name and none has that mount path. In that case the other containers stay
as they are, and the VolumeClaimTemplates stay as they are when a claim with the name of the
template is already listed and get a claim made of the template appended otherwise. In every
other case the StatefulSet is returned unchanged. -/
theorem setupStatefulSetApplyVolumeClaimTemplate_mounts_iff (deps : Deps) (c : Creator)
    (statefulSet : StatefulSet) (containerName volumeClaimTemplateName mountPath : String)
    (i : Nat) (hi : getContainerByName statefulSet containerName = some i) :
    ∃ container result,
      statefulSet.Spec.Template.Spec.Containers[i]? = some container ∧
      container.Name = containerName ∧
      c.setupStatefulSetApplyVolumeClaimTemplate deps statefulSet containerName
        volumeClaimTemplateName mountPath = Except.ok result ∧
      (result.Spec.Template.Spec.Containers[i]?
          = some { container with
              VolumeMounts := container.VolumeMounts ++
                [newVolumeMount volumeClaimTemplateName mountPath] }
        ↔ (volumeClaimTemplateName ≠ "" ∧
            (deps.GetVolumeClaimTemplate c.chi volumeClaimTemplateName).isSome ∧
            (∀ volumeMount ∈ container.VolumeMounts,
              volumeMount.Name ≠ volumeClaimTemplateName) ∧
            (∀ volumeMount ∈ container.VolumeMounts,
              volumeMount.MountPath ≠ mountPath))) ∧
      (∀ template, volumeClaimTemplateName ≠ "" →
        deps.GetVolumeClaimTemplate c.chi volumeClaimTemplateName = some template →
        (∀ volumeMount ∈ container.VolumeMounts,
          volumeMount.Name ≠ volumeClaimTemplateName) →
        (∀ volumeMount ∈ container.VolumeMounts, volumeMount.MountPath ≠ mountPath) →
        (∀ j, j ≠ i → result.Spec.Template.Spec.Containers[j]?
          = statefulSet.Spec.Template.Spec.Containers[j]?) ∧
        result.Spec.VolumeClaimTemplates
          = if statefulSet.Spec.VolumeClaimTemplates.any
                (fun claim => decide (claim.ObjectMeta.Name = template.Name)) then
              statefulSet.Spec.VolumeClaimTemplates
            else
              statefulSet.Spec.VolumeClaimTemplates ++
                [{ ObjectMeta := { Name := template.Name }, Spec := template.Spec }]) ∧
      (¬ (volumeClaimTemplateName ≠ "" ∧
            (deps.GetVolumeClaimTemplate c.chi volumeClaimTemplateName).isSome ∧
            (∀ volumeMount ∈ container.VolumeMounts,
              volumeMount.Name ≠ volumeClaimTemplateName) ∧
            (∀ volumeMount ∈ container.VolumeMounts,
              volumeMount.MountPath ≠ mountPath)) →
        result = statefulSet) := by
  obtain ⟨container, hc, hn⟩ := getContainerByName_some statefulSet containerName i hi
  have hrun := setupStatefulSetApplyVolumeClaimTemplate_run deps c statefulSet containerName
    volumeClaimTemplateName mountPath i container hi hc
  cases hv : deps.GetVolumeClaimTemplate c.chi volumeClaimTemplateName with
  | none =>
    rw [hv] at hrun
    refine ⟨container, statefulSet, hc, hn, hrun, ?_, ?_, fun _ => rfl⟩
    · constructor
      · intro h
        rw [hc] at h
        exact absurd (Option.some.inj h) (volumeMounts_ne_append container _)
      · intro h
        simp at h
    · intro template _ h
      cases h
  | some template =>
    rw [hv] at hrun
    by_cases hconds : volumeClaimTemplateName ≠ "" ∧
        (∀ volumeMount ∈ container.VolumeMounts,
          volumeMount.Name ≠ volumeClaimTemplateName) ∧
        (∀ volumeMount ∈ container.VolumeMounts, volumeMount.MountPath ≠ mountPath)
    · simp only [if_pos hconds] at hrun
      refine ⟨container, _, hc, hn, hrun, ?_, ?_, ?_⟩
      · constructor
        · intro _
          exact ⟨hconds.1, rfl, hconds.2.1, hconds.2.2⟩
        · intro _
          simp [setContainers, List.getElem?_modify, hc]
      · intro template2 _ ht _ _
        cases ht
        constructor
        · intro j hj
          have hij : ¬ i = j := fun e => hj e.symm
          simp only [setContainers, List.getElem?_modify, hij, if_false]
          cases statefulSet.Spec.Template.Spec.Containers[j]? <;> rfl
        · simp only [setContainers]
          exact statefulSetAppendVolumeClaimTemplate_claims statefulSet template
      · intro hnot
        exact absurd ⟨hconds.1, rfl, hconds.2.1, hconds.2.2⟩ hnot
    · simp only [if_neg hconds] at hrun
      refine ⟨container, statefulSet, hc, hn, hrun, ?_, ?_, fun _ => rfl⟩
      · constructor
        · intro h
          rw [hc] at h
          exact absurd (Option.some.inj h) (volumeMounts_ne_append container _)
        · intro h
          exact absurd ⟨h.1, h.2.2.1, h.2.2.2⟩ hconds
      · intro template2 h1 _ h3 h4
        exact absurd ⟨h1, h3, h4⟩ hconds

/-- C22 on the last step of `setupStatefulSetVolumeClaimTemplates` for a host with the log
volume-claim template `log`: the container `clickhouse-log` gets the mount. -/
theorem setupStatefulSetApplyVolumeClaimTemplate_mounts_iff_witness :
    getContainerByName exampleStatefulSetLogClaimed "clickhouse-log" = some 1 ∧
      ∃ container result,
        exampleStatefulSetLogClaimed.Spec.Template.Spec.Containers[1]? = some container ∧
        exampleCreatorVolumeClaims.setupStatefulSetApplyVolumeClaimTemplate
          exampleDepsVolumeClaims exampleStatefulSetLogClaimed "clickhouse-log" "log"
          "/var/log/clickhouse-server" = Except.ok result ∧
        (result.Spec.Template.Spec.Containers[1]?
            = some { container with
                VolumeMounts := container.VolumeMounts ++
                  [newVolumeMount "log" "/var/log/clickhouse-server"] }
          ↔ ("log" ≠ "" ∧
              (exampleDepsVolumeClaims.GetVolumeClaimTemplate
                exampleCreatorVolumeClaims.chi "log").isSome ∧
              (∀ volumeMount ∈ container.VolumeMounts, volumeMount.Name ≠ "log") ∧
              (∀ volumeMount ∈ container.VolumeMounts,
                volumeMount.MountPath ≠ "/var/log/clickhouse-server"))) :=
  ⟨by decide,
   match setupStatefulSetApplyVolumeClaimTemplate_mounts_iff exampleDepsVolumeClaims
      exampleCreatorVolumeClaims exampleStatefulSetLogClaimed "clickhouse-log" "log"
      "/var/log/clickhouse-server" 1 (by decide) with
   | ⟨container, result, h1, _, h3, h4, _, _⟩ => ⟨container, result, h1, h3, h4⟩⟩

/-- C22 as stated fails where the claim is already listed: on the StatefulSet that lists the
claim `log` and has the container `clickhouse-log` without mounts, the template name `log` is
not empty, the template exists, and no mount of the container has the name or the mount
path; the mount is appended to the container, and the VolumeClaimTemplates are left as they
were. -/
theorem setupStatefulSetApplyVolumeClaimTemplate_listed_claim_not_added :
    getContainerByName exampleStatefulSetLogClaimed "clickhouse-log" = some 1 ∧
    exampleStatefulSetLogClaimed.Spec.Template.Spec.Containers[1]?
      = some { Name := "clickhouse-log", VolumeMounts := [] } ∧
    (exampleDepsVolumeClaims.GetVolumeClaimTemplate
      exampleCreatorVolumeClaims.chi "log").isSome = true ∧
    ∃ result,
      exampleCreatorVolumeClaims.setupStatefulSetApplyVolumeClaimTemplate
        exampleDepsVolumeClaims exampleStatefulSetLogClaimed "clickhouse-log" "log"
        "/var/log/clickhouse-server" = Except.ok result ∧
      result.Spec.Template.Spec.Containers[1]?
        = some { Name := "clickhouse-log"
                 VolumeMounts :=
                   [{ Name := "log", MountPath := "/var/log/clickhouse-server" }] } ∧
      result.Spec.VolumeClaimTemplates
        = exampleStatefulSetLogClaimed.Spec.VolumeClaimTemplates :=
  ⟨by decide, by decide, by decide, _, rfl, by decide, by decide⟩

/-- The whole construction for a host with the log volume-claim template `log`: both
containers get the mount and the claim is listed once. -/
theorem CreateStatefulSet_log_claim_listed_once :
    ∃ result,
      exampleCreatorVolumeClaims.CreateStatefulSet exampleDepsVolumeClaims exampleHostLog
        = Except.ok result ∧
      result.Spec.Template.Spec.Containers.map
          (fun container => container.VolumeMounts.map (fun volumeMount => volumeMount.Name))
        = [ ["chi-chi-common-configd", "chi-chi-common-usersd", "chi-c1-0-0-deploy-confd",
              "log"],
            ["log"] ] ∧
      result.Spec.VolumeClaimTemplates.map (fun claim => claim.ObjectMeta.Name) = ["log"] :=
  ⟨_, rfl, by decide, by decide⟩

theorem setupStatefulSetApplyVolumeClaimTemplate_faults (deps : Deps) (c : Creator)
    (statefulSet : StatefulSet) (containerName volumeClaimTemplateName mountPath : String)
    (hname : volumeClaimTemplateName ≠ "")
    (hv : (deps.GetVolumeClaimTemplate c.chi volumeClaimTemplateName).isSome)
    (hno : ∀ container ∈ statefulSet.Spec.Template.Spec.Containers,
      container.Name ≠ containerName) :
    c.setupStatefulSetApplyVolumeClaimTemplate deps statefulSet containerName
      volumeClaimTemplateName mountPath = Except.error Fault.nilDereference := by
  unfold Creator.setupStatefulSetApplyVolumeClaimTemplate
  cases hg : deps.GetVolumeClaimTemplate c.chi volumeClaimTemplateName with
  | none => simp [hg] at hv
  | some template =>
    simp [hname, getContainerByName_none statefulSet containerName hno]

/-- C25 fails in the code: the pod template of the example host has the single container
`sidecar` (none named `clickhouse`), the data volume-claim template `data` of the host
exists, `getContainerByName` finds no container for `setupStatefulSetApplyVolumeClaimTemplate`,
and `CreateStatefulSet` ends in the nil dereference. -/
theorem CreateStatefulSet_faults_on_missing_container :
    (∀ container ∈
        (resolvedPodTemplate exampleDepsSidecarOnly exampleCreatorSidecarOnly
          exampleHostData).Spec.Containers,
      container.Name ≠ exampleDepsSidecarOnly.ClickHouseContainerName) ∧
    (exampleDepsSidecarOnly.GetVolumeClaimTemplate exampleCreatorSidecarOnly.chi
      exampleHostData.Templates.DataVolumeClaimTemplate).isSome = true ∧
    getContainerByName
      (exampleCreatorSidecarOnly.setupStatefulSetPodTemplate exampleDepsSidecarOnly {}
        exampleHostData)
      exampleDepsSidecarOnly.ClickHouseContainerName = none ∧
    exampleCreatorSidecarOnly.CreateStatefulSet exampleDepsSidecarOnly exampleHostData
      = Except.error Fault.nilDereference :=
  ⟨by decide, by decide, by decide, rfl⟩

theorem keepsPodTemplate_refl (statefulSet : StatefulSet) :
    KeepsPodTemplate statefulSet statefulSet :=
  ⟨rfl, rfl, fun _ container h => ⟨container, h, rfl, fun _ hv => hv⟩⟩

theorem keepsPodTemplate_trans (a b d : StatefulSet) (h1 : KeepsPodTemplate a b)
    (h2 : KeepsPodTemplate b d) : KeepsPodTemplate a d := by
  refine ⟨h2.1.trans h1.1, h2.2.1.trans h1.2.1, ?_⟩
  intro j container hj
  obtain ⟨c2, hc2, hn2, hm2⟩ := h1.2.2 j container hj
  obtain ⟨c3, hc3, hn3, hm3⟩ := h2.2.2 j c2 hc2
  exact ⟨c3, hc3, hn3.trans hn2, fun v hv => hm3 v (hm2 v hv)⟩

theorem keepsPodTemplate_of_eq (a b : StatefulSet)
    (h1 : b.Spec.ServiceName = a.Spec.ServiceName)
    (h2 : b.Spec.Template = a.Spec.Template) : KeepsPodTemplate a b := by
  refine ⟨h1, by rw [h2], ?_⟩
  intro j container hj
  rw [h2]
  exact ⟨container, hj, rfl, fun _ hv => hv⟩

theorem statefulSetAppendVolumeClaimTemplate_serviceName (statefulSet : StatefulSet)
    (template : ChiVolumeClaimTemplate) :
    (statefulSetAppendVolumeClaimTemplate statefulSet template).Spec.ServiceName
      = statefulSet.Spec.ServiceName := by
  unfold statefulSetAppendVolumeClaimTemplate
  split <;> rfl

theorem applyVolumeMounts_keeps (deps : Deps) (c : Creator) (volumeMounts : List VolumeMount)
    (statefulSet : StatefulSet) :
    (c.applyVolumeMounts deps statefulSet volumeMounts).Spec.ServiceName
        = statefulSet.Spec.ServiceName ∧
      (c.applyVolumeMounts deps statefulSet volumeMounts).Spec.Template
        = statefulSet.Spec.Template := by
  induction volumeMounts generalizing statefulSet with
  | nil => exact ⟨rfl, rfl⟩
  | cons volumeMount rest ih =>
    unfold Creator.applyVolumeMounts
    cases deps.GetVolumeClaimTemplate c.chi volumeMount.Name with
    | none => exact ih statefulSet
    | some template =>
      have h := ih (statefulSetAppendVolumeClaimTemplate statefulSet template)
      exact ⟨h.1.trans (statefulSetAppendVolumeClaimTemplate_serviceName _ _),
        h.2.trans (statefulSetAppendVolumeClaimTemplate_template _ _)⟩

theorem foldl_applyVolumeMounts_keeps (deps : Deps) (c : Creator)
    (containers : List Container) (statefulSet : StatefulSet) :
    (containers.foldl
        (fun statefulSet container =>
          c.applyVolumeMounts deps statefulSet container.VolumeMounts)
        statefulSet).Spec.ServiceName = statefulSet.Spec.ServiceName ∧
      (containers.foldl
        (fun statefulSet container =>
          c.applyVolumeMounts deps statefulSet container.VolumeMounts)
        statefulSet).Spec.Template = statefulSet.Spec.Template := by
  induction containers generalizing statefulSet with
  | nil => exact ⟨rfl, rfl⟩
  | cons container rest ih =>
    have h := ih (c.applyVolumeMounts deps statefulSet container.VolumeMounts)
    have h2 := applyVolumeMounts_keeps deps c container.VolumeMounts statefulSet
    exact ⟨h.1.trans h2.1, h.2.trans h2.2⟩

theorem setupStatefulSetApplyVolumeMounts_keeps (deps : Deps) (c : Creator)
    (statefulSet : StatefulSet) :
    (c.setupStatefulSetApplyVolumeMounts deps statefulSet).Spec.ServiceName
        = statefulSet.Spec.ServiceName ∧
      (c.setupStatefulSetApplyVolumeMounts deps statefulSet).Spec.Template
        = statefulSet.Spec.Template :=
  foldl_applyVolumeMounts_keeps deps c _ statefulSet

/-- When `setupStatefulSetApplyVolumeClaimTemplate` returns, it returns the StatefulSet it was
given or that one with the claim listed and the mount appended to one container. -/
theorem setupStatefulSetApplyVolumeClaimTemplate_ok (deps : Deps) (c : Creator)
    (statefulSet result : StatefulSet)
    (containerName volumeClaimTemplateName mountPath : String)
    (h : c.setupStatefulSetApplyVolumeClaimTemplate deps statefulSet containerName
      volumeClaimTemplateName mountPath = Except.ok result) :
    result = statefulSet ∨ ∃ template i,
      result = setContainers (statefulSetAppendVolumeClaimTemplate statefulSet template)
        (statefulSet.Spec.Template.Spec.Containers.modify
          (fun container =>
            { container with
              VolumeMounts := container.VolumeMounts ++
                [newVolumeMount volumeClaimTemplateName mountPath] }) i) := by
  unfold Creator.setupStatefulSetApplyVolumeClaimTemplate at h
  simp only [statefulSetAppendVolumeClaimTemplate_template] at h
  split at h
  · exact Or.inl (Except.ok.inj h).symm
  · split at h
    · exact Or.inl (Except.ok.inj h).symm
    · split at h
      · cases h
      · split at h
        · cases h
        · split at h
          · exact Or.inl (Except.ok.inj h).symm
          · split at h
            · exact Or.inl (Except.ok.inj h).symm
            · split at h
              · exact Or.inr ⟨_, _, (Except.ok.inj h).symm⟩
              · exact Or.inl (Except.ok.inj h).symm

theorem setupStatefulSetApplyVolumeClaimTemplate_keeps (deps : Deps) (c : Creator)
    (statefulSet result : StatefulSet)
    (containerName volumeClaimTemplateName mountPath : String)
    (h : c.setupStatefulSetApplyVolumeClaimTemplate deps statefulSet containerName
      volumeClaimTemplateName mountPath = Except.ok result) :
    KeepsPodTemplate statefulSet result := by
  rcases setupStatefulSetApplyVolumeClaimTemplate_ok deps c statefulSet result containerName
    volumeClaimTemplateName mountPath h with h1 | ⟨template, i, h1⟩
  · rw [h1]
    exact keepsPodTemplate_refl statefulSet
  · rw [h1]
    refine ⟨?_, ?_, ?_⟩
    · simp only [setContainers]
      exact statefulSetAppendVolumeClaimTemplate_serviceName _ _
    · simp only [setContainers, statefulSetAppendVolumeClaimTemplate_template]
    · intro j container hj
      simp only [setContainers, List.getElem?_modify, hj]
      by_cases hij : i = j
      · refine ⟨{ container with
            VolumeMounts := container.VolumeMounts ++
              [newVolumeMount volumeClaimTemplateName mountPath] }, by simp [hij], rfl, ?_⟩
        intro v hv
        exact List.mem_append_left _ hv
      · exact ⟨container, by simp [hij], rfl, fun _ hv => hv⟩

theorem setupStatefulSetVolumeClaimTemplates_keeps (deps : Deps) (c : Creator)
    (statefulSet result : StatefulSet) (host : ChiHost)
    (h : c.setupStatefulSetVolumeClaimTemplates deps statefulSet host = Except.ok result) :
    KeepsPodTemplate statefulSet result := by
  unfold Creator.setupStatefulSetVolumeClaimTemplates at h
  have h0 := setupStatefulSetApplyVolumeMounts_keeps deps c statefulSet
  have k0 := keepsPodTemplate_of_eq statefulSet _ h0.1 h0.2
  cases h1 : c.setupStatefulSetApplyVolumeClaimTemplate deps
      (c.setupStatefulSetApplyVolumeMounts deps statefulSet) deps.ClickHouseContainerName
      host.Templates.DataVolumeClaimTemplate deps.dirPathClickHouseData with
  | error e => simp [h1, bind, Except.bind] at h
  | ok s1 =>
    cases h2 : c.setupStatefulSetApplyVolumeClaimTemplate deps s1
        deps.ClickHouseContainerName host.Templates.LogVolumeClaimTemplate
        deps.dirPathClickHouseLog with
    | error e => simp [h1, h2, bind, Except.bind] at h
    | ok s2 =>
      simp only [h1, h2, bind, Except.bind] at h
      have k1 := setupStatefulSetApplyVolumeClaimTemplate_keeps deps c _ _ _ _ _ h1
      have k2 := setupStatefulSetApplyVolumeClaimTemplate_keeps deps c _ _ _ _ _ h2
      have k3 := setupStatefulSetApplyVolumeClaimTemplate_keeps deps c _ _ _ _ _ h
      exact keepsPodTemplate_trans _ _ _ (keepsPodTemplate_trans _ _ _
        (keepsPodTemplate_trans _ _ _ k0 k1) k2) k3

theorem setupStatefulSetPodTemplate_serviceName (deps : Deps) (c : Creator)
    (statefulSet : StatefulSet) (host : ChiHost) :
    (c.setupStatefulSetPodTemplate deps statefulSet host).Spec.ServiceName
      = statefulSet.Spec.ServiceName := by
  unfold Creator.setupStatefulSetPodTemplate Creator.setupConfigMapVolumes
    statefulSetCopyPodTemplate
  cases deps.GetPodTemplate c.chi host <;>
    by_cases hl : host.Templates.LogVolumeClaimTemplate = "" <;> simp [hl]

theorem setupStatefulSetPodTemplate_volumes (deps : Deps) (c : Creator)
    (statefulSet : StatefulSet) (host : ChiHost) :
    (c.setupStatefulSetPodTemplate deps statefulSet host).Spec.Template.Spec.Volumes
      = (resolvedPodTemplate deps c host).Spec.Volumes ++
          [ newVolumeForConfigMap (deps.CreateConfigMapCommonName c.chi),
            newVolumeForConfigMap (deps.CreateConfigMapCommonUsersName c.chi),
            newVolumeForConfigMap (deps.CreateConfigMapPodName host) ] := by
  unfold Creator.setupStatefulSetPodTemplate Creator.setupConfigMapVolumes
    statefulSetCopyPodTemplate resolvedPodTemplate
  cases deps.GetPodTemplate c.chi host <;>
    by_cases hl : host.Templates.LogVolumeClaimTemplate = "" <;> simp [hl, addContainer]

theorem setupStatefulSetPodTemplate_containers (deps : Deps) (c : Creator)
    (statefulSet : StatefulSet) (host : ChiHost) :
    (c.setupStatefulSetPodTemplate deps statefulSet host).Spec.Template.Spec.Containers
      = (resolvedPodTemplate deps c host).Spec.Containers.map
          (fun container =>
            { container with
              VolumeMounts := container.VolumeMounts ++
                [ newVolumeMount (deps.CreateConfigMapCommonName c.chi) deps.dirPathConfigd,
                  newVolumeMount (deps.CreateConfigMapCommonUsersName c.chi)
                    deps.dirPathUsersd,
                  newVolumeMount (deps.CreateConfigMapPodName host) deps.dirPathConfd ] })
        ++ (if host.Templates.LogVolumeClaimTemplate ≠ "" then
              [ { Name := deps.ClickHouseLogContainerName
                  Image := deps.defaultBusyBoxDockerImage
                  Command := ["/bin/sh", "-c", "--"]
                  Args := ["while true; do sleep 30; done;"] } ]
            else []) := by
  unfold Creator.setupStatefulSetPodTemplate Creator.setupConfigMapVolumes
    statefulSetCopyPodTemplate resolvedPodTemplate
  cases deps.GetPodTemplate c.chi host <;>
    by_cases hl : host.Templates.LogVolumeClaimTemplate = "" <;> simp [hl, addContainer]

theorem CreateServiceHost_name (deps : Deps) (c : Creator) (host : ChiHost)
    (service : Service) (h : c.CreateServiceHost deps host = some service) :
    service.ObjectMeta.Name = deps.CreateStatefulSetServiceName host := by
  unfold Creator.CreateServiceHost at h
  cases ht : deps.GetHostServiceTemplate c.chi host with
  | none =>
    simp only [ht] at h
    rw [← Option.some.inj h]
  | some template =>
    simp only [ht, createServiceFromTemplate] at h
    cases hp : verifyServiceTemplatePorts template with
    | some e => simp [hp] at h
    | none =>
      simp only [hp] at h
      rw [← Option.some.inj h]

/-- What `CreateStatefulSet` returns keeps the pod template as `setupStatefulSetPodTemplate`
built it. -/
theorem CreateStatefulSet_keeps (deps : Deps) (c : Creator) (host : ChiHost)
    (statefulSet : StatefulSet) (h : c.CreateStatefulSet deps host = Except.ok statefulSet) :
    ∃ initial : StatefulSet,
      initial.Spec.ServiceName = deps.CreateStatefulSetServiceName host ∧
      KeepsPodTemplate (c.setupStatefulSetPodTemplate deps initial host) statefulSet := by
  unfold Creator.CreateStatefulSet at h
  exact ⟨_, rfl, setupStatefulSetVolumeClaimTemplates_keeps deps c _ statefulSet host h⟩

/-- C21. For every host for which `CreateStatefulSet` returns a StatefulSet: its
`Spec.ServiceName` is the `Name` of the Service that `CreateServiceHost` returns for the host
(whenever that one is not nil); its pod template has, for each of the ConfigMaps returned by
`CreateConfigMapChiCommon`, `CreateConfigMapChiCommonUsers` and `CreateConfigMapHost`, a
volume whose `Name` is the `Name` of the ConfigMap and whose source is the ConfigMap of that
name; and every container taken from the pod template of the host (the referenced one or
the default one) is in the StatefulSet at the same position and under the same name, with
a VolumeMount whose `Name` is the `Name` of the ConfigMap, for each of the three, at the
paths `dirPathConfigd`, `dirPathUsersd` and `dirPathConfd`. -/
theorem CreateStatefulSet_refers_by_created_names (deps : Deps) (c : Creator) (host : ChiHost)
    (statefulSet : StatefulSet) (h : c.CreateStatefulSet deps host = Except.ok statefulSet) :
    (∀ service, c.CreateServiceHost deps host = some service →
      statefulSet.Spec.ServiceName = service.ObjectMeta.Name) ∧
    (∃ volume ∈ statefulSet.Spec.Template.Spec.Volumes,
      volume.Name = (c.CreateConfigMapChiCommon deps).ObjectMeta.Name ∧
      volume.ConfigMap = some (c.CreateConfigMapChiCommon deps).ObjectMeta.Name) ∧
    (∃ volume ∈ statefulSet.Spec.Template.Spec.Volumes,
      volume.Name = (c.CreateConfigMapChiCommonUsers deps).ObjectMeta.Name ∧
      volume.ConfigMap = some (c.CreateConfigMapChiCommonUsers deps).ObjectMeta.Name) ∧
    (∃ volume ∈ statefulSet.Spec.Template.Spec.Volumes,
      volume.Name = (c.CreateConfigMapHost deps host).ObjectMeta.Name ∧
      volume.ConfigMap = some (c.CreateConfigMapHost deps host).ObjectMeta.Name) ∧
    ∀ (j : Nat) (templateContainer : Container),
      (resolvedPodTemplate deps c host).Spec.Containers[j]? = some templateContainer →
      ∃ container : Container,
        statefulSet.Spec.Template.Spec.Containers[j]? = some container ∧
        container.Name = templateContainer.Name ∧
        (∃ volumeMount ∈ container.VolumeMounts,
          volumeMount.Name = (c.CreateConfigMapChiCommon deps).ObjectMeta.Name ∧
          volumeMount.MountPath = deps.dirPathConfigd) ∧
        (∃ volumeMount ∈ container.VolumeMounts,
          volumeMount.Name = (c.CreateConfigMapChiCommonUsers deps).ObjectMeta.Name ∧
          volumeMount.MountPath = deps.dirPathUsersd) ∧
        (∃ volumeMount ∈ container.VolumeMounts,
          volumeMount.Name = (c.CreateConfigMapHost deps host).ObjectMeta.Name ∧
          volumeMount.MountPath = deps.dirPathConfd) := by
  obtain ⟨initial, hs, hk⟩ := CreateStatefulSet_keeps deps c host statefulSet h
  have hv : statefulSet.Spec.Template.Spec.Volumes
      = (resolvedPodTemplate deps c host).Spec.Volumes ++
          [ newVolumeForConfigMap (deps.CreateConfigMapCommonName c.chi),
            newVolumeForConfigMap (deps.CreateConfigMapCommonUsersName c.chi),
            newVolumeForConfigMap (deps.CreateConfigMapPodName host) ] :=
    hk.2.1.trans (setupStatefulSetPodTemplate_volumes deps c initial host)
  refine ⟨?_, ?_, ?_, ?_, ?_⟩
  · intro service hsvc
    rw [CreateServiceHost_name deps c host service hsvc, hk.1,
      setupStatefulSetPodTemplate_serviceName, hs]
  · exact ⟨newVolumeForConfigMap (deps.CreateConfigMapCommonName c.chi),
      by rw [hv]; simp, rfl, rfl⟩
  · exact ⟨newVolumeForConfigMap (deps.CreateConfigMapCommonUsersName c.chi),
      by rw [hv]; simp, rfl, rfl⟩
  · exact ⟨newVolumeForConfigMap (deps.CreateConfigMapPodName host),
      by rw [hv]; simp, rfl, rfl⟩
  · intro j templateContainer hj
    have hlt : j < (resolvedPodTemplate deps c host).Spec.Containers.length := by
      by_contra hc
      rw [List.getElem?_eq_none (Nat.le_of_not_lt hc)] at hj
      cases hj
    have hp : (c.setupStatefulSetPodTemplate deps initial host).Spec.Template.Spec.Containers[j]?
        = some { templateContainer with
            VolumeMounts := templateContainer.VolumeMounts ++
              [ newVolumeMount (deps.CreateConfigMapCommonName c.chi) deps.dirPathConfigd,
                newVolumeMount (deps.CreateConfigMapCommonUsersName c.chi)
                  deps.dirPathUsersd,
                newVolumeMount (deps.CreateConfigMapPodName host) deps.dirPathConfd ] } := by
      rw [setupStatefulSetPodTemplate_containers,
        List.getElem?_append_left (by simpa using hlt)]
      simp [hj]
    obtain ⟨container, hc1, hc2, hc3⟩ := hk.2.2 j _ hp
    refine ⟨container, hc1, hc2, ?_, ?_, ?_⟩
    · exact ⟨newVolumeMount (deps.CreateConfigMapCommonName c.chi) deps.dirPathConfigd,
        hc3 _ (by simp), rfl, rfl⟩
    · exact ⟨newVolumeMount (deps.CreateConfigMapCommonUsersName c.chi) deps.dirPathUsersd,
        hc3 _ (by simp), rfl, rfl⟩
    · exact ⟨newVolumeMount (deps.CreateConfigMapPodName host) deps.dirPathConfd,
        hc3 _ (by simp), rfl, rfl⟩

/-- C21 on host 0 of the example: the StatefulSet and the Service carry the name
`chi-c1-0-0`, the pod template has the volume `chi-chi-common-configd` for the ConfigMap of
that name, and the container `clickhouse` of the pod template mounts it at the `config.d`
path. -/
theorem CreateStatefulSet_refers_by_created_names_witness :
    exampleCreator.CreateStatefulSet exampleDeps (exampleHost 0)
        = Except.ok (exampleStatefulSet (exampleHost 0)) ∧
      (∃ service, exampleCreator.CreateServiceHost exampleDeps (exampleHost 0) = some service ∧
        service.ObjectMeta.Name = "chi-c1-0-0" ∧
        (exampleStatefulSet (exampleHost 0)).Spec.ServiceName = service.ObjectMeta.Name) ∧
      (exampleCreator.CreateConfigMapChiCommon exampleDeps).ObjectMeta.Name
        = "chi-chi-common-configd" ∧
      (∃ volume ∈ (exampleStatefulSet (exampleHost 0)).Spec.Template.Spec.Volumes,
        volume.Name = "chi-chi-common-configd" ∧
        volume.ConfigMap = some "chi-chi-common-configd") ∧
      ∃ container : Container,
        (exampleStatefulSet (exampleHost 0)).Spec.Template.Spec.Containers[0]?
          = some container ∧
        container.Name = "clickhouse" ∧
        ∃ volumeMount ∈ container.VolumeMounts,
          volumeMount.Name = "chi-chi-common-configd" ∧
          volumeMount.MountPath = "/etc/clickhouse-server/config.d/" :=
  have h := CreateStatefulSet_refers_by_created_names exampleDeps exampleCreator (exampleHost 0)
    (exampleStatefulSet (exampleHost 0)) rfl
  ⟨rfl, ⟨_, rfl, rfl, h.1 _ rfl⟩, rfl, h.2.1,
    match h.2.2.2.2 0 { Name := "clickhouse" } rfl with
    | ⟨container, h1, h2, h3, _, _⟩ => ⟨container, h1, h2, h3⟩⟩

theorem modify_volumeMounts_names (containers : List Container) (i : Nat)
    (volumeMount : VolumeMount) :
    (containers.modify
        (fun container =>
          { container with VolumeMounts := container.VolumeMounts ++ [volumeMount] }) i).map
        (fun container => container.Name)
      = containers.map (fun container => container.Name) := by
  apply List.ext_getElem?
  intro j
  simp only [List.getElem?_map, List.getElem?_modify]
  cases containers[j]? with
  | none => rfl
  | some container =>
    by_cases hij : i = j
    · simp [hij]
    · simp [hij]

theorem setupStatefulSetApplyVolumeClaimTemplate_names (deps : Deps) (c : Creator)
    (statefulSet result : StatefulSet)
    (containerName volumeClaimTemplateName mountPath : String)
    (h : c.setupStatefulSetApplyVolumeClaimTemplate deps statefulSet containerName
      volumeClaimTemplateName mountPath = Except.ok result) :
    result.Spec.Template.Spec.Containers.map (fun container => container.Name)
      = statefulSet.Spec.Template.Spec.Containers.map (fun container => container.Name) := by
  rcases setupStatefulSetApplyVolumeClaimTemplate_ok deps c statefulSet result containerName
    volumeClaimTemplateName mountPath h with h1 | ⟨template, i, h1⟩
  · rw [h1]
  · rw [h1]
    simp only [setContainers]
    exact modify_volumeMounts_names _ i _

theorem setupStatefulSetApplyVolumeClaimTemplate_fault (deps : Deps) (c : Creator)
    (statefulSet : StatefulSet) (containerName volumeClaimTemplateName mountPath : String)
    (e : Fault)
    (h : c.setupStatefulSetApplyVolumeClaimTemplate deps statefulSet containerName
      volumeClaimTemplateName mountPath = Except.error e) :
    e = Fault.nilDereference := by
  unfold Creator.setupStatefulSetApplyVolumeClaimTemplate at h
  split at h
  · cases h
  · split at h
    · cases h
    · split at h
      · cases h; rfl
      · split at h
        · cases h; rfl
        · split at h
          · cases h
          · split at h
            · cases h
            · split at h
              · cases h
              · cases h

theorem setupStatefulSetApplyVolumeClaimTemplate_returns (deps : Deps) (c : Creator)
    (statefulSet : StatefulSet) (containerName volumeClaimTemplateName mountPath : String)
    (h : containerName
      ∈ statefulSet.Spec.Template.Spec.Containers.map (fun container => container.Name)) :
    ∃ result, c.setupStatefulSetApplyVolumeClaimTemplate deps statefulSet containerName
      volumeClaimTemplateName mountPath = Except.ok result := by
  cases hg : getContainerByName statefulSet containerName with
  | none =>
    exfalso
    unfold getContainerByName at hg
    cases hf : statefulSet.Spec.Template.Spec.Containers.findIdx?
        (fun container => decide (container.Name = containerName)) with
    | some j => simp [hf] at hg
    | none =>
      obtain ⟨container, hc, hn⟩ := List.mem_map.1 h
      have := List.findIdx?_eq_none_iff.1 hf container hc
      simp [hn] at this
  | some i =>
    obtain ⟨container, hc, _⟩ := getContainerByName_some statefulSet containerName i hg
    exact ⟨_, setupStatefulSetApplyVolumeClaimTemplate_run deps c statefulSet containerName
      volumeClaimTemplateName mountPath i container hg hc⟩

theorem setupStatefulSetApplyVolumeClaimTemplate_empty (deps : Deps) (c : Creator)
    (statefulSet : StatefulSet) (containerName mountPath : String) :
    c.setupStatefulSetApplyVolumeClaimTemplate deps statefulSet containerName "" mountPath
      = Except.ok statefulSet := by
  simp [Creator.setupStatefulSetApplyVolumeClaimTemplate]

theorem setupStatefulSetPodTemplate_names (deps : Deps) (c : Creator)
    (statefulSet : StatefulSet) (host : ChiHost) :
    (c.setupStatefulSetApplyVolumeMounts deps
        (c.setupStatefulSetPodTemplate deps statefulSet host)).Spec.Template.Spec.Containers.map
        (fun container => container.Name)
      = (resolvedPodTemplate deps c host).Spec.Containers.map (fun container => container.Name)
        ++ (if host.Templates.LogVolumeClaimTemplate ≠ "" then
              [deps.ClickHouseLogContainerName] else []) := by
  rw [(setupStatefulSetApplyVolumeMounts_keeps deps c _).2,
    setupStatefulSetPodTemplate_containers]
  by_cases hl : host.Templates.LogVolumeClaimTemplate = ""
  · simp [hl, Function.comp_def]
  · simp [hl, Function.comp_def]

theorem setupStatefulSetVolumeClaimTemplates_returns (deps : Deps) (c : Creator)
    (initial : StatefulSet) (host : ChiHost)
    (h : ∃ container ∈ (resolvedPodTemplate deps c host).Spec.Containers,
      container.Name = deps.ClickHouseContainerName) :
    ∃ statefulSet, c.setupStatefulSetVolumeClaimTemplates deps
      (c.setupStatefulSetPodTemplate deps initial host) host = Except.ok statefulSet := by
  unfold Creator.setupStatefulSetVolumeClaimTemplates
  have hn := setupStatefulSetPodTemplate_names deps c initial host
  have hch : deps.ClickHouseContainerName ∈
      (c.setupStatefulSetApplyVolumeMounts deps
        (c.setupStatefulSetPodTemplate deps initial host)).Spec.Template.Spec.Containers.map
        (fun container => container.Name) := by
    rw [hn]
    obtain ⟨container, hc, hcn⟩ := h
    exact List.mem_append_left _ (List.mem_map.2 ⟨container, hc, hcn⟩)
  obtain ⟨s1, h1⟩ := setupStatefulSetApplyVolumeClaimTemplate_returns deps c _
    deps.ClickHouseContainerName host.Templates.DataVolumeClaimTemplate
    deps.dirPathClickHouseData hch
  have hn1 := setupStatefulSetApplyVolumeClaimTemplate_names deps c _ _ _ _ _ h1
  obtain ⟨s2, h2⟩ := setupStatefulSetApplyVolumeClaimTemplate_returns deps c s1
    deps.ClickHouseContainerName host.Templates.LogVolumeClaimTemplate
    deps.dirPathClickHouseLog (by rw [hn1]; exact hch)
  have hn2 := setupStatefulSetApplyVolumeClaimTemplate_names deps c _ _ _ _ _ h2
  have h3 : ∃ s3, c.setupStatefulSetApplyVolumeClaimTemplate deps s2
      deps.ClickHouseLogContainerName host.Templates.LogVolumeClaimTemplate
      deps.dirPathClickHouseLog = Except.ok s3 := by
    by_cases hl : host.Templates.LogVolumeClaimTemplate = ""
    · rw [hl]
      exact ⟨s2, setupStatefulSetApplyVolumeClaimTemplate_empty deps c s2 _ _⟩
    · apply setupStatefulSetApplyVolumeClaimTemplate_returns
      rw [hn2, hn1, hn]
      simp [hl]
  obtain ⟨s3, h3⟩ := h3
  exact ⟨s3, by simp only [h1, h2, h3, bind, Except.bind]⟩

theorem setupStatefulSetVolumeClaimTemplates_faults (deps : Deps) (c : Creator)
    (initial : StatefulSet) (host : ChiHost)
    (hno : ∀ container ∈ (resolvedPodTemplate deps c host).Spec.Containers,
      container.Name ≠ deps.ClickHouseContainerName)
    (hne : deps.ClickHouseLogContainerName ≠ deps.ClickHouseContainerName)
    (hv : (host.Templates.DataVolumeClaimTemplate ≠ "" ∧
          (deps.GetVolumeClaimTemplate c.chi host.Templates.DataVolumeClaimTemplate).isSome) ∨
        (host.Templates.LogVolumeClaimTemplate ≠ "" ∧
          (deps.GetVolumeClaimTemplate c.chi host.Templates.LogVolumeClaimTemplate).isSome)) :
    c.setupStatefulSetVolumeClaimTemplates deps
      (c.setupStatefulSetPodTemplate deps initial host) host
        = Except.error Fault.nilDereference := by
  unfold Creator.setupStatefulSetVolumeClaimTemplates
  have hn := setupStatefulSetPodTemplate_names deps c initial host
  have hnames : ∀ statefulSet : StatefulSet,
      statefulSet.Spec.Template.Spec.Containers.map (fun container => container.Name)
        = (resolvedPodTemplate deps c host).Spec.Containers.map
            (fun container => container.Name)
          ++ (if host.Templates.LogVolumeClaimTemplate ≠ "" then
                [deps.ClickHouseLogContainerName] else []) →
      ∀ container ∈ statefulSet.Spec.Template.Spec.Containers,
        container.Name ≠ deps.ClickHouseContainerName := by
    intro statefulSet hs container hc e
    have hmem : deps.ClickHouseContainerName ∈
        statefulSet.Spec.Template.Spec.Containers.map (fun container => container.Name) :=
      List.mem_map.2 ⟨container, hc, e⟩
    rw [hs] at hmem
    rcases List.mem_append.1 hmem with hm | hm
    · obtain ⟨x, hx, hxn⟩ := List.mem_map.1 hm
      exact hno x hx hxn
    · by_cases hl : host.Templates.LogVolumeClaimTemplate = ""
      · simp [hl] at hm
      · simp [hl] at hm
        exact hne hm.symm
  cases h1 : c.setupStatefulSetApplyVolumeClaimTemplate deps
      (c.setupStatefulSetApplyVolumeMounts deps
        (c.setupStatefulSetPodTemplate deps initial host)) deps.ClickHouseContainerName
      host.Templates.DataVolumeClaimTemplate deps.dirPathClickHouseData with
  | error e =>
    have he := setupStatefulSetApplyVolumeClaimTemplate_fault deps c _ _ _ _ e h1
    subst he
    simp only [bind, Except.bind, h1]
  | ok s1 =>
    have hn1 := setupStatefulSetApplyVolumeClaimTemplate_names deps c _ _ _ _ _ h1
    rcases hv with ⟨hd1, hd2⟩ | ⟨hl1, hl2⟩
    · rw [setupStatefulSetApplyVolumeClaimTemplate_faults deps c _ _ _ _ hd1 hd2
        (hnames _ hn)] at h1
      cases h1
    · have h2 := setupStatefulSetApplyVolumeClaimTemplate_faults deps c s1
        deps.ClickHouseContainerName host.Templates.LogVolumeClaimTemplate
        deps.dirPathClickHouseLog hl1 hl2 (hnames s1 (hn1.trans hn))
      simp only [bind, Except.bind, h1, h2]

/-- The construction is free of the fault when the pod template of the host (the referenced
one or the default one) has a container named `ClickHouseContainerName`. -/
theorem CreateStatefulSet_returns (deps : Deps) (c : Creator) (host : ChiHost)
    (h : ∃ container ∈ (resolvedPodTemplate deps c host).Spec.Containers,
      container.Name = deps.ClickHouseContainerName) :
    ∃ statefulSet, c.CreateStatefulSet deps host = Except.ok statefulSet := by
  unfold Creator.CreateStatefulSet
  exact setupStatefulSetVolumeClaimTemplates_returns deps c _ host h

/-- The construction ends in the nil dereference when the pod template of the host has no
container named `ClickHouseContainerName` and the data or the log volume-claim template of
the host exists (the log container carrying another name). -/
theorem CreateStatefulSet_faults_without_container (deps : Deps) (c : Creator) (host : ChiHost)
    (hno : ∀ container ∈ (resolvedPodTemplate deps c host).Spec.Containers,
      container.Name ≠ deps.ClickHouseContainerName)
    (hne : deps.ClickHouseLogContainerName ≠ deps.ClickHouseContainerName)
    (hv : (host.Templates.DataVolumeClaimTemplate ≠ "" ∧
          (deps.GetVolumeClaimTemplate c.chi host.Templates.DataVolumeClaimTemplate).isSome) ∨
        (host.Templates.LogVolumeClaimTemplate ≠ "" ∧
          (deps.GetVolumeClaimTemplate c.chi host.Templates.LogVolumeClaimTemplate).isSome)) :
    c.CreateStatefulSet deps host = Except.error Fault.nilDereference := by
  unfold Creator.CreateStatefulSet
  exact setupStatefulSetVolumeClaimTemplates_faults deps c _ host hno hne hv

end Chi
